import Mathlib

/-!
# AGVComm: command arbitration, emergency state and session tokens

A shallow embedding of the three variants of the communication layer:
`src/AGVCoreNetwork.cpp` / `src/AGVCoreNetwork.h` (namespace `AGVCoreNetworkLib`),
`src/AGV_CommunicationHub.cpp` (namespace `AGVCommunicationHub`) and
`src/AGVComm.cpp` / `src/AGVComm.h` (namespace `AGVCommLib`).

* The fields of the C++ class `AGVCoreNetwork` are the fields of the structure
  `AGVCoreNetworkLib.AGVCoreNetwork`; pointers are modelled by whether they are
  non-null (`Bool`), the web server by the routes registered on it.
* Everything outside the class (the FreeRTOS lock, the preference store, the
  radio, the random source, the serial link, and the record of the calls made
  into the callbacks, the socket server and the HTTP server) lives in
  `AGVCoreNetworkLib.Device`; the other two classes follow the same plan.
* The callbacks are function pointers into the application. A call is
  recorded as an `Event`; the application code behind the pointer is not part of
  this repository and is taken not to re-enter the network object.
* `Serial.print*` diagnostics are not recorded.
* A loop that can fail to end takes a bound on the number of its tests (`fuel`)
  and yields `none` when they are used up before the loop has ended.
* A `const char*` is modelled by the `String` of the characters before its
  terminator (`none` for a null pointer where the code tests for one); an Arduino
  `String` by a Lean `String`.
-/

namespace Arduino

/-- The C library `isspace` in the default locale. -/
def isSpace (c : Char) : Bool :=
  c == ' ' || c == '\t' || c == '\n' || c == '\x0b' || c == '\x0c' || c == '\r'

/-- Characters left by `String::trim`: leading and trailing `isspace` characters removed. -/
def trimChars (l : List Char) : List Char :=
  ((l.dropWhile isSpace).reverse.dropWhile isSpace).reverse

/-- Arduino `String::trim`. -/
def trim (s : String) : String := ⟨trimChars s.data⟩

/-- Arduino `String::equalsIgnoreCase`: same length and equal after `tolower`. -/
def equalsIgnoreCase (s t : String) : Bool :=
  s.data.length == t.data.length && s.data.map Char.toLower == t.data.map Char.toLower

/-- Test whether `p` is an initial segment of `l`. -/
def startsWithChars : List Char → List Char → Bool
  | [], _ => true
  | _ :: _, [] => false
  | p :: ps, c :: cs => p == c && startsWithChars ps cs

/-- Arduino `String::startsWith`. -/
def startsWith (s p : String) : Bool := startsWithChars p.data s.data

/-- The C library `strlen`. -/
def strlen (s : String) : Nat := s.data.length

/-- The C library `strstr` on the tail `l`: offset of the first occurrence of `p`. -/
def strstr (p : List Char) : List Char → Option Nat
  | [] => if p.isEmpty then some 0 else none
  | c :: cs =>
    if startsWithChars p (c :: cs) then some 0
    else (strstr p cs).map (· + 1)

/-- Arduino `String::indexOf(const String&, unsigned int fromIndex)`; the `int` argument of
the callers is converted to `unsigned int`, so a negative index is beyond every length. -/
def indexOf (s p : String) (fromIndex : Int) : Int :=
  if fromIndex < 0 then -1
  else if fromIndex.toNat ≥ s.data.length then -1
  else
    match strstr p.data (s.data.drop fromIndex.toNat) with
    | none => -1
    | some k => (fromIndex.toNat + k : Nat)

/-- Arduino `String::substring(unsigned int left, unsigned int right)` for the
non-negative arguments the callers pass. -/
def substring (s : String) (left right : Nat) : String :=
  let l := if left > right then right else left
  let r := if left > right then left else right
  if l ≥ s.data.length then ""
  else
    let r := if r > s.data.length then s.data.length else r
    ⟨(s.data.drop l).take (r - l)⟩

/-- Arduino `String::substring(unsigned int beginIndex)`. -/
def substringFrom (s : String) (beginIndex : Nat) : String :=
  substring s beginIndex s.data.length

/-- The digit `String(n, HEX)` prints for `n < 16`. -/
def hexDigit (n : Nat) : Char :=
  if n < 10 then Char.ofNat (48 + n) else Char.ofNat (87 + n)

end Arduino

namespace AGVCoreNetworkLib

open Arduino

/-- Request methods the handlers distinguish. -/
inductive HTTPMethod
  | HTTP_GET
  | HTTP_POST
  | HTTP_OTHER
  deriving DecidableEq, Repr

/-- The pages of `AGVCoreNetwork_Resources.h`. -/
inductive Page
  | wifiSetupPage
  | loginPage
  | mainPage
  deriving DecidableEq, Repr

/-- Socket event types handled by `webSocketEvent`. -/
inductive WStype_t
  | WStype_DISCONNECTED
  | WStype_CONNECTED
  | WStype_TEXT
  | WStype_OTHER
  deriving DecidableEq, Repr

/-- Calls made out of the network object; `sendPageText` is `server->send` with the text of a
resource page as its content. -/
inductive Event
  | commandCallback (cmd : String)
  | emergencyStateCallback (active : Bool)
  | statusCallback (status : String)
  | broadcastTXT (msg : String)
  | sendTXT (num : Nat) (msg : String)
  | send (code : Nat) (contentType : String) (content : String)
  | send_P (code : Nat) (contentType : String) (page : Page)
  | sendPageText (code : Nat) (contentType : String) (page : Page)
  | putString (key : String) (value : String)
  | restart
  deriving DecidableEq, Repr

/-- The lambdas registered with `server->on`. -/
inductive Handler
  | apHandleRoot
  | apHandleWiFiSetup
  | apHandleScan
  | apHandleSaveWiFi
  | staDashboard
  | staLogin
  | staCommand
  | staStatus
  deriving DecidableEq, Repr

/-- One `server->on(uri, method, handler)` registration. -/
structure Route where
  uri : String
  method : HTTPMethod
  handler : Handler
  deriving DecidableEq, Repr

/-- What is registered on a `WebServer` object; `notFound` tells whether `onNotFound` was
given the lambda that calls `handleNotFound`, the only one the class registers there. -/
structure WebServer where
  routes : List Route := []
  notFound : Bool := false
  begun : Bool := false
  deriving DecidableEq, Repr

/-- The data members of `class AGVCoreNetwork` with their in-class initialisers. -/
structure AGVCoreNetwork where
  server : Option WebServer := none
  webSocket : Bool := false
  dnsServer : Bool := false
  stored_ssid : String := ""
  stored_password : String := ""
  admin_username : String := ""
  admin_password : String := ""
  sessionToken : String := ""
  isAPMode : Bool := false
  systemEmergency : Bool := false
  mdnsName : Option String := none
  commandCallback : Bool := false
  emergencyStateCallback : Bool := false
  statusCallback : Bool := false
  mutex : Bool := false
  deriving DecidableEq, Repr

/-- The network object together with its collaborators.
`mutexTakes` lists the outcomes of the coming `xSemaphoreTake` calls (another task may hold
the lock past the timeout); once the list is used up the lock is free.
`wifiStatus` lists the outcomes of the coming `WiFi.status() == WL_CONNECTED` tests; once
used up the radio stays disconnected. `rng` lists the coming raw random numbers (zero once
used up). `prefs` is the preference namespace `agvnet`, `scan` the networks a scan finds
(name, signal strength, secured), `millis` the time spent in `delay`, `serialIn` the bytes
waiting on the serial link, `serialBuffer` the characters held by the static line buffer of
`processSerialInput` (its static `bufferIndex` is their number). -/
structure Device where
  net : AGVCoreNetwork := {}
  trace : List Event := []
  mutexCreate : Bool := true
  mutexTakes : List Bool := []
  wifiStatus : List Bool := []
  rng : List Nat := []
  prefs : List (String × String) := []
  scan : List (String × Int × Bool) := []
  millis : Nat := 0
  serialIn : List Char := []
  serialBuffer : List Char := []
  deriving DecidableEq, Repr

/-- The request the web server is currently handling, as the handlers read it:
`server->method()`, `server->uri()`, `server->header("Authorization")` and the arguments
(`server->args()`, `server->argName(i)`, `server->arg(i)`); the body of a POST is the
argument named `plain`. -/
structure Request where
  method : HTTPMethod := HTTPMethod.HTTP_GET
  uri : String := "/"
  authorization : String := ""
  args : List (String × String) := []
  deriving DecidableEq, Repr

/-- Call `server->arg(name)`: the value of the argument, empty when there is none. -/
def Request.arg (req : Request) (name : String) : String :=
  match req.args.lookup name with
  | some v => v
  | none => ""

/-- Record a call. -/
def emit (d : Device) (e : Event) : Device := { d with trace := d.trace ++ [e] }

/-- The calls recorded between the state `d` and the later state `d'`. -/
def emitted (d d' : Device) : List Event := d'.trace.drop d.trace.length

/-- Arduino `delay(ms)`. -/
def delay (d : Device) (ms : Nat) : Device := { d with millis := d.millis + ms }

/-- Result of `xSemaphoreTake(mutex, timeout) == pdPASS`, and the device afterwards. -/
def xSemaphoreTake (d : Device) : Bool × Device :=
  match d.mutexTakes with
  | [] => (true, d)
  | b :: rest => (b, { d with mutexTakes := rest })

/-- Result of `WiFi.status() == WL_CONNECTED`, and the device afterwards. -/
def wifiConnected (d : Device) : Bool × Device :=
  match d.wifiStatus with
  | [] => (false, d)
  | b :: rest => (b, { d with wifiStatus := rest })

/-- Arduino `random(lo, hi)`, and the device afterwards. -/
def random (d : Device) (lo hi : Nat) : Nat × Device :=
  if lo ≥ hi then (lo, d)
  else
    match d.rng with
    | [] => (lo, d)
    | r :: rest => (lo + r % (hi - lo), { d with rng := rest })

/-- Method `Preferences::getString(key, defaultValue)`. -/
def getString (prefs : List (String × String)) (key defaultValue : String) : String :=
  match prefs.lookup key with
  | some v => v
  | none => defaultValue

/-- Method `Preferences::putString(key, value)`. -/
def putString (d : Device) (key value : String) : Device :=
  emit { d with prefs := (key, value) :: d.prefs.filter (fun kv => kv.1 != key) }
    (Event.putString key value)

/-- Method `AGVCoreNetwork::setCommandCallback`; `callback` tells whether the pointer is non-null. -/
def setCommandCallback (d : Device) (callback : Bool) : Device :=
  let t := xSemaphoreTake d
  if t.1 then { t.2 with net := { t.2.net with commandCallback := callback } } else t.2

/-- Method `AGVCoreNetwork::setEmergencyStateCallback`. -/
def setEmergencyStateCallback (d : Device) (callback : Bool) : Device :=
  let t := xSemaphoreTake d
  if t.1 then { t.2 with net := { t.2.net with emergencyStateCallback := callback } } else t.2

/-- Method `AGVCoreNetwork::setStatusCallback`. -/
def setStatusCallback (d : Device) (callback : Bool) : Device :=
  let t := xSemaphoreTake d
  if t.1 then { t.2 with net := { t.2.net with statusCallback := callback } } else t.2

/-- Method `AGVCoreNetwork::processSerialCommand`. -/
def processSerialCommand (d : Device) (cmd : String) : Device :=
  let command := trim cmd
  if equalsIgnoreCase command "STOP" || equalsIgnoreCase command "ABORT" then
    if d.net.emergencyStateCallback then emit d (Event.emergencyStateCallback true) else d
  else if equalsIgnoreCase command "CLEAR_EMERGENCY" then
    if d.net.emergencyStateCallback then emit d (Event.emergencyStateCallback false) else d
  else if d.net.systemEmergency then d
  else if d.net.commandCallback then emit d (Event.commandCallback cmd)
  else d

/-- Method `AGVCoreNetwork::processWebCommand`. -/
def processWebCommand (d : Device) (cmd : String) : Device :=
  if d.net.systemEmergency then d
  else if d.net.commandCallback then emit d (Event.commandCallback cmd)
  else d

/-- The text `snprintf(cmdCopy, sizeof(cmdCopy), "%.*s", (int)length, payload)` leaves in the
65-byte buffer `cmdCopy`: at most `length` characters of the payload, up to its terminator,
cut to 64 characters. -/
def cmdCopy (payload : List Char) (length : Nat) : String :=
  ⟨(((payload.take length).takeWhile (fun c => c != '\x00'))).take 64⟩

/-- Method `AGVCoreNetwork::webSocketEvent`; runs inside `webSocket->loop()`, so `webSocket` is
non-null. -/
def webSocketEvent (d : Device) (num : Nat) (type : WStype_t) (payload : List Char)
    (length : Nat) : Device :=
  match type with
  | WStype_t.WStype_DISCONNECTED => d
  | WStype_t.WStype_CONNECTED => emit d (Event.sendTXT num "AGV Connected - Ready for commands")
  | WStype_t.WStype_TEXT =>
    let c := cmdCopy payload length
    let d1 := processWebCommand d c
    let d2 := emit d1 (Event.sendTXT num ("ACK: " ++ c))
    emit d2 (Event.broadcastTXT ("WS: " ++ c))
  | WStype_t.WStype_OTHER => d

/-- Method `AGVCoreNetwork::sendStatus`. -/
def sendStatus (d : Device) (status : Option String) : Device :=
  match status with
  | none => d
  | some st =>
    if strlen st == 0 || d.net.isAPMode then d
    else
      let t := xSemaphoreTake d
      let d1 := if t.1 && t.2.net.webSocket then emit t.2 (Event.broadcastTXT st) else t.2
      if d1.net.statusCallback then emit d1 (Event.statusCallback st) else d1

/-- Method `AGVCoreNetwork::broadcastEmergency`. -/
def broadcastEmergency (d : Device) (message : Option String) : Device :=
  match message with
  | none => d
  | some msg =>
    if strlen msg == 0 then d
    else
      let d1 := { d with net := { d.net with systemEmergency := true } }
      let t := xSemaphoreTake d1
      let d2 :=
        if t.1 && t.2.net.webSocket then emit t.2 (Event.broadcastTXT ("SYSTEM_EMERGENCY: " ++ msg))
        else t.2
      if d2.net.emergencyStateCallback then emit d2 (Event.emergencyStateCallback true) else d2

/-- Method `AGVCoreNetwork::clearEmergencyState`. -/
def clearEmergencyState (d : Device) : Device :=
  let t := xSemaphoreTake d
  let d1 := if t.1 then { t.2 with net := { t.2.net with systemEmergency := false } } else t.2
  let d2 := sendStatus d1 (some "SYSTEM_NORMAL: Emergency cleared")
  if d2.net.emergencyStateCallback then emit d2 (Event.emergencyStateCallback false) else d2

/-- The loop body of `AGVCoreNetwork::getSessionToken`, run `n` more times. -/
def getSessionTokenLoop : Nat → Device → String → String × Device
  | 0, d, token => (token, d)
  | n + 1, d, token =>
    let r := random d 0 16
    getSessionTokenLoop n r.2 (token.push (hexDigit r.1))

/-- Method `AGVCoreNetwork::getSessionToken`. -/
def getSessionToken (d : Device) : String × Device :=
  getSessionTokenLoop 32 d ""

/-- Method `AGVCoreNetwork::validateToken` for the request being handled. -/
def validateToken (d : Device) (req : Request) : Bool × Device :=
  if d.net.isAPMode then (true, d)
  else
    let auth := req.authorization
    if startsWith auth "Bearer " && substringFrom auth 7 == d.net.sessionToken then (true, d)
    else (false, emit d (Event.send 401 "application/json" "\x7b\"error\":\"Unauthorized\"\x7d"))

/-- The hand-written field extraction shared by `handleLogin`, `handleSaveWiFi` and
`handleCommand`, with `off` the constant added to the position of the key:
`start = body.indexOf(key) + off`, `end = body.indexOf("\"", start)`, and the field is
`(start > off && end > start) ? body.substring(start, end) : ""`. -/
def extractField (body key : String) (off : Int) : String :=
  let fieldStart : Int := indexOf body key 0 + off
  let fieldEnd : Int := indexOf body "\"" fieldStart
  if fieldStart > off && fieldEnd > fieldStart then substring body fieldStart.toNat fieldEnd.toNat
  else ""

/-- Method `AGVCoreNetwork::handleRoot`. -/
def handleRoot (d : Device) : Device :=
  if d.net.isAPMode then emit d (Event.send_P 200 "text/html" Page.wifiSetupPage)
  else emit d (Event.send_P 200 "text/html" Page.loginPage)

/-- Method `AGVCoreNetwork::handleLogin`. -/
def handleLogin (d : Device) (req : Request) : Device :=
  if req.method != HTTPMethod.HTTP_POST then
    emit d (Event.send 405 "text/plain" "Method Not Allowed")
  else
    let body := req.arg "plain"
    let username := extractField body "\"username\":\"" 12
    let password := extractField body "\"password\":\"" 12
    if username == d.net.admin_username && password == d.net.admin_password then
      let t := getSessionToken d
      let d1 := { t.2 with net := { t.2.net with sessionToken := t.1 } }
      emit d1 (Event.send 200 "application/json"
        ("\x7b\"success\":true,\"token\":\"" ++ d1.net.sessionToken ++ "\"\x7d"))
    else
      emit d (Event.send 200 "application/json" "\x7b\"success\":false\x7d")

/-- The call `page.replace("AGV: Waiting for connection...", ...)` of `handleDashboard` on
the text of a page: no page of `AGVCoreNetwork_Resources.h` contains the text looked for, so
the page comes back as it is. -/
def replaceWaiting (page : Page) : Page := page

/-- Method `AGVCoreNetwork::handleDashboard`: a copy of `mainPage` is sent with `send`, after
the `replace` call when `systemEmergency` is set. -/
def handleDashboard (d : Device) (req : Request) : Device :=
  let v := validateToken d req
  if !v.1 then v.2
  else
    let page := if v.2.net.systemEmergency then replaceWaiting Page.mainPage else Page.mainPage
    emit v.2 (Event.sendPageText 200 "text/html" page)

/-- Method `AGVCoreNetwork::handleWiFiSetup`. -/
def handleWiFiSetup (d : Device) : Device :=
  emit d (Event.send_P 200 "text/html" Page.wifiSetupPage)

/-- The JSON array `handleScan` builds from the scan results, entry `i` onwards. -/
def scanJson : List (String × Int × Bool) → Bool → String
  | [], _ => ""
  | (ssid, rssi, secured) :: rest, first =>
    (if first then "" else ",") ++ "\x7b" ++ "\"ssid\":\"" ++ ssid ++ "\"," ++
      "\"rssi\":" ++ toString rssi ++ "," ++
      "\"secured\":" ++ (if secured then "true" else "false") ++ "\x7d" ++ scanJson rest false

/-- Method `AGVCoreNetwork::handleScan`. -/
def handleScan (d : Device) : Device :=
  if d.net.isAPMode then emit d (Event.send 200 "application/json" ("[" ++ scanJson d.scan true ++ "]"))
  else emit d (Event.send 403 "text/plain" "Forbidden in station mode")

/-- Method `AGVCoreNetwork::cleanupResources`. -/
def cleanupResources (d : Device) : Device :=
  let t := xSemaphoreTake d
  if t.1 then
    { t.2 with net := { t.2.net with webSocket := false, server := none, dnsServer := false } }
  else t.2

/-- Method `AGVCoreNetwork::restartSystem`. -/
def restartSystem (d : Device) : Device :=
  emit (cleanupResources d) Event.restart

/-- Method `AGVCoreNetwork::handleSaveWiFi`. -/
def handleSaveWiFi (d : Device) (req : Request) : Device :=
  if req.method != HTTPMethod.HTTP_POST || !d.net.isAPMode then
    emit d (Event.send 403 "text/plain" "Forbidden")
  else
    let body := req.arg "plain"
    let ssid := extractField body "\"ssid\":\"" 8
    let password := extractField body "\"password\":\"" 12
    let d1 := putString d "ssid" ssid
    let d2 := putString d1 "password" password
    let d3 := emit d2 (Event.send 200 "application/json" "\x7b\"success\":true\x7d")
    restartSystem (delay d3 1000)

/-- Method `AGVCoreNetwork::handleCommand`. -/
def handleCommand (d : Device) (req : Request) : Device :=
  if req.method != HTTPMethod.HTTP_POST || d.net.systemEmergency then
    emit d (Event.send 403 "text/plain"
      (if d.net.systemEmergency then "Emergency state active" else "Forbidden"))
  else
    let body := req.arg "plain"
    let command := extractField body "\"command\":\"" 11
    if command.data.length > 0 then
      let d1 := processWebCommand d command
      emit d1 (Event.send 200 "application/json" "\x7b\"success\":true\x7d")
    else
      emit d (Event.send 400 "application/json"
        "\x7b\"success\":false,\"error\":\"Invalid command\"\x7d")

/-- The loop `for (uint8_t i = 0; i < server->args(); i++)` of `handleNotFound`, from the
counter value `i` and the message built so far. The counter is an 8-bit number, so 0 follows
255. `fuel` bounds the number of loop tests: the result is `none` when they are used up
before the loop has ended. -/
def handleNotFoundLoop (args : List (String × String)) : Nat → Nat → String → Option String
  | 0, _, _ => none
  | fuel + 1, i, message =>
    if i < args.length then
      handleNotFoundLoop args fuel ((i + 1) % 256)
        (message ++
          (" " ++ (args.getD i ("", "")).1 ++ ": " ++ (args.getD i ("", "")).2 ++ "\n"))
    else some message

/-- Method `AGVCoreNetwork::handleNotFound`; `none` when the loop has not ended within
`fuel` tests, so that `server->send` is not reached. -/
def handleNotFound (fuel : Nat) (d : Device) (req : Request) : Option Device :=
  let message := "File Not Found\n\n" ++ "URI: " ++ req.uri ++ "\nMethod: " ++
    (if req.method == HTTPMethod.HTTP_GET then "GET" else "POST") ++ "\nArguments: " ++
    toString req.args.length ++ "\n"
  match handleNotFoundLoop req.args fuel 0 message with
  | some text => some (emit d (Event.send 404 "text/plain" text))
  | none => none

/-- The body of the `/status` lambda of `setupRoutes`. -/
def handleStatus (d : Device) : Device :=
  let w := wifiConnected d
  emit w.2 (Event.send 200 "application/json"
    ("\x7b\"emergency\":" ++ (if w.2.net.systemEmergency then "1" else "0") ++
      ",\"connected\":" ++ (if w.1 then "1" else "0") ++ "\x7d"))

/-- Run the lambda registered for a route with `server->on` on the current request. -/
def runHandler (d : Device) (h : Handler) (req : Request) : Device :=
  match h with
  | Handler.apHandleRoot => handleRoot d
  | Handler.apHandleWiFiSetup => handleWiFiSetup d
  | Handler.apHandleScan => handleScan d
  | Handler.apHandleSaveWiFi => handleSaveWiFi d req
  | Handler.staDashboard =>
    let v := validateToken d req
    if v.1 then handleDashboard v.2 req else v.2
  | Handler.staLogin => handleLogin d req
  | Handler.staCommand =>
    let v := validateToken d req
    if v.1 then handleCommand v.2 req else v.2
  | Handler.staStatus => handleStatus d

/-- Method `AGVCoreNetwork::startAPMode`. -/
def startAPMode (d : Device) : Device :=
  let d1 := delay d 100
  { d1 with net := { d1.net with
      dnsServer := true
      isAPMode := true
      server := some {
        routes := [
          ⟨"/", HTTPMethod.HTTP_GET, Handler.apHandleRoot⟩,
          ⟨"/setup", HTTPMethod.HTTP_GET, Handler.apHandleWiFiSetup⟩,
          ⟨"/scan", HTTPMethod.HTTP_GET, Handler.apHandleScan⟩,
          ⟨"/savewifi", HTTPMethod.HTTP_POST, Handler.apHandleSaveWiFi⟩,
          ⟨"/generate_204", HTTPMethod.HTTP_GET, Handler.apHandleRoot⟩,
          ⟨"/fwlink", HTTPMethod.HTTP_GET, Handler.apHandleRoot⟩,
          ⟨"/hotspot-detect.html", HTTPMethod.HTTP_GET, Handler.apHandleRoot⟩]
        notFound := true
        begun := true } } }

/-- Method `AGVCoreNetwork::setupRoutes`. -/
def setupRoutes (d : Device) : Device :=
  match d.net.server with
  | none => d
  | some srv =>
    if d.net.isAPMode then d
    else
      { d with net := { d.net with
          server := some { srv with
            routes := srv.routes ++ [
              ⟨"/", HTTPMethod.HTTP_GET, Handler.staDashboard⟩,
              ⟨"/login", HTTPMethod.HTTP_POST, Handler.staLogin⟩,
              ⟨"/command", HTTPMethod.HTTP_POST, Handler.staCommand⟩,
              ⟨"/status", HTTPMethod.HTTP_GET, Handler.staStatus⟩]
            notFound := true } } }

/-- The connection wait of `startStationMode`,
`while (WiFi.status() != WL_CONNECTED && attempts < 30) { delay(500); attempts++; }`,
with `left = 30 - attempts`. -/
def waitForConnection : Nat → Device → Device
  | 0, d => (wifiConnected d).2
  | left + 1, d =>
    let w := wifiConnected d
    if w.1 then w.2 else waitForConnection left (delay w.2 500)

/-- Method `AGVCoreNetwork::startStationMode`. -/
def startStationMode (d : Device) : Device :=
  let d1 := waitForConnection 30 d
  let w := wifiConnected d1
  if w.1 then
    let d2 := { w.2 with net := { w.2.net with
      isAPMode := false
      server := some {}
      webSocket := true } }
    let d3 := setupRoutes d2
    { d3 with net := { d3.net with
        server := d3.net.server.map (fun srv => { srv with begun := true }) } }
  else startAPMode w.2

/-- Method `AGVCoreNetwork::setupWiFi`. -/
def setupWiFi (d : Device) : Device :=
  if d.net.stored_ssid.data.length > 0 then startStationMode d else startAPMode d

/-- Method `AGVCoreNetwork::begin`; the creation of the service task is left to `core0Task`. -/
def begin (d : Device) (deviceName adminUser adminPass : String) : Device :=
  if !d.mutexCreate then d
  else
    let d1 := { d with net := { d.net with
      mutex := true
      mdnsName := some deviceName
      admin_username := adminUser
      admin_password := adminPass
      stored_ssid := getString d.prefs "ssid" ""
      stored_password := getString d.prefs "password" "" } }
    setupWiFi d1

/-! ### Vocabulary of the properties and concrete devices -/

/-- The stop keywords as `processSerialCommand` recognises them: `STOP` or `ABORT` after
`trim`, compared with `equalsIgnoreCase`. -/
def isStopKeyword (cmd : String) : Bool :=
  equalsIgnoreCase (trim cmd) "STOP" || equalsIgnoreCase (trim cmd) "ABORT"

/-- The clear keyword as `processSerialCommand` recognises it. -/
def isClearKeyword (cmd : String) : Bool :=
  equalsIgnoreCase (trim cmd) "CLEAR_EMERGENCY"

/-- Every coming `xSemaphoreTake` succeeds: no other task holds the lock past the timeout. -/
def LockFree (d : Device) : Prop := ∀ b ∈ d.mutexTakes, b = true

instance (d : Device) : Decidable (LockFree d) :=
  inferInstanceAs (Decidable (∀ b ∈ d.mutexTakes, b = true))

/-- The test `handleLogin` makes before it issues a token. -/
def loginAccepted (d : Device) (req : Request) : Bool :=
  req.method == HTTPMethod.HTTP_POST &&
    (extractField (req.arg "plain") "\"username\":\"" 12 == d.net.admin_username &&
      extractField (req.arg "plain") "\"password\":\"" 12 == d.net.admin_password)

/-- A run of `handleLogin` on each request in turn. -/
def logins (d : Device) (reqs : List Request) : Device := reqs.foldl handleLogin d

/-- A POST request with the given body and `Authorization` header. -/
def post (uri body auth : String) : Request :=
  { method := HTTPMethod.HTTP_POST, uri := uri, authorization := auth, args := [("plain", body)] }

/-- A device at power-on whose preference store holds credentials and whose radio joins on
the first test. -/
def powerOn : Device :=
  { prefs := [("ssid", "workshop"), ("password", "secret")]
    wifiStatus := [true, true]
    rng := (List.range 32).map (fun i => 7 * i + 3) ++ (List.range 32).map (fun i => 5 * i + 1) }

/-- The device after `begin` with the default arguments, in Station mode. -/
def bootedDevice : Device := begin powerOn "agvcontrol" "admin" "admin123"

/-- The booted device after the application has registered its command and emergency
callbacks. -/
def stationDevice : Device :=
  setEmergencyStateCallback (setCommandCallback bootedDevice true) true

/-- The body of a login request with the default admin identity. -/
def adminLoginBody : String := "\x7b\"username\":\"admin\",\"password\":\"admin123\"\x7d"

/-- The station device after the admin has logged in once. -/
def loggedInDevice : Device := handleLogin stationDevice (post "/login" adminLoginBody "")

/-- The logged-in device after `broadcastEmergency("obstacle")`. -/
def emergencyDevice : Device := broadcastEmergency loggedInDevice (some "obstacle")

/-! ### The serial line reader and the request dispatch -/

/-- The C string a character buffer holds once it is terminated: the characters before the
first NUL. This is what `String(serialBuffer)` and a `const char*` argument read. -/
def cstr (buf : List Char) : String := ⟨buf.takeWhile (fun c => c != '\x00')⟩

/-- What `AGVCoreNetwork::processSerialInput` does with the buffered line at a line
terminator (`bufferIndex > 0`): a non-blank line is passed to `processSerialCommand` and
echoed to the socket clients, and `bufferIndex` is reset. -/
def serialLineEnd (d : Device) : Device :=
  if d.serialBuffer.length > 0 then
    let cmd := trim (cstr d.serialBuffer)
    let d2 :=
      if cmd.data.length > 0 then
        let d3 := processSerialCommand d (cstr d.serialBuffer)
        if !d3.net.isAPMode && !d3.net.systemEmergency then
          sendStatus d3 (some ("SERIAL: " ++ cmd))
        else d3
      else d
    { d2 with serialBuffer := [] }
  else d

/-- The loop of `AGVCoreNetwork::processSerialInput`,
`while (Serial.available() > 0 && bufferIndex < 63)`, over the bytes `pending` on the serial
link. When the loop is left because `bufferIndex` is 63 the pending bytes stay unread. -/
def processSerialInputLoop : List Char → Device → Device
  | [], d => d
  | c :: rest, d =>
    if d.serialBuffer.length < 63 then
      let d0 := { d with serialIn := rest }
      let d1 :=
        if c == '\n' || c == '\r' then serialLineEnd d0
        else { d0 with serialBuffer := d0.serialBuffer ++ [c] }
      processSerialInputLoop rest (delay d1 1)
    else d

/-- Method `AGVCoreNetwork::processSerialInput`, run on the bytes waiting in `serialIn`. -/
def processSerialInput (d : Device) : Device := processSerialInputLoop d.serialIn d

/-- New bytes arrive on the serial link behind those still unread. -/
def serialReceive (d : Device) (bytes : List Char) : Device :=
  { d with serialIn := d.serialIn ++ bytes }

/-- Test of the Arduino `WebServer` library whether a registered route handles a request:
same method and same path. -/
def matchesRoute (r : Route) (req : Request) : Bool :=
  r.method == req.method && r.uri == req.uri

/-- One request served by `server->handleClient()` as the Arduino `WebServer` library does it:
the first registered route that matches runs, otherwise the `onNotFound` handler, otherwise
the library answers 404 itself. The result is `none` when `handleNotFound` has not returned
within `fuel` tests of its loop. -/
def handleClient (fuel : Nat) (d : Device) (req : Request) : Option Device :=
  match d.net.server with
  | none => some d
  | some srv =>
    match srv.routes.find? (fun r => matchesRoute r req) with
    | some r => some (runHandler d r.handler req)
    | none =>
      if srv.notFound then handleNotFound fuel d req
      else some (emit d (Event.send 404 "text/plain" ("Not found: " ++ req.uri)))

/-- The paths registered on the web server. -/
def registeredUris (d : Device) : List String :=
  match d.net.server with
  | none => []
  | some srv => srv.routes.map (fun r => r.uri)

/-- The arguments of the `commandCallback` calls among recorded calls, in order. -/
def commandCalls : List Event → List String
  | [] => []
  | Event.commandCallback cmd :: rest => cmd :: commandCalls rest
  | _ :: rest => commandCalls rest

/-- The serial bytes of a list of lines, each followed by a line feed. -/
def serialLines (lines : List (List Char)) : List Char :=
  lines.flatMap (fun l => l ++ ['\n'])

/-- A device at power-on with an empty preference store. -/
def powerOnBlank : Device := {}

/-- The device after `begin` without stored credentials: AP mode. -/
def apDevice : Device := begin powerOnBlank "agvcontrol" "admin" "admin123"

/-- A device at power-on with stored credentials whose radio never joins. -/
def powerOnNoJoin : Device :=
  { prefs := [("ssid", "workshop"), ("password", "secret")] }

/-- The arguments of the `body.substring(start, end)` call the field extraction makes, when
it makes one (the condition `start > off && end > start` of the conditional expression). -/
def substringCall (body key : String) (off : Int) : Option (Int × Int) :=
  let fieldStart : Int := indexOf body key 0 + off
  let fieldEnd : Int := indexOf body "\"" fieldStart
  if fieldStart > off && fieldEnd > fieldStart then some (fieldStart, fieldEnd) else none

/-- The body of a command request carrying the text `c`. -/
def commandBody (c : String) : String := "\x7b\"command\":\"" ++ c ++ "\"\x7d"

/-- The station device after 63 characters without a line terminator arrived on the serial
link and `processSerialInput` ran. -/
def jammedDevice : Device :=
  processSerialInput (serialReceive stationDevice (List.replicate 63 'x'))

/-- What the claims ask of a serial line for it to be forwarded: 1 to 62 characters, no CR or
LF, some non-space text (as the C string of the line reads it, that is up to a NUL byte if
the line has one), and not a stop/clear keyword. -/
def ForwardableLine (l : List Char) : Prop :=
  1 ≤ l.length ∧ l.length ≤ 62 ∧ '\n' ∉ l ∧ '\r' ∉ l ∧
    (trim (cstr l)).data.length > 0 ∧
    isStopKeyword (cstr l) = false ∧ isClearKeyword (cstr l) = false

instance (l : List Char) : Decidable (ForwardableLine l) := by
  unfold ForwardableLine
  exact inferInstance

/-- A device whose stored network name is loaded and whose radio reports the connection at
the third status test. -/
def loadedSlowJoin : Device :=
  { net := { stored_ssid := "workshop", stored_password := "secret", mutex := true }
    wifiStatus := [false, false, true, true] }

/-- A device whose stored network name is loaded and whose radio never joins. -/
def loadedNoJoin : Device :=
  { net := { stored_ssid := "workshop", stored_password := "secret", mutex := true } }

/-- A device whose stored network name is loaded and whose radio reports the connection at
the third status test and has lost it at the fourth. -/
def loadedJoinLost : Device :=
  { net := { stored_ssid := "workshop", stored_password := "secret", mutex := true }
    wifiStatus := [false, false, true, false] }

/-- A device whose stored network name is loaded and whose radio reports the connection only
at the 32nd status test, after 31 tests that failed. -/
def loadedLateJoin : Device :=
  { net := { stored_ssid := "workshop", stored_password := "secret", mutex := true }
    wifiStatus := List.replicate 31 false ++ [true] }

/-- Reading number `i` (from 0) of `WiFi.status() == WL_CONNECTED` on the device. -/
def statusReading (d : Device) (i : Nat) : Bool := d.wifiStatus.getD i false

/-- The provisioning paths. -/
def provisioningUris : List String := ["/setup", "/scan", "/savewifi"]

/-- The operational paths. -/
def operationalUris : List String := ["/login", "/dashboard", "/command", "/status"]

/-- A route set of Provisioning mode: every provisioning path, no operational path. -/
def ProvisioningRoutes (uris : List String) : Prop :=
  (∀ u ∈ provisioningUris, u ∈ uris) ∧ (∀ u ∈ operationalUris, u ∉ uris)

/-- A route set of Operational mode: no provisioning path. -/
def OperationalRoutes (uris : List String) : Prop :=
  ∀ u ∈ provisioningUris, u ∉ uris

instance (uris : List String) : Decidable (ProvisioningRoutes uris) := by
  unfold ProvisioningRoutes
  exact inferInstance

instance (uris : List String) : Decidable (OperationalRoutes uris) := by
  unfold OperationalRoutes
  exact inferInstance

/-- A run of `processSerialInput` calls, one after each chunk of bytes arrives. -/
def serialFeed (d : Device) (chunks : List (List Char)) : Device :=
  chunks.foldl (fun dev bytes => processSerialInput (serialReceive dev bytes)) d

/-- The body of a save request carrying the network name `X` and the secret `Y`. -/
def wifiBody (X Y : String) : String :=
  "\x7b\"ssid\":\"" ++ X ++ "\",\"password\":\"" ++ Y ++ "\"\x7d"

/-- The device after `ESP.restart()`: the network object is constructed anew and the line
buffer is empty again; the preference store and the surroundings stay. -/
def reboot (d : Device) : Device :=
  { d with net := {}, trace := [], millis := 0, serialIn := [], serialBuffer := [] }

/-- The device in emergency while another task holds the lock past the next timeout. -/
def contendedEmergencyDevice : Device := { emergencyDevice with mutexTakes := [false] }

end AGVCoreNetworkLib

/-! # The communication hub (`src/AGV_CommunicationHub.cpp`) -/

namespace AGVCommunicationHub

open Arduino

open AGVCoreNetworkLib (HTTPMethod WStype_t)

/-- The handlers `AGV_CommunicationHub::setupRoutes` registers. -/
inductive Handler
  | handleWiFiSetup
  | handleScan
  | handleSaveWiFi
  | handleCaptivePortal
  | handleRoot
  | handleLogin
  | handleDashboard
  deriving DecidableEq, Repr

/-- One `server->on(uri, method, handler)` registration of the hub. -/
structure Route where
  uri : String
  method : HTTPMethod
  handler : Handler
  deriving DecidableEq, Repr

/-- What is registered on the hub's `WebServer` object. -/
structure WebServer where
  routes : List Route := []
  notFound : Option Handler := none
  begun : Bool := false
  deriving DecidableEq, Repr

/-- Modelled from the spec: the class declaration `AGV_CommunicationHub.h` is not among the
sources; these are the data members `AGV_CommunicationHub.cpp` reads and writes, pointers
modelled by whether they are non-null. -/
structure AGV_CommunicationHub where
  server : Option WebServer := none
  webSocket : Bool := false
  dnsServer : Bool := false
  stored_ssid : String := ""
  stored_password : String := ""
  admin_username : String := ""
  admin_password : String := ""
  sessionToken : String := ""
  isAPMode : Bool := false
  mdnsName : Option String := none
  commandCallback : Bool := false
  mutex : Bool := false
  deriving DecidableEq, Repr

/-- Calls made out of the hub; `commandCallback` carries the text, the source number and the
priority. -/
inductive Event
  | commandCallback (cmd : String) (source : Nat) (priority : Nat)
  | broadcastTXT (msg : String)
  | sendTXT (num : Nat) (msg : String)
  deriving DecidableEq, Repr

/-- The hub together with its collaborators. The mutex made by `xSemaphoreCreateMutex` is not
recursive: `mutexHeld` tells whether the running task holds it, `mutexTakes` lists the
outcomes of the coming takes as far as other tasks decide them (free once used up).
`wifiStatus`, `prefs` (namespace `wifi`), `millis`, `serialIn` and `serialBuffer` are as for
the core network. -/
structure Device where
  hub : AGV_CommunicationHub := {}
  trace : List Event := []
  mutexHeld : Bool := false
  mutexTakes : List Bool := []
  wifiStatus : List Bool := []
  prefs : List (String × String) := []
  millis : Nat := 0
  serialIn : List Char := []
  serialBuffer : List Char := []
  deriving DecidableEq, Repr

/-- Record a call of the hub. -/
def emit (d : Device) (e : Event) : Device := { d with trace := d.trace ++ [e] }

/-- The calls recorded between the state `d` and the later state `d'`. -/
def emitted (d d' : Device) : List Event := d'.trace.drop d.trace.length

/-- Arduino `delay(ms)` and `vTaskDelay`. -/
def delay (d : Device) (ms : Nat) : Device := { d with millis := d.millis + ms }

/-- Result of `xSemaphoreTake(mutex, timeout) == pdPASS`: a task that already holds the
mutex waits out the timeout and fails. -/
def xSemaphoreTake (d : Device) : Bool × Device :=
  if d.mutexHeld then (false, d)
  else
    match d.mutexTakes with
    | [] => (true, { d with mutexHeld := true })
    | b :: rest => (b, { d with mutexTakes := rest, mutexHeld := b })

/-- FreeRTOS `xSemaphoreGive(mutex)`. -/
def xSemaphoreGive (d : Device) : Device := { d with mutexHeld := false }

/-- Result of `WiFi.status() == WL_CONNECTED`, and the device afterwards. -/
def wifiConnected (d : Device) : Bool × Device :=
  match d.wifiStatus with
  | [] => (false, d)
  | b :: rest => (b, { d with wifiStatus := rest })

/-- Method `AGV_CommunicationHub::setCommandCallback`. -/
def setCommandCallback (d : Device) (callback : Bool) : Device :=
  let t := xSemaphoreTake d
  if t.1 then xSemaphoreGive { t.2 with hub := { t.2.hub with commandCallback := callback } }
  else t.2

/-- Method `AGV_CommunicationHub::cleanupServer`. -/
def cleanupServer (d : Device) : Device := { d with hub := { d.hub with server := none } }

/-- Method `AGV_CommunicationHub::cleanupWebSocket`. -/
def cleanupWebSocket (d : Device) : Device := { d with hub := { d.hub with webSocket := false } }

/-- Method `AGV_CommunicationHub::cleanupDNSServer`. -/
def cleanupDNSServer (d : Device) : Device := { d with hub := { d.hub with dnsServer := false } }

/-- Method `AGV_CommunicationHub::setupRoutes`. -/
def setupRoutes (d : Device) : Device :=
  match d.hub.server with
  | none => d
  | some srv =>
    if d.hub.isAPMode then
      { d with hub := { d.hub with
          server := some { srv with
            routes := srv.routes ++ [
              ⟨"/", HTTPMethod.HTTP_GET, Handler.handleWiFiSetup⟩,
              ⟨"/setup", HTTPMethod.HTTP_GET, Handler.handleWiFiSetup⟩,
              ⟨"/scan", HTTPMethod.HTTP_GET, Handler.handleScan⟩,
              ⟨"/savewifi", HTTPMethod.HTTP_POST, Handler.handleSaveWiFi⟩]
            notFound := some Handler.handleCaptivePortal } } }
    else
      { d with hub := { d.hub with
          server := some { srv with
            routes := srv.routes ++ [
              ⟨"/", HTTPMethod.HTTP_GET, Handler.handleRoot⟩,
              ⟨"/login", HTTPMethod.HTTP_POST, Handler.handleLogin⟩,
              ⟨"/dashboard", HTTPMethod.HTTP_GET, Handler.handleDashboard⟩] } } }

/-- The call `server->begin()`. -/
def serverBegin (d : Device) : Device :=
  { d with hub := { d.hub with
      server := d.hub.server.map (fun srv => { srv with begun := true }) } }

/-- Method `AGV_CommunicationHub::startAPMode`. -/
def startAPMode (d : Device) : Device :=
  let t := xSemaphoreTake d
  if !t.1 then t.2
  else
    let d1 := cleanupDNSServer (cleanupWebSocket (cleanupServer t.2))
    let d2 := { d1 with hub := { d1.hub with
      dnsServer := true
      isAPMode := true
      server := some {} } }
    xSemaphoreGive (serverBegin (setupRoutes d2))

/-- The connection wait of the hub's `startStationMode`,
`while (WiFi.status() != WL_CONNECTED && attempts < 20) { delay(500); attempts++; }`,
with `left = 20 - attempts`. -/
def waitForConnection : Nat → Device → Device
  | 0, d => (wifiConnected d).2
  | left + 1, d =>
    let w := wifiConnected d
    if w.1 then w.2 else waitForConnection left (delay w.2 500)

/-- Method `AGV_CommunicationHub::startStationMode`. -/
def startStationMode (d : Device) : Device :=
  let t := xSemaphoreTake d
  if !t.1 then t.2
  else
    let d1 := cleanupDNSServer (cleanupWebSocket (cleanupServer t.2))
    let d2 := waitForConnection 20 d1
    let w := wifiConnected d2
    if w.1 then
      let d3 := { w.2 with hub := { w.2.hub with
        isAPMode := false
        server := some {}
        webSocket := true } }
      xSemaphoreGive (serverBegin (setupRoutes d3))
    else startAPMode (xSemaphoreGive w.2)

/-- Method `AGV_CommunicationHub::setupWiFi`. -/
def setupWiFi (d : Device) : Device :=
  if d.hub.stored_ssid.data.length > 0 then startStationMode d else startAPMode d

/-- Method `Preferences::getString(key, defaultValue)` on the store of the hub. -/
def getString (prefs : List (String × String)) (key defaultValue : String) : String :=
  match prefs.lookup key with
  | some v => v
  | none => defaultValue

/-- Method `AGV_CommunicationHub::begin`; the creation of the service task is left to
`core0Task`. -/
def begin (d : Device) (deviceName adminUser adminPass : String) : Device :=
  let d1 := { d with
    mutexHeld := false
    hub := { d.hub with
      mutex := true
      mdnsName := some deviceName
      admin_username := adminUser
      admin_password := adminPass
      stored_ssid := getString d.prefs "ssid" ""
      stored_password := getString d.prefs "password" "" } }
  setupWiFi d1

/-- The priority `processSerialInput` gives a trimmed serial line. -/
def serialPriority (cmd : String) : Nat :=
  if equalsIgnoreCase cmd "STOP" || equalsIgnoreCase cmd "ABORT" ||
      equalsIgnoreCase cmd "EMERGENCY" then 1
  else 0

/-- What `processSerialInput` does with the buffered line at a line terminator. -/
def serialLineEnd (d : Device) : Device :=
  if d.serialBuffer.length > 0 then
    let line := AGVCoreNetworkLib.cstr d.serialBuffer
    let cmd := trim line
    let d1 :=
      if cmd.data.length > 0 then
        let priority := serialPriority cmd
        let t := xSemaphoreTake d
        let d2 :=
          if t.1 then
            xSemaphoreGive
              (if t.2.hub.commandCallback then emit t.2 (Event.commandCallback line 1 priority)
                else t.2)
          else t.2
        let u := xSemaphoreTake d2
        if u.1 then
          xSemaphoreGive
            (if !u.2.hub.isAPMode && u.2.hub.webSocket then
                emit u.2 (Event.broadcastTXT ("SERIAL: " ++ line))
              else u.2)
        else u.2
      else d
    { d1 with serialBuffer := [] }
  else d

/-- The loop of `AGV_CommunicationHub::processSerialInput` over the pending bytes; a byte
that finds the 64-byte buffer full (`bufferIndex == 63`) is dropped. -/
def processSerialInputLoop : List Char → Device → Device
  | [], d => d
  | c :: rest, d =>
    let d0 := { d with serialIn := rest }
    let d1 :=
      if c == '\n' || c == '\r' then serialLineEnd d0
      else if d0.serialBuffer.length < 63 then { d0 with serialBuffer := d0.serialBuffer ++ [c] }
      else d0
    processSerialInputLoop rest (delay d1 1)

/-- Method `AGV_CommunicationHub::processSerialInput`, run on the bytes waiting in
`serialIn`. -/
def processSerialInput (d : Device) : Device := processSerialInputLoop d.serialIn d

/-- The paths registered on the hub's web server. -/
def registeredUris (d : Device) : List String :=
  match d.hub.server with
  | none => []
  | some srv => srv.routes.map (fun r => r.uri)

/-- No other task keeps the running task from the mutex: it is not held and every coming
take succeeds. -/
def LockFree (d : Device) : Prop := d.mutexHeld = false ∧ ∀ b ∈ d.mutexTakes, b = true

instance (d : Device) : Decidable (LockFree d) :=
  inferInstanceAs (Decidable (d.mutexHeld = false ∧ ∀ b ∈ d.mutexTakes, b = true))

/-- A hub in Station mode with a command callback, as `begin` and `setCommandCallback` leave
it when the stored network is joined at once. -/
def stationHub : Device :=
  setCommandCallback
    (begin { prefs := [("ssid", "workshop"), ("password", "secret")], wifiStatus := [true, true] }
      "agvcontrol" "admin" "admin123") true

end AGVCommunicationHub

/-! # The communication library (`src/AGVComm.cpp`, `src/AGVComm.h`) -/

namespace AGVCommLib

open Arduino

/-- The constant `MAX_COMMAND_LENGTH`. -/
def MAX_COMMAND_LENGTH : Nat := 256

/-- The constant `COMMAND_QUEUE_SIZE`. -/
def COMMAND_QUEUE_SIZE : Nat := 20

/-- The enumeration `CommandSource`. -/
inductive CommandSource
  | SOURCE_WEBSOCKET
  | SOURCE_SERIAL
  | SOURCE_INTERNAL
  deriving DecidableEq, Repr

/-- The structure `AGVCommand`; `command` is the C string held by the 256-byte array. -/
structure AGVCommand where
  command : String
  source : CommandSource
  timestamp : Nat
  deriving DecidableEq, Repr

/-- The data members of `class AGVComm` that the command paths use, as the constructor
leaves them; `command_queue` is `none` while the handle is null and otherwise holds the
queued commands, oldest first. -/
structure AGVComm where
  server : Bool := false
  webSocket : Bool := false
  dnsServer : Bool := false
  is_ap_mode : Bool := false
  is_initialized : Bool := false
  command_queue : Option (List AGVCommand) := none
  cmd_callback : Bool := false
  conn_callback : Bool := false
  deriving DecidableEq, Repr

/-- Calls made out of the library. -/
inductive Event
  | cmd_callback (cmd : String) (source : CommandSource)
  | conn_callback (connected : Bool)
  | broadcastTXT (msg : String)
  | sendTXT (num : Nat) (msg : String)
  deriving DecidableEq, Repr

/-- The library object with its collaborators: the recorded calls, the clock read by
`millis()`, the bytes waiting on the serial link and the static line buffer of
`processSerial` (its `bufferIndex` is the number of characters held). -/
structure Device where
  comm : AGVComm := {}
  trace : List Event := []
  millis : Nat := 0
  serialIn : List Char := []
  serialBuffer : List Char := []
  deriving DecidableEq, Repr

/-- Record a call of the library. -/
def emit (d : Device) (e : Event) : Device := { d with trace := d.trace ++ [e] }

/-- The calls recorded between the state `d` and the later state `d'`. -/
def emitted (d d' : Device) : List Event := d'.trace.drop d.trace.length

/-- FreeRTOS `xQueueSend(command_queue, &cmd, timeout)` with the reader of the queue idle:
the command is appended unless the queue already holds `COMMAND_QUEUE_SIZE` commands. -/
def xQueueSend (d : Device) (cmd : AGVCommand) : Device :=
  match d.comm.command_queue with
  | none => d
  | some q =>
    if q.length < COMMAND_QUEUE_SIZE then
      { d with comm := { d.comm with command_queue := some (q ++ [cmd]) } }
    else d

/-- Method `AGVComm::sendToClients`. -/
def sendToClients (d : Device) (message : String) : Device :=
  if d.comm.webSocket && !d.comm.is_ap_mode then emit d (Event.broadcastTXT message) else d

/-- What `processSerial` does with the buffered line at a line terminator. -/
def serialLineEnd (d : Device) : Device :=
  if d.serialBuffer.length > 0 then
    let text : String :=
      ⟨(AGVCoreNetworkLib.cstr d.serialBuffer).data.take (MAX_COMMAND_LENGTH - 1)⟩
    let cmd : AGVCommand :=
      { command := text, source := CommandSource.SOURCE_SERIAL, timestamp := d.millis }
    let d1 := xQueueSend d cmd
    let d2 :=
      if d1.comm.cmd_callback then
        emit d1 (Event.cmd_callback cmd.command CommandSource.SOURCE_SERIAL)
      else d1
    let d3 := sendToClients d2 cmd.command
    { d3 with serialBuffer := [] }
  else d

/-- The loop of `AGVComm::processSerial` over the pending bytes. -/
def processSerialLoop : List Char → Device → Device
  | [], d => d
  | c :: rest, d =>
    let d0 := { d with serialIn := rest }
    let d1 :=
      if c == '\n' || c == '\r' then serialLineEnd d0
      else if d0.serialBuffer.length < MAX_COMMAND_LENGTH - 1 then
        { d0 with serialBuffer := d0.serialBuffer ++ [c] }
      else { d0 with serialBuffer := [] }
    processSerialLoop rest d1

/-- Method `AGVComm::processSerial`, run on the bytes waiting in `serialIn`. -/
def processSerial (d : Device) : Device := processSerialLoop d.serialIn d

/-- The library in Station mode with queue, socket server and command callback in place. -/
def stationComm : Device :=
  { comm := { server := true, webSocket := true, dnsServer := true, is_initialized := true,
              command_queue := some [], cmd_callback := true } }

/-- A serial line of 257 characters, 255 times `a`, then `a` and `b`, with its line feed. -/
def longLine257 : List Char := List.replicate 255 'a' ++ ['a', 'b', '\n']

/-- A serial line of 64 characters, 63 times `a` and then `b`, with its line feed. -/
def longLine64 : List Char := List.replicate 63 'a' ++ ['b', '\n']

end AGVCommLib

namespace AGVCommunicationHub

open Arduino

open AGVCoreNetworkLib (HTTPMethod WStype_t)

/-- The priority `handleWebSocketEvent` gives the text of a socket frame. -/
def socketPriority (cmdStr : String) : Nat :=
  if equalsIgnoreCase cmdStr "STOP" || equalsIgnoreCase cmdStr "ABORT" ||
      startsWith cmdStr "PATH:" || equalsIgnoreCase cmdStr "START" then 1
  else 0

/-- Method `AGV_CommunicationHub::handleWebSocketEvent`. -/
def handleWebSocketEvent (d : Device) (num : Nat) (type : WStype_t) (payload : List Char)
    (length : Nat) : Device :=
  let t := xSemaphoreTake d
  if !t.1 then t.2
  else
    let d1 :=
      match type with
      | WStype_t.WStype_DISCONNECTED => t.2
      | WStype_t.WStype_CONNECTED =>
        if t.2.hub.webSocket then
          emit t.2 (Event.sendTXT num "ESP32 Connected - Ready for commands")
        else t.2
      | WStype_t.WStype_TEXT =>
        let cmd := AGVCoreNetworkLib.cmdCopy payload length
        let priority := socketPriority cmd
        let d2 :=
          if t.2.hub.commandCallback then emit t.2 (Event.commandCallback cmd 0 priority)
          else t.2
        if d2.hub.webSocket then
          emit (emit d2 (Event.sendTXT num ("Received: " ++ cmd)))
            (Event.broadcastTXT ("CLIENT: " ++ cmd))
        else d2
      | WStype_t.WStype_OTHER => t.2
    xSemaphoreGive d1

/-- One event the socket server hands to the registered handler. -/
structure Frame where
  num : Nat
  type : WStype_t
  payload : List Char
  length : Nat
  deriving DecidableEq, Repr

/-- The call `webSocket->loop()` when the socket server has the given events to deliver:
each goes to `handleWebSocketEvent` through `webSocketEventHandler`. -/
def webSocketLoop (d : Device) (frames : List Frame) : Device :=
  frames.foldl (fun dev f => handleWebSocketEvent dev f.num f.type f.payload f.length) d

/-- One pass of the `while(1)` loop of `AGV_CommunicationHub::core0Task`, with `frames` the
socket events waiting and no HTTP or DNS request pending (`server->handleClient()` and
`dnsServer->processNextRequest()` then have nothing to do). -/
def core0TaskIteration (d : Device) (frames : List Frame) : Device :=
  let t := xSemaphoreTake d
  let d1 :=
    if t.1 then
      let d2 :=
        if !t.2.hub.isAPMode then
          processSerialInput (if t.2.hub.webSocket then webSocketLoop t.2 frames else t.2)
        else t.2
      xSemaphoreGive d2
    else t.2
  delay d1 10

/-- A run of `processSerialInput` calls of the hub, one after each chunk of bytes arrives. -/
def serialFeed (d : Device) (chunks : List (List Char)) : Device :=
  chunks.foldl
    (fun dev bytes => processSerialInput { dev with serialIn := dev.serialIn ++ bytes }) d

/-- The arguments of the hub's `commandCallback` calls among recorded calls. -/
def commandCalls : List Event → List (String × Nat × Nat)
  | [] => []
  | Event.commandCallback cmd source priority :: rest =>
    (cmd, source, priority) :: commandCalls rest
  | _ :: rest => commandCalls rest

end AGVCommunicationHub

namespace AGVCommLib

open Arduino

/-- Method `AGVComm::generateSessionToken` over the coming raw random numbers `rng`
(Arduino `random(0, 16)` is the raw number modulo 16; zero once the list is used up):
32 times `token += String(random(0, 16), HEX)`. Returns the token and the numbers left. -/
def generateSessionTokenLoop : Nat → List Nat → String → String × List Nat
  | 0, rng, token => (token, rng)
  | n + 1, [], token => generateSessionTokenLoop n [] (token.push (hexDigit 0))
  | n + 1, r :: rest, token => generateSessionTokenLoop n rest (token.push (hexDigit (r % 16)))

/-- Method `AGVComm::generateSessionToken`. -/
def generateSessionToken (rng : List Nat) : String × List Nat :=
  generateSessionTokenLoop 32 rng ""

/-- A run of `processSerial` calls, one after each chunk of bytes arrives. -/
def serialFeed (d : Device) (chunks : List (List Char)) : Device :=
  chunks.foldl (fun dev bytes => processSerial { dev with serialIn := dev.serialIn ++ bytes }) d

end AGVCommLib

/-! ## Properties -/

namespace AGVCoreNetworkLib

open Arduino

/-! ### Recorded calls -/

theorem emitted_self (d : Device) : emitted d d = [] := by
  simp [emitted]

theorem emitted_of_trace (d d' : Device) (l : List Event) (h : d'.trace = d.trace ++ l) :
    emitted d d' = l := by
  simp [emitted, h]

theorem emitted_emit (d : Device) (e : Event) : emitted d (emit d e) = [e] := by
  simp [emitted, emit]

theorem processWebCommand_emergency (d : Device) (cmd : String)
    (hE : d.net.systemEmergency = true) : processWebCommand d cmd = d := by
  simp [processWebCommand, hE]

/-- C1. While `systemEmergency` is set, a command text that is not a stop/clear keyword
never reaches `commandCallback`: not through `processWebCommand`, not through
`processSerialCommand`, and neither through a socket text frame nor through `handleCommand`,
whatever text the frame or the request body carries. -/
theorem emergency_gate_blocks_commands (d : Device) (cmd : String)
    (hE : d.net.systemEmergency = true)
    (hk : isStopKeyword cmd = false ∧ isClearKeyword cmd = false) :
    (∀ c, Event.commandCallback c ∉ emitted d (processWebCommand d cmd)) ∧
    (∀ c, Event.commandCallback c ∉ emitted d (processSerialCommand d cmd)) ∧
    (∀ req c, Event.commandCallback c ∉ emitted d (handleCommand d req)) ∧
    (∀ num payload length c, Event.commandCallback c ∉
      emitted d (webSocketEvent d num WStype_t.WStype_TEXT payload length)) := by
  obtain ⟨hs, hc⟩ := hk
  simp only [isStopKeyword] at hs
  simp only [isClearKeyword] at hc
  refine ⟨?_, ?_, ?_, ?_⟩
  · intro c
    simp [processWebCommand_emergency d cmd hE, emitted_self]
  · intro c
    simp [processSerialCommand, hs, hc, hE, emitted_self]
  · intro req c
    simp [handleCommand, hE, emitted_emit]
  · intro num payload length c
    simp [webSocketEvent, processWebCommand_emergency d _ hE, emitted, emit]

/-- C1 at a concrete state: the device in emergency and the text `move forward`. -/
theorem emergency_gate_blocks_commands_witness :
    emergencyDevice.net.systemEmergency = true ∧
    (∀ c, Event.commandCallback c ∉
      emitted emergencyDevice (processWebCommand emergencyDevice "move forward")) ∧
    (∀ c, Event.commandCallback c ∉
      emitted emergencyDevice (processSerialCommand emergencyDevice "move forward")) ∧
    (∀ c, Event.commandCallback c ∉
      emitted emergencyDevice
        (handleCommand emergencyDevice
          (post "/command" "\x7b\"command\":\"move forward\"\x7d" ""))) :=
  have h := emergency_gate_blocks_commands emergencyDevice "move forward"
    (by decide) (by decide)
  ⟨by decide, h.1, h.2.1, fun c => h.2.2.1 _ c⟩

/-- C2. The failing input: the device is in emergency with both callbacks registered.
`CLEAR_EMERGENCY` and `STOP` arriving as a socket frame or as an authenticated
`POST /command` (bearer token of the current session) reach no callback (the frame is only acknowledged and echoed, the request
is answered 403), while the same text on the serial link reaches `emergencyStateCallback`. -/
theorem web_stop_clear_dropped_in_emergency :
    emergencyDevice.net.systemEmergency = true ∧
    emergencyDevice.net.commandCallback = true ∧
    emergencyDevice.net.emergencyStateCallback = true ∧
    emitted emergencyDevice (processWebCommand emergencyDevice "CLEAR_EMERGENCY") = [] ∧
    emitted emergencyDevice (processWebCommand emergencyDevice "STOP") = [] ∧
    emitted emergencyDevice
        (webSocketEvent emergencyDevice 0 WStype_t.WStype_TEXT "CLEAR_EMERGENCY".data 15) =
      [Event.sendTXT 0 "ACK: CLEAR_EMERGENCY", Event.broadcastTXT "WS: CLEAR_EMERGENCY"] ∧
    emitted emergencyDevice
        (webSocketEvent emergencyDevice 0 WStype_t.WStype_TEXT "STOP".data 4) =
      [Event.sendTXT 0 "ACK: STOP", Event.broadcastTXT "WS: STOP"] ∧
    emitted emergencyDevice
        (runHandler emergencyDevice Handler.staCommand
          (post "/command" "\x7b\"command\":\"CLEAR_EMERGENCY\"\x7d"
            ("Bearer " ++ emergencyDevice.net.sessionToken))) =
      [Event.send 403 "text/plain" "Emergency state active"] ∧
    emitted emergencyDevice (processSerialCommand emergencyDevice "CLEAR_EMERGENCY") =
      [Event.emergencyStateCallback false] ∧
    emitted emergencyDevice (processSerialCommand emergencyDevice "STOP") =
      [Event.emergencyStateCallback true] := by
  decide

/-- C3, refuted at the device as `begin` leaves it in Station mode (no callback registered
yet): after the socket frame `STOP` the flag `systemEmergency` is still false and no frame
beginning `SYSTEM_EMERGENCY: ` was broadcast. -/
theorem socket_stop_sets_no_emergency :
    bootedDevice.net.systemEmergency = false ∧
    ¬ (webSocketEvent bootedDevice 0 WStype_t.WStype_TEXT "STOP".data 4).net.systemEmergency
        = true ∧
    ¬ ∃ msg, Event.broadcastTXT msg ∈
          emitted bootedDevice
            (webSocketEvent bootedDevice 0 WStype_t.WStype_TEXT "STOP".data 4) ∧
        startsWith msg "SYSTEM_EMERGENCY: " = true := by
  refine ⟨by decide, by decide, ?_⟩
  rintro ⟨msg, hmem, hpre⟩
  have hem : emitted bootedDevice
      (webSocketEvent bootedDevice 0 WStype_t.WStype_TEXT "STOP".data 4) =
      [Event.sendTXT 0 "ACK: STOP", Event.broadcastTXT "WS: STOP"] := by decide
  rw [hem] at hmem
  simp at hmem
  subst hmem
  revert hpre
  decide

/-- C3 as amended. A socket text frame `STOP` handled while `systemEmergency` is false is
treated like any other command: it is passed to a registered `commandCallback`, acknowledged
to the sender with `ACK: STOP` and echoed to all clients as `WS: STOP`; the fields of the
network object, `systemEmergency` among them, are unchanged. -/
theorem socket_stop_is_forwarded (d : Device) (num : Nat)
    (hE : d.net.systemEmergency = false) :
    (webSocketEvent d num WStype_t.WStype_TEXT "STOP".data 4).net = d.net ∧
    emitted d (webSocketEvent d num WStype_t.WStype_TEXT "STOP".data 4) =
      (if d.net.commandCallback then [Event.commandCallback "STOP"] else []) ++
        [Event.sendTXT num "ACK: STOP", Event.broadcastTXT "WS: STOP"] := by
  have hc : cmdCopy "STOP".data 4 = "STOP" := by decide
  cases hcb : d.net.commandCallback <;>
    simp [webSocketEvent, processWebCommand, hE, hcb, hc, emitted, emit]

/-- C3 as amended, at the station device. -/
theorem socket_stop_is_forwarded_witness :
    (webSocketEvent stationDevice 7 WStype_t.WStype_TEXT "STOP".data 4).net =
      stationDevice.net ∧
    emitted stationDevice (webSocketEvent stationDevice 7 WStype_t.WStype_TEXT "STOP".data 4) =
      (if stationDevice.net.commandCallback then [Event.commandCallback "STOP"] else []) ++
        [Event.sendTXT 7 "ACK: STOP", Event.broadcastTXT "WS: STOP"] :=
  socket_stop_is_forwarded stationDevice 7 (by decide)

/-! ### The lock -/

theorem xSemaphoreTake_net (d : Device) : (xSemaphoreTake d).2.net = d.net := by
  unfold xSemaphoreTake
  split <;> rfl

theorem xSemaphoreTake_trace (d : Device) : (xSemaphoreTake d).2.trace = d.trace := by
  unfold xSemaphoreTake
  split <;> rfl

theorem xSemaphoreTake_free (d : Device) (h : LockFree d) :
    (xSemaphoreTake d).1 = true ∧ LockFree (xSemaphoreTake d).2 := by
  unfold xSemaphoreTake
  split
  · exact ⟨rfl, h⟩
  · rename_i b rest hb
    refine ⟨?_, ?_⟩
    · exact h b (by simp [hb])
    · intro c hc
      exact h c (by simp only [hb]; exact List.mem_cons_of_mem _ hc)

theorem isClear_not_isStop (cmd : String) (h : isClearKeyword cmd = true) :
    isStopKeyword cmd = false := by
  have h15 : (trim cmd).data.length = 15 := by
    have := h
    simp only [isClearKeyword, equalsIgnoreCase, Bool.and_eq_true, beq_iff_eq] at this
    exact this.1
  simp [isStopKeyword, equalsIgnoreCase, h15]

/-- C4, refuted with no `emergencyStateCallback` registered: `STOP` and `ABORT` on the serial
link leave `systemEmergency` false, and `CLEAR_EMERGENCY` received while it is true leaves it
true. -/
theorem serial_keywords_leave_flag :
    bootedDevice.net.emergencyStateCallback = false ∧
    bootedDevice.net.systemEmergency = false ∧
    ¬ (processSerialCommand bootedDevice "STOP").net.systemEmergency = true ∧
    ¬ (processSerialCommand bootedDevice "ABORT").net.systemEmergency = true ∧
    (broadcastEmergency bootedDevice (some "obstacle")).net.systemEmergency = true ∧
    ¬ (processSerialCommand (broadcastEmergency bootedDevice (some "obstacle"))
        "CLEAR_EMERGENCY").net.systemEmergency = false := by
  decide

/-- C4 as amended. A stop keyword (`STOP`, `ABORT`) on the serial link invokes a registered
`emergencyStateCallback` with `true`, the clear keyword `CLEAR_EMERGENCY` invokes it with
`false`, and nothing else is called; `processSerialCommand` leaves every field of the network
object, `systemEmergency` among them, as it was, whether or not the callback is registered. -/
theorem serial_keywords_notify_only (d : Device) (cmd : String)
    (hk : isStopKeyword cmd = true ∨ isClearKeyword cmd = true) :
    (processSerialCommand d cmd).net = d.net ∧
    (isStopKeyword cmd = true → emitted d (processSerialCommand d cmd) =
      if d.net.emergencyStateCallback then [Event.emergencyStateCallback true] else []) ∧
    (isClearKeyword cmd = true → emitted d (processSerialCommand d cmd) =
      if d.net.emergencyStateCallback then [Event.emergencyStateCallback false] else []) := by
  refine ⟨?_, ?_, ?_⟩
  · rcases hk with hs | hc
    · simp only [isStopKeyword] at hs
      cases hcb : d.net.emergencyStateCallback <;>
        simp [processSerialCommand, hs, hcb, emit]
    · have hs := isClear_not_isStop cmd hc
      simp only [isStopKeyword] at hs
      simp only [isClearKeyword] at hc
      cases hcb : d.net.emergencyStateCallback <;>
        simp [processSerialCommand, hs, hc, hcb, emit]
  · intro hs
    simp only [isStopKeyword] at hs
    cases hcb : d.net.emergencyStateCallback <;>
      simp [processSerialCommand, hs, hcb, emitted_emit, emitted_self]
  · intro hc
    have hs := isClear_not_isStop cmd hc
    simp only [isStopKeyword] at hs
    simp only [isClearKeyword] at hc
    cases hcb : d.net.emergencyStateCallback <;>
      simp [processSerialCommand, hs, hc, hcb, emitted_emit, emitted_self]

/-- C4 as amended, at the station device (callback registered) for `stop` in lower case and
for `CLEAR_EMERGENCY`. -/
theorem serial_keywords_notify_only_witness :
    ((processSerialCommand stationDevice " stop ").net = stationDevice.net ∧
      emitted stationDevice (processSerialCommand stationDevice " stop ") =
        [Event.emergencyStateCallback true]) ∧
    ((processSerialCommand emergencyDevice "CLEAR_EMERGENCY").net = emergencyDevice.net ∧
      emitted emergencyDevice (processSerialCommand emergencyDevice "CLEAR_EMERGENCY") =
        [Event.emergencyStateCallback false]) :=
  have h1 := serial_keywords_notify_only stationDevice " stop " (Or.inl (by decide))
  have h2 := serial_keywords_notify_only emergencyDevice "CLEAR_EMERGENCY" (Or.inr (by decide))
  ⟨⟨h1.1, (h1.2.1 (by decide)).trans (by decide)⟩,
    ⟨h2.1, (h2.2.2 (by decide)).trans (by decide)⟩⟩

theorem strlen_pos_of_ne (s : String) (h : s ≠ "") : (strlen s == 0) = false := by
  have hd : s.data ≠ [] := by
    intro hnil
    apply h
    cases s
    simp_all
  cases s with
  | mk l =>
    cases l with
    | nil => exact absurd rfl hd
    | cons c cs => rfl

/-- What `broadcastEmergency` does for a non-empty message: the flag is set, the frame is
broadcast when the lock is obtained and a socket server exists, and a registered
`emergencyStateCallback` is called with `true`. -/
theorem broadcastEmergency_run (d : Device) (msg : String) (hne : msg ≠ "") :
    (broadcastEmergency d (some msg)).net = { d.net with systemEmergency := true } ∧
    (broadcastEmergency d (some msg)).mutexTakes = (xSemaphoreTake d).2.mutexTakes ∧
    (broadcastEmergency d (some msg)).trace = d.trace ++
      ((if (xSemaphoreTake d).1 && d.net.webSocket
          then [Event.broadcastTXT ("SYSTEM_EMERGENCY: " ++ msg)] else []) ++
        (if d.net.emergencyStateCallback then [Event.emergencyStateCallback true] else [])) := by
  have hl := strlen_pos_of_ne msg hne
  obtain ⟨net, trace, mc, takes, ws, rng, prefs, scan, millis, serialIn, serialBuffer⟩ := d
  rcases takes with _ | ⟨b, rest⟩
  · cases hw : net.webSocket <;> cases hcb : net.emergencyStateCallback <;>
      simp [broadcastEmergency, hl, xSemaphoreTake, emit, hw, hcb]
  · cases b <;> cases hw : net.webSocket <;> cases hcb : net.emergencyStateCallback <;>
      simp [broadcastEmergency, hl, xSemaphoreTake, emit, hw, hcb]

/-- C5, refuted at the empty reason: `broadcastEmergency("")` on the station device (socket
server present, lock free, callback registered) leaves `systemEmergency` false and calls
nothing. -/
theorem broadcastEmergency_empty_reason :
    stationDevice.net.webSocket = true ∧
    stationDevice.net.emergencyStateCallback = true ∧
    (xSemaphoreTake stationDevice).1 = true ∧
    ¬ (broadcastEmergency stationDevice (some "")).net.systemEmergency = true ∧
    emitted stationDevice (broadcastEmergency stationDevice (some "")) = [] := by
  decide

/-- C5 as amended. For every non-empty reason, on return from `broadcastEmergency` the
flag `systemEmergency` is true, the frame `SYSTEM_EMERGENCY: <reason>` has been broadcast
when a socket server exists and the lock was obtained, and a registered
`emergencyStateCallback` has been called with `true`; nothing else is called. -/
theorem broadcastEmergency_nonempty_reason (d : Device) (reason : String)
    (hne : reason ≠ "") :
    (broadcastEmergency d (some reason)).net.systemEmergency = true ∧
    emitted d (broadcastEmergency d (some reason)) =
      (if (xSemaphoreTake d).1 && d.net.webSocket
        then [Event.broadcastTXT ("SYSTEM_EMERGENCY: " ++ reason)] else []) ++
      (if d.net.emergencyStateCallback then [Event.emergencyStateCallback true] else []) := by
  obtain ⟨hnet, _, htr⟩ := broadcastEmergency_run d reason hne
  exact ⟨by rw [hnet], emitted_of_trace _ _ _ htr⟩

/-- C5 as amended, at the station device with the reason `obstacle`. -/
theorem broadcastEmergency_nonempty_reason_witness :
    (broadcastEmergency stationDevice (some "obstacle")).net.systemEmergency = true ∧
    emitted stationDevice (broadcastEmergency stationDevice (some "obstacle")) =
      [Event.broadcastTXT "SYSTEM_EMERGENCY: obstacle", Event.emergencyStateCallback true] :=
  have h := broadcastEmergency_nonempty_reason stationDevice "obstacle" (by decide)
  ⟨h.1, h.2.trans (by decide)⟩

/-- C6, refuted at the station device: two calls of `broadcastEmergency("obstacle")` in a
row call `emergencyStateCallback(true)` twice, although only the first call changed
`systemEmergency`. -/
theorem broadcastEmergency_twice_calls_twice :
    stationDevice.net.systemEmergency = false ∧
    (broadcastEmergency stationDevice (some "obstacle")).net.systemEmergency = true ∧
    (broadcastEmergency (broadcastEmergency stationDevice (some "obstacle"))
      (some "obstacle")).net.systemEmergency = true ∧
    ¬ (emitted stationDevice
        (broadcastEmergency (broadcastEmergency stationDevice (some "obstacle"))
          (some "obstacle"))).count (Event.emergencyStateCallback true) = 1 ∧
    (emitted stationDevice
        (broadcastEmergency (broadcastEmergency stationDevice (some "obstacle"))
          (some "obstacle"))).count (Event.emergencyStateCallback true) = 2 := by
  decide

/-- C6 as amended. Two calls of `broadcastEmergency` in a row with non-empty reasons leave
`systemEmergency` true after each call, and a registered `emergencyStateCallback` is called
with `true` once per call, twice for the two calls, the second time without a change of
state. -/
theorem broadcastEmergency_twice (d : Device) (r1 r2 : String)
    (h1 : r1 ≠ "") (h2 : r2 ≠ "") (hcb : d.net.emergencyStateCallback = true) :
    (broadcastEmergency d (some r1)).net.systemEmergency = true ∧
    (broadcastEmergency (broadcastEmergency d (some r1)) (some r2)).net.systemEmergency = true ∧
    (broadcastEmergency (broadcastEmergency d (some r1)) (some r2)).net =
      (broadcastEmergency d (some r1)).net ∧
    (emitted d (broadcastEmergency d (some r1))).count (Event.emergencyStateCallback true) = 1 ∧
    (emitted (broadcastEmergency d (some r1))
      (broadcastEmergency (broadcastEmergency d (some r1)) (some r2))).count
        (Event.emergencyStateCallback true) = 1 ∧
    (emitted d (broadcastEmergency (broadcastEmergency d (some r1)) (some r2))).count
      (Event.emergencyStateCallback true) = 2 := by
  obtain ⟨hn1, _, ht1⟩ := broadcastEmergency_run d r1 h1
  obtain ⟨hn2, _, ht2⟩ := broadcastEmergency_run (broadcastEmergency d (some r1)) r2 h2
  have hcb1 : (broadcastEmergency d (some r1)).net.emergencyStateCallback = true := by
    rw [hn1]; exact hcb
  have e1 := emitted_of_trace _ _ _ ht1
  have e2 := emitted_of_trace _ _ _ ht2
  have e12 : emitted d (broadcastEmergency (broadcastEmergency d (some r1)) (some r2)) =
      emitted d (broadcastEmergency d (some r1)) ++
        emitted (broadcastEmergency d (some r1))
          (broadcastEmergency (broadcastEmergency d (some r1)) (some r2)) := by
    rw [e1, e2]
    apply emitted_of_trace
    rw [ht2, ht1, List.append_assoc]
  have c1 : (emitted d (broadcastEmergency d (some r1))).count
      (Event.emergencyStateCallback true) = 1 := by
    rw [e1, hcb]
    split <;> simp [List.count_cons]
  have c2 : (emitted (broadcastEmergency d (some r1))
      (broadcastEmergency (broadcastEmergency d (some r1)) (some r2))).count
        (Event.emergencyStateCallback true) = 1 := by
    rw [e2, hcb1]
    split <;> simp [List.count_cons]
  refine ⟨by rw [hn1], by rw [hn2], ?_, c1, c2, ?_⟩
  · rw [hn2, hn1]
  · rw [e12, List.count_append, c1, c2]

/-- C6 as amended, at the station device. -/
theorem broadcastEmergency_twice_witness :
    (broadcastEmergency (broadcastEmergency stationDevice (some "obstacle"))
      (some "bumper")).net.systemEmergency = true ∧
    (emitted stationDevice (broadcastEmergency (broadcastEmergency stationDevice
      (some "obstacle")) (some "bumper"))).count (Event.emergencyStateCallback true) = 2 :=
  have h := broadcastEmergency_twice stationDevice "obstacle" "bumper"
    (by decide) (by decide) (by decide)
  ⟨h.2.1, h.2.2.2.2.2⟩

/-- What `clearEmergencyState` does in Station mode when the lock is free. -/
theorem clearEmergencyState_run (d : Device) (hap : d.net.isAPMode = false)
    (hws : d.net.webSocket = true) (hlock : LockFree d) :
    (clearEmergencyState d).net = { d.net with systemEmergency := false } ∧
    (clearEmergencyState d).trace = d.trace ++
      ([Event.broadcastTXT "SYSTEM_NORMAL: Emergency cleared"] ++
        (if d.net.statusCallback
          then [Event.statusCallback "SYSTEM_NORMAL: Emergency cleared"] else []) ++
        (if d.net.emergencyStateCallback then [Event.emergencyStateCallback false] else [])) := by
  have hl : (strlen "SYSTEM_NORMAL: Emergency cleared" == 0) = false := by decide
  obtain ⟨net, trace, mc, takes, ws, rng, prefs, scan, millis, serialIn, serialBuffer⟩ := d
  simp only at hap hws
  rcases takes with _ | ⟨b1, _ | ⟨b2, rest⟩⟩
  · cases hs : net.statusCallback <;> cases hcb : net.emergencyStateCallback <;>
      simp [clearEmergencyState, sendStatus, hl, xSemaphoreTake, emit, hap, hws, hs, hcb]
  · have hb1 : b1 = true := hlock b1 (by simp)
    subst hb1
    cases hs : net.statusCallback <;> cases hcb : net.emergencyStateCallback <;>
      simp [clearEmergencyState, sendStatus, hl, xSemaphoreTake, emit, hap, hws, hs, hcb]
  · have hb1 : b1 = true := hlock b1 (by simp)
    have hb2 : b2 = true := hlock b2 (by simp)
    subst hb1 hb2
    cases hs : net.statusCallback <;> cases hcb : net.emergencyStateCallback <;>
      simp [clearEmergencyState, sendStatus, hl, xSemaphoreTake, emit, hap, hws, hs, hcb]

/-- C7. For every non-empty reason, in Station mode (not in AP mode, socket server present)
with the lock free, `broadcastEmergency(reason)` followed by `clearEmergencyState()` returns
`systemEmergency` to false, broadcasts `SYSTEM_NORMAL: Emergency cleared`, and calls a
registered `emergencyStateCallback` with `false` exactly once during the clear. -/
theorem trigger_then_clear (d : Device) (reason : String) (hne : reason ≠ "")
    (hap : d.net.isAPMode = false) (hws : d.net.webSocket = true) (hlock : LockFree d) :
    (broadcastEmergency d (some reason)).net.systemEmergency = true ∧
    (clearEmergencyState (broadcastEmergency d (some reason))).net.systemEmergency = false ∧
    Event.broadcastTXT "SYSTEM_NORMAL: Emergency cleared" ∈
      emitted (broadcastEmergency d (some reason))
        (clearEmergencyState (broadcastEmergency d (some reason))) ∧
    (d.net.emergencyStateCallback = true →
      (emitted (broadcastEmergency d (some reason))
        (clearEmergencyState (broadcastEmergency d (some reason)))).count
          (Event.emergencyStateCallback false) = 1) := by
  obtain ⟨hn1, hm1, _⟩ := broadcastEmergency_run d reason hne
  have hlock1 : LockFree (broadcastEmergency d (some reason)) := by
    intro b hb
    rw [hm1] at hb
    exact (xSemaphoreTake_free d hlock).2 b hb
  have hap1 : (broadcastEmergency d (some reason)).net.isAPMode = false := by rw [hn1]; exact hap
  have hws1 : (broadcastEmergency d (some reason)).net.webSocket = true := by rw [hn1]; exact hws
  obtain ⟨hn2, ht2⟩ := clearEmergencyState_run _ hap1 hws1 hlock1
  have e2 := emitted_of_trace _ _ _ ht2
  refine ⟨by rw [hn1], by rw [hn2], ?_, ?_⟩
  · rw [e2]
    simp
  · intro hcb
    have hcb1 : (broadcastEmergency d (some reason)).net.emergencyStateCallback = true := by
      rw [hn1]; exact hcb
    rw [e2, hcb1]
    split <;> simp [List.count_cons]

/-- C7 at the station device. -/
theorem trigger_then_clear_witness :
    (clearEmergencyState (broadcastEmergency stationDevice (some "obstacle"))).net.systemEmergency
      = false ∧
    Event.broadcastTXT "SYSTEM_NORMAL: Emergency cleared" ∈
      emitted (broadcastEmergency stationDevice (some "obstacle"))
        (clearEmergencyState (broadcastEmergency stationDevice (some "obstacle"))) ∧
    (emitted (broadcastEmergency stationDevice (some "obstacle"))
      (clearEmergencyState (broadcastEmergency stationDevice (some "obstacle")))).count
        (Event.emergencyStateCallback false) = 1 :=
  have h := trigger_then_clear stationDevice "obstacle" (by decide) (by decide) (by decide)
    (by decide)
  ⟨h.2.1, h.2.2.1, h.2.2.2 (by decide)⟩

/-! ### Session tokens -/

theorem startsWithChars_iff (p l : List Char) :
    startsWithChars p l = true ↔ ∃ r, l = p ++ r := by
  induction p generalizing l with
  | nil => simp [startsWithChars]
  | cons a p ih =>
    cases l with
    | nil => simp [startsWithChars]
    | cons c cs =>
      simp only [startsWithChars, Bool.and_eq_true, beq_iff_eq, ih, List.cons_append,
        List.cons.injEq]
      constructor
      · rintro ⟨rfl, r, rfl⟩
        exact ⟨r, rfl, rfl⟩
      · rintro ⟨r, rfl, rfl⟩
        exact ⟨rfl, r, rfl⟩

theorem substringFrom_data (s : String) (n : Nat) :
    (substringFrom s n).data = s.data.drop n := by
  obtain ⟨l⟩ := s
  simp only [substringFrom, substring]
  by_cases h : l.length < n
  · have h1 : n > l.length := h
    have h3 : l.length ≥ l.length := Nat.le_refl _
    simp only [h1, if_true, h3]
    exact (List.drop_eq_nil_of_le (Nat.le_of_lt h)).symm
  · have h1 : ¬ n > l.length := h
    simp only [h1, if_false]
    by_cases h2 : n ≥ l.length
    · simp only [h2, if_true]
      exact (List.drop_eq_nil_of_le h2).symm
    · have h4 : ¬ l.length > l.length := Nat.lt_irrefl _
      simp only [h2, if_false, h4]
      rw [List.take_of_length_le]
      simp

/-- The test of `validateToken` holds exactly for the header `Bearer ` followed by the
session token. -/
theorem bearer_test_iff (auth tok : String) :
    (startsWith auth "Bearer " && substringFrom auth 7 == tok) = true ↔
      auth = "Bearer " ++ tok := by
  have hp : ("Bearer " : String).data.length = 7 := by decide
  simp only [Bool.and_eq_true, beq_iff_eq, startsWith, startsWithChars_iff]
  constructor
  · rintro ⟨⟨r, hr⟩, hsub⟩
    have hd := substringFrom_data auth 7
    rw [hsub, hr, ← hp, List.drop_left] at hd
    apply String.ext
    rw [String.data_append, hr, hd]
  · intro h
    have hdata : auth.data = ("Bearer " : String).data ++ tok.data := by
      rw [h, String.data_append]
    refine ⟨⟨tok.data, hdata⟩, ?_⟩
    apply String.ext
    rw [substringFrom_data, hdata, ← hp, List.drop_left]

theorem validateToken_true_iff (d : Device) (req : Request) (hap : d.net.isAPMode = false) :
    (validateToken d req).1 = true ↔ req.authorization = "Bearer " ++ d.net.sessionToken := by
  rw [← bearer_test_iff]
  unfold validateToken
  simp only [hap, Bool.false_eq_true, if_false]
  split <;> simp_all

/-- C8. In AP mode `validateToken` returns true for every `Authorization` header and sends
nothing. Outside AP mode it returns true exactly when the header is `Bearer ` followed by the
current `sessionToken` (sending nothing); in every other case it sends the 401 response and
returns false, and the lambdas guarding `handleDashboard` and `handleCommand` then do nothing
beyond that 401 response. -/
theorem validateToken_contract (d : Device) (req : Request) :
    (d.net.isAPMode = true → validateToken d req = (true, d)) ∧
    (d.net.isAPMode = false →
      ((validateToken d req).1 = true ↔
        req.authorization = "Bearer " ++ d.net.sessionToken) ∧
      ((validateToken d req).1 = true → (validateToken d req).2 = d) ∧
      ((validateToken d req).1 = false →
        (validateToken d req).2 =
          emit d (Event.send 401 "application/json" "\x7b\"error\":\"Unauthorized\"\x7d") ∧
        runHandler d Handler.staDashboard req = (validateToken d req).2 ∧
        runHandler d Handler.staCommand req = (validateToken d req).2)) := by
  refine ⟨?_, ?_⟩
  · intro hap
    simp [validateToken, hap]
  · intro hap
    refine ⟨validateToken_true_iff d req hap, ?_, ?_⟩
    · unfold validateToken
      simp only [hap, Bool.false_eq_true, if_false]
      split <;> simp
    · intro hf
      refine ⟨?_, ?_, ?_⟩
      · revert hf
        unfold validateToken
        simp only [hap, Bool.false_eq_true, if_false]
        split <;> simp
      · simp [runHandler, hf]
      · simp [runHandler, hf]

/-- C8 at the logged-in device: the header carrying the session token is accepted, and a
request without it gets the 401 response only. -/
theorem validateToken_contract_witness :
    loggedInDevice.net.isAPMode = false ∧
    (validateToken loggedInDevice
      (post "/command" "" ("Bearer " ++ loggedInDevice.net.sessionToken))).1 = true ∧
    runHandler loggedInDevice Handler.staCommand
        (post "/command" "\x7b\"command\":\"move forward\"\x7d" "Bearer 0123") =
      emit loggedInDevice
        (Event.send 401 "application/json" "\x7b\"error\":\"Unauthorized\"\x7d") :=
  have h1 := (validateToken_contract loggedInDevice
    (post "/command" "" ("Bearer " ++ loggedInDevice.net.sessionToken))).2 (by decide)
  have h2 := (validateToken_contract loggedInDevice
    (post "/command" "\x7b\"command\":\"move forward\"\x7d" "Bearer 0123")).2 (by decide)
  ⟨by decide, h1.1.mpr rfl, (h2.2.2 (by decide)).2.2.trans (h2.2.2 (by decide)).1⟩

theorem random_net_trace (d : Device) (lo hi : Nat) :
    (random d lo hi).2.net = d.net ∧ (random d lo hi).2.trace = d.trace := by
  unfold random
  split
  · exact ⟨rfl, rfl⟩
  · split <;> exact ⟨rfl, rfl⟩

theorem getSessionTokenLoop_net_trace (n : Nat) (d : Device) (token : String) :
    (getSessionTokenLoop n d token).2.net = d.net ∧
    (getSessionTokenLoop n d token).2.trace = d.trace := by
  induction n generalizing d token with
  | zero => exact ⟨rfl, rfl⟩
  | succ n ih =>
    simp only [getSessionTokenLoop]
    obtain ⟨h1, h2⟩ := ih (random d 0 16).2 (token.push (hexDigit (random d 0 16).1))
    obtain ⟨r1, r2⟩ := random_net_trace d 0 16
    exact ⟨h1.trans r1, h2.trans r2⟩

/-- What `handleLogin` does on an accepted login: the session token is overwritten with a
newly generated one, which is sent in the success response. -/
theorem handleLogin_accepted (d : Device) (req : Request) (hok : loginAccepted d req = true) :
    (handleLogin d req).net = { d.net with sessionToken := (getSessionToken d).1 } ∧
    (handleLogin d req).trace = d.trace ++
      [Event.send 200 "application/json"
        ("\x7b\"success\":true,\"token\":\"" ++ (getSessionToken d).1 ++ "\"\x7d")] := by
  simp only [loginAccepted, Bool.and_eq_true, beq_iff_eq] at hok
  obtain ⟨hm, hu, hp⟩ := hok
  obtain ⟨hn, ht⟩ := getSessionTokenLoop_net_trace 32 d ""
  unfold handleLogin
  simp only [hm, hu, hp, bne_self_eq_false, Bool.false_eq_true, if_false, beq_self_eq_true,
    Bool.and_self, if_true, emit]
  exact ⟨by simp only [getSessionToken, hn], by simp only [getSessionToken, ht]⟩

theorem handleLogin_isAPMode (d : Device) (req : Request) :
    (handleLogin d req).net.isAPMode = d.net.isAPMode := by
  obtain ⟨hn, _⟩ := getSessionTokenLoop_net_trace 32 d ""
  unfold handleLogin
  split
  · rfl
  · simp only []
    split
    · simp only [emit, getSessionToken, hn]
    · rfl

theorem logins_isAPMode (reqs : List Request) (d : Device) :
    (logins d reqs).net.isAPMode = d.net.isAPMode := by
  induction reqs generalizing d with
  | nil => rfl
  | cons r rs ih =>
    simp only [logins, List.foldl_cons] at ih ⊢
    rw [ih, handleLogin_isAPMode]

theorem bearer_append_inj (t u : String) (h : "Bearer " ++ t = "Bearer " ++ u) : t = u := by
  have hd := congrArg String.data h
  rw [String.data_append, String.data_append] at hd
  exact String.ext (List.append_cancel_left hd)

/-- C9. In Station mode, after any run of login requests that ends with an accepted login,
the session token is the token that login generated and sent in its response; `validateToken`
accepts a header only if it is `Bearer ` followed by that token, so it rejects every other
presented token, and in particular the token that was valid before this login whenever the
new token differs from it. -/
theorem validateToken_rejects_other_tokens (d : Device) (reqs : List Request) (req : Request)
    (hap : d.net.isAPMode = false)
    (hok : loginAccepted (logins d reqs) req = true) :
    (handleLogin (logins d reqs) req).net.sessionToken = (getSessionToken (logins d reqs)).1 ∧
    emitted (logins d reqs) (handleLogin (logins d reqs) req) =
      [Event.send 200 "application/json"
        ("\x7b\"success\":true,\"token\":\"" ++
          (handleLogin (logins d reqs) req).net.sessionToken ++ "\"\x7d")] ∧
    (∀ r : Request, (validateToken (handleLogin (logins d reqs) req) r).1 = true →
      r.authorization = "Bearer " ++ (handleLogin (logins d reqs) req).net.sessionToken) ∧
    (∀ (t : String) (r : Request), t ≠ (handleLogin (logins d reqs) req).net.sessionToken →
      r.authorization = "Bearer " ++ t →
      (validateToken (handleLogin (logins d reqs) req) r).1 = false) ∧
    ((logins d reqs).net.sessionToken ≠ (handleLogin (logins d reqs) req).net.sessionToken →
      ∀ r : Request, r.authorization = "Bearer " ++ (logins d reqs).net.sessionToken →
        (validateToken (handleLogin (logins d reqs) req) r).1 = false) := by
  obtain ⟨hn, ht⟩ := handleLogin_accepted (logins d reqs) req hok
  have hap1 : (handleLogin (logins d reqs) req).net.isAPMode = false := by
    rw [handleLogin_isAPMode, logins_isAPMode, hap]
  have htok : (handleLogin (logins d reqs) req).net.sessionToken =
      (getSessionToken (logins d reqs)).1 := by rw [hn]
  have hrej : ∀ (t : String) (r : Request),
      t ≠ (handleLogin (logins d reqs) req).net.sessionToken →
      r.authorization = "Bearer " ++ t →
      (validateToken (handleLogin (logins d reqs) req) r).1 = false := by
    intro t r hne hr
    cases hv : (validateToken (handleLogin (logins d reqs) req) r).1
    · rfl
    · have := (validateToken_true_iff _ r hap1).mp hv
      rw [hr] at this
      exact absurd (bearer_append_inj _ _ this) hne
  refine ⟨htok, ?_, ?_, hrej, ?_⟩
  · rw [htok]
    exact emitted_of_trace _ _ _ ht
  · intro r hv
    exact (validateToken_true_iff _ r hap1).mp hv
  · intro hne r hr
    exact hrej _ r hne hr

/-- C9 at the station device: the admin logs in twice; the second login issues a different
token, after which the first token is rejected and the second accepted. -/
theorem validateToken_rejects_other_tokens_witness :
    loggedInDevice.net.sessionToken ≠
      (handleLogin loggedInDevice (post "/login" adminLoginBody "")).net.sessionToken ∧
    (validateToken loggedInDevice
      (post "/command" "" ("Bearer " ++ loggedInDevice.net.sessionToken))).1 = true ∧
    (validateToken (handleLogin loggedInDevice (post "/login" adminLoginBody ""))
      (post "/command" "" ("Bearer " ++ loggedInDevice.net.sessionToken))).1 = false :=
  have h := validateToken_rejects_other_tokens stationDevice [post "/login" adminLoginBody ""]
    (post "/login" adminLoginBody "") (by decide) (by decide)
  ⟨by decide, by decide,
    h.2.2.2.2 (by decide)
      (post "/command" "" ("Bearer " ++ loggedInDevice.net.sessionToken)) rfl⟩

/-- C10. The failing input: the device as `begin` leaves it in Station mode, before any
login. The session token is the empty string, `validateToken` accepts the header `Bearer `
(an empty token), and with a command callback registered a `POST /command` carrying that
header is executed. -/
theorem empty_bearer_accepted_before_login :
    bootedDevice.net.isAPMode = false ∧
    bootedDevice.net.sessionToken = "" ∧
    bootedDevice.trace = [] ∧
    (validateToken bootedDevice (post "/command" "" "Bearer ")).1 = true ∧
    stationDevice.net.sessionToken = "" ∧
    emitted stationDevice
        (runHandler stationDevice Handler.staCommand
          (post "/command" "\x7b\"command\":\"move forward\"\x7d" "Bearer ")) =
      [Event.commandCallback "move forward",
        Event.send 200 "application/json" "\x7b\"success\":true\x7d"] := by
  decide

/-! ### Login and field extraction -/

/-- What `handleLogin` does on a POST whose extracted fields are not the admin identity. -/
theorem handleLogin_rejected (d : Device) (req : Request)
    (hpost : req.method = HTTPMethod.HTTP_POST) (hno : loginAccepted d req = false) :
    handleLogin d req =
      emit d (Event.send 200 "application/json" "\x7b\"success\":false\x7d") := by
  simp only [loginAccepted, hpost, beq_self_eq_true, Bool.true_and] at hno
  unfold handleLogin
  simp only [hpost, bne_self_eq_false, Bool.false_eq_true, if_false, hno]

/-- The login handler is registered for POST only: on the server that a successful
`startStationMode` builds, every route that runs `handleLogin` has method POST. -/
theorem login_route_is_post (d : Device) (h : (startStationMode d).net.isAPMode = false)
    (srv : WebServer) (hsrv : (startStationMode d).net.server = some srv)
    (r : Route) (hmem : r ∈ srv.routes)
    (hh : r.handler = Handler.staLogin) : r.method = HTTPMethod.HTTP_POST := by
  unfold startStationMode at h hsrv
  by_cases hw : (wifiConnected (waitForConnection 30 d)).1 = true
  · simp only [hw, if_true, setupRoutes, Bool.false_eq_true, if_false, Option.map_some',
      Option.some.injEq] at hsrv
    subst hsrv
    simp only [List.nil_append, List.mem_cons, List.mem_singleton, List.not_mem_nil,
      or_false] at hmem
    rcases hmem with rfl | rfl | rfl | rfl <;> first | rfl | cases hh
  · simp only [hw, if_false, startAPMode] at h
    cases h

/-- C11. On a POST (the only method `handleLogin` is registered for), the handler answers
`success:true` with a token and overwrites `sessionToken` with that newly generated token
when the username and password extracted from the body equal `admin_username` and
`admin_password`; in every other case it answers `success:false` and leaves the whole
network object, `sessionToken` included, unchanged. The two answers differ, so the success
answer is given exactly on equality. -/
theorem handleLogin_contract (d : Device) (req : Request)
    (hpost : req.method = HTTPMethod.HTTP_POST) :
    ((extractField (req.arg "plain") "\"username\":\"" 12 = d.net.admin_username ∧
        extractField (req.arg "plain") "\"password\":\"" 12 = d.net.admin_password) →
      (handleLogin d req).net.sessionToken = (getSessionToken d).1 ∧
      emitted d (handleLogin d req) =
        [Event.send 200 "application/json"
          ("\x7b\"success\":true,\"token\":\"" ++ (getSessionToken d).1 ++ "\"\x7d")]) ∧
    (¬ (extractField (req.arg "plain") "\"username\":\"" 12 = d.net.admin_username ∧
        extractField (req.arg "plain") "\"password\":\"" 12 = d.net.admin_password) →
      (handleLogin d req).net = d.net ∧
      emitted d (handleLogin d req) =
        [Event.send 200 "application/json" "\x7b\"success\":false\x7d"]) ∧
    (Event.send 200 "application/json" "\x7b\"success\":false\x7d" ≠
      Event.send 200 "application/json"
        ("\x7b\"success\":true,\"token\":\"" ++ (getSessionToken d).1 ++ "\"\x7d")) := by
  refine ⟨?_, ?_, ?_⟩
  · rintro ⟨hu, hp⟩
    have hok : loginAccepted d req = true := by
      simp [loginAccepted, hpost, hu, hp]
    obtain ⟨hn, ht⟩ := handleLogin_accepted d req hok
    exact ⟨by rw [hn], emitted_of_trace _ _ _ ht⟩
  · intro hne
    have hno : loginAccepted d req = false := by
      simp only [loginAccepted, hpost, beq_self_eq_true, Bool.true_and]
      cases hb : (extractField (req.arg "plain") "\"username\":\"" 12 == d.net.admin_username &&
        extractField (req.arg "plain") "\"password\":\"" 12 == d.net.admin_password)
      · rfl
      · simp only [Bool.and_eq_true, beq_iff_eq] at hb
        exact absurd hb hne
    rw [handleLogin_rejected d req hpost hno]
    exact ⟨rfl, emitted_emit _ _⟩
  · intro h
    have h2 := congrArg String.data (Event.send.inj h).2.2
    rw [String.data_append, String.data_append] at h2
    have h3 := congrArg (List.take 12) h2
    rw [List.append_assoc, List.take_append_of_le_length (by decide)] at h3
    revert h3
    decide

/-- C11 at the station device: the admin identity is accepted, a wrong password is not. -/
theorem handleLogin_contract_witness :
    ((handleLogin stationDevice (post "/login" adminLoginBody "")).net.sessionToken =
        (getSessionToken stationDevice).1 ∧
      emitted stationDevice (handleLogin stationDevice (post "/login" adminLoginBody "")) =
        [Event.send 200 "application/json"
          ("\x7b\"success\":true,\"token\":\"" ++ (getSessionToken stationDevice).1 ++
            "\"\x7d")]) ∧
    ((handleLogin loggedInDevice
        (post "/login" "\x7b\"username\":\"admin\",\"password\":\"guess\"\x7d" "")).net =
        loggedInDevice.net ∧
      emitted loggedInDevice (handleLogin loggedInDevice
        (post "/login" "\x7b\"username\":\"admin\",\"password\":\"guess\"\x7d" "")) =
        [Event.send 200 "application/json" "\x7b\"success\":false\x7d"]) :=
  ⟨(handleLogin_contract stationDevice (post "/login" adminLoginBody "") rfl).1
      (by decide),
    (handleLogin_contract loggedInDevice
      (post "/login" "\x7b\"username\":\"admin\",\"password\":\"guess\"\x7d" "") rfl).2.1
      (by decide)⟩

theorem startsWithChars_iff_initial (p l : List Char) :
    startsWithChars p l = true ↔ p <+: l := by
  rw [startsWithChars_iff]
  constructor
  · rintro ⟨r, rfl⟩
    exact List.prefix_append p r
  · rintro ⟨r, rfl⟩
    exact ⟨r, rfl⟩

/-- The search `strstr` fails exactly when the pattern does not occur. -/
theorem strstr_eq_none_iff (p l : List Char) : strstr p l = none ↔ ¬ p <:+: l := by
  induction l with
  | nil =>
    cases p with
    | nil => simp [strstr]
    | cons a p => simp [strstr]
  | cons c cs ih =>
    unfold strstr
    by_cases hpre : startsWithChars p (c :: cs) = true
    · simp only [hpre, if_true]
      have := ((startsWithChars_iff_initial p (c :: cs)).mp hpre).isInfix
      simp [this]
    · simp only [hpre, Bool.false_eq_true, if_false, Option.map_eq_none', ih]
      rw [List.infix_cons_iff]
      have hnp : ¬ p <+: c :: cs := fun h => hpre ((startsWithChars_iff_initial _ _).mpr h)
      tauto

theorem indexOf_missing (body key : String) (hmiss : ¬ key.data <:+: body.data) :
    indexOf body key 0 = -1 := by
  unfold indexOf
  have hs : strstr key.data body.data = none := (strstr_eq_none_iff _ _).mpr hmiss
  simp [hs]

theorem extractField_eq_substringCall (body key : String) (off : Int) :
    extractField body key off =
      match substringCall body key off with
      | some (a, b) => substring body a.toNat b.toNat
      | none => "" := by
  unfold extractField substringCall
  simp only []
  split <;> rfl

/-- C12. When the key pattern does not occur in the request body, the field extraction
yields the empty string and makes no `substring` call at all. This holds for every key and
offset, so for the four keys the handlers search (`"username":"`, `"password":"`, `"ssid":"`,
`"command":"`) with the offsets they add (12, 12, 8, 11): the handler then reads an empty
username, password, network name or command. -/
theorem extractField_missing_key (body key : String) (off : Int)
    (hmiss : ¬ key.data <:+: body.data) :
    extractField body key off = "" ∧ substringCall body key off = none := by
  have hidx := indexOf_missing body key hmiss
  have hcall : substringCall body key off = none := by
    unfold substringCall
    simp only [hidx]
    have : ¬ ((-1 : Int) + off > off) := by omega
    simp [this]
  refine ⟨?_, hcall⟩
  rw [extractField_eq_substringCall, hcall]

/-- C12 at a body without the `command` key and at the empty body. -/
theorem extractField_missing_key_witness :
    (extractField "\x7b\"cmd\":\"move\"\x7d" "\"command\":\"" 11 = "" ∧
      substringCall "\x7b\"cmd\":\"move\"\x7d" "\"command\":\"" 11 = none) ∧
    (extractField "" "\"username\":\"" 12 = "" ∧
      substringCall "" "\"username\":\"" 12 = none) :=
  ⟨extractField_missing_key "\x7b\"cmd\":\"move\"\x7d" "\"command\":\"" 11
      ((strstr_eq_none_iff _ _).mp (by decide)),
    extractField_missing_key "" "\"username\":\"" 12
      ((strstr_eq_none_iff _ _).mp (by decide))⟩

/-! ### Unregistered callbacks -/

/-- C14. With no `commandCallback` registered `processWebCommand` returns the device as it
was for every input, and so does `processSerialCommand` for every input that is not a
stop/clear keyword; with no `emergencyStateCallback` registered `processSerialCommand`
returns the device as it was for every stop/clear keyword. With neither registered both
functions leave the device (state and recorded calls) untouched for every input. -/
theorem unregistered_callback_drops (d : Device) (cmd : String) :
    (d.net.commandCallback = false → processWebCommand d cmd = d) ∧
    (d.net.commandCallback = false → isStopKeyword cmd = false → isClearKeyword cmd = false →
      processSerialCommand d cmd = d) ∧
    (d.net.emergencyStateCallback = false →
      (isStopKeyword cmd = true ∨ isClearKeyword cmd = true) →
      processSerialCommand d cmd = d) ∧
    (d.net.commandCallback = false → d.net.emergencyStateCallback = false →
      processWebCommand d cmd = d ∧ processSerialCommand d cmd = d ∧
      emitted d (processWebCommand d cmd) = [] ∧
      emitted d (processSerialCommand d cmd) = []) := by
  have hweb : d.net.commandCallback = false → processWebCommand d cmd = d := by
    intro hc
    simp [processWebCommand, hc]
  have hser : d.net.commandCallback = false → d.net.emergencyStateCallback = false →
      processSerialCommand d cmd = d := by
    intro hc he
    simp [processSerialCommand, hc, he]
  refine ⟨hweb, ?_, ?_, ?_⟩
  · intro hc hs hcl
    simp only [isStopKeyword] at hs
    simp only [isClearKeyword] at hcl
    simp [processSerialCommand, hc, hs, hcl]
  · intro he _
    unfold processSerialCommand
    simp only [he, Bool.false_eq_true, if_false]
    split
    · rfl
    · split
      · rfl
      · exfalso
        rename_i h1 h2
        rcases ‹isStopKeyword cmd = true ∨ isClearKeyword cmd = true› with h | h
        · exact h1 (by simpa [isStopKeyword] using h)
        · exact h2 (by simpa [isClearKeyword] using h)
  · intro hc he
    refine ⟨hweb hc, hser hc he, ?_, ?_⟩
    · rw [hweb hc, emitted_self]
    · rw [hser hc he, emitted_self]

/-- C14 at the device as `begin` leaves it, no callback registered. -/
theorem unregistered_callback_drops_witness :
    processWebCommand bootedDevice "move forward" = bootedDevice ∧
    processSerialCommand bootedDevice "move forward" = bootedDevice ∧
    processSerialCommand bootedDevice "STOP" = bootedDevice :=
  have h := (unregistered_callback_drops bootedDevice "move forward").2.2.2
    (by decide) (by decide)
  ⟨h.1, h.2.1,
    (unregistered_callback_drops bootedDevice "STOP").2.2.1 (by decide) (Or.inl (by decide))⟩

/-! ### Command requests -/

theorem strstr_quote (c rest : List Char) (hq : '"' ∉ c) :
    strstr ['"'] (c ++ '"' :: rest) = some c.length := by
  induction c with
  | nil => simp [strstr, startsWithChars]
  | cons a c ih =>
    have ha : ('"' == a) = false := by
      simp only [beq_eq_false_iff_ne, ne_eq]
      intro h
      exact hq (h ▸ List.mem_cons_self _ _)
    have hc : '"' ∉ c := fun h => hq (List.mem_cons_of_mem _ h)
    simp [strstr, startsWithChars, ha, ih hc]

theorem commandBody_data (c : String) :
    (commandBody c).data =
      '\x7b' :: (("\"command\":\"" : String).data ++ (c.data ++ ['"', '\x7d'])) := by
  simp only [commandBody, String.data_append]
  rfl

theorem strstr_commandBody (c : String) :
    strstr ("\"command\":\"" : String).data (commandBody c).data = some 1 := by
  rw [commandBody_data]
  have hk : ("\"command\":\"" : String).data =
      ['"', 'c', 'o', 'm', 'm', 'a', 'n', 'd', '"', ':', '"'] := rfl
  rw [hk]
  simp [strstr, startsWithChars]

/-- The field extraction recovers the command text from a command body. -/
theorem extractField_commandBody (c : String) (hne : c ≠ "") (hq : '"' ∉ c.data) :
    extractField (commandBody c) "\"command\":\"" 11 = c := by
  have hlen : (commandBody c).data.length = c.data.length + 14 := by
    rw [commandBody_data]
    simp
  have hpos : 0 < c.data.length := by
    cases c with
    | mk l =>
      cases l with
      | nil => exact absurd rfl hne
      | cons a l => simp
  have hidx : indexOf (commandBody c) "\"command\":\"" 0 = 1 := by
    unfold indexOf
    have h0 : ¬ ((0 : Int).toNat ≥ (commandBody c).data.length) := by
      rw [hlen]; simp
    simp only [lt_self_iff_false, if_false, h0, Int.toNat_zero, List.drop_zero,
      strstr_commandBody]
    rfl
  have hdrop : (commandBody c).data.drop 12 = c.data ++ ['"', '\x7d'] := by
    rw [commandBody_data]
    rfl
  have hend : indexOf (commandBody c) "\"" 12 = ((12 + c.data.length : Nat) : Int) := by
    unfold indexOf
    have h0 : ¬ ((12 : Int) < 0) := by omega
    have h2 : (12 : Int).toNat = 12 := rfl
    have h1 : ¬ (12 ≥ (commandBody c).data.length) := by
      rw [hlen]
      omega
    have hq1 : ("\"" : String).data = ['"'] := rfl
    simp only [h0, if_false, h2, h1, hdrop, hq1, strstr_quote c.data ['\x7d'] hq]
  unfold extractField
  simp only [hidx]
  have e1 : ((1 : Int) + 11) = 12 := rfl
  rw [e1, hend]
  have hc1 : ((12 : Int) > 11 && ((12 + c.data.length : Nat) : Int) > 12) = true := by
    simp only [Bool.and_eq_true, decide_eq_true_eq]
    constructor
    · omega
    · push_cast
      omega
  simp only [hc1, if_true]
  have t1 : (12 : Int).toNat = 12 := rfl
  have t2 : (((12 + c.data.length : Nat) : Int)).toNat = 12 + c.data.length :=
    Int.toNat_ofNat _
  rw [t1, t2]
  unfold substring
  have g1 : ¬ (12 > 12 + c.data.length) := by omega
  have g2 : ¬ (12 ≥ (commandBody c).data.length) := by rw [hlen]; omega
  have g3 : ¬ (12 + c.data.length > (commandBody c).data.length) := by rw [hlen]; omega
  simp only [g1, if_false, g2, g3, hdrop]
  apply String.ext
  simp

/-- The lambda of the `/command` route on a POST with body `{"command":"c"}` and header
`Bearer ` followed by the current session token. -/
theorem command_lambda_forwards (d : Device) (c : String)
    (hap : d.net.isAPMode = false) (hE : d.net.systemEmergency = false)
    (hcb : d.net.commandCallback = true) (hne : c ≠ "") (hq : '"' ∉ c.data) :
    emitted d (runHandler d Handler.staCommand
        (post "/command" (commandBody c) ("Bearer " ++ d.net.sessionToken))) =
      [Event.commandCallback c, Event.send 200 "application/json" "\x7b\"success\":true\x7d"] ∧
    (runHandler d Handler.staCommand
        (post "/command" (commandBody c) ("Bearer " ++ d.net.sessionToken))).net = d.net := by
  have hv : validateToken d (post "/command" (commandBody c) ("Bearer " ++ d.net.sessionToken))
      = (true, d) := by
    have h1 := (validateToken_contract d
      (post "/command" (commandBody c) ("Bearer " ++ d.net.sessionToken))).2 hap
    have ht := h1.1.mpr rfl
    exact Prod.ext ht (h1.2.1 ht)
  have hx := extractField_commandBody c hne hq
  have hpos : c.data.length > 0 := by
    cases c with
    | mk l =>
      cases l with
      | nil => exact absurd rfl hne
      | cons a l => simp
  have hbody : (post "/command" (commandBody c) ("Bearer " ++ d.net.sessionToken)).arg "plain"
      = commandBody c := by
    simp [post, Request.arg, List.lookup]
  have hm : (post "/command" (commandBody c) ("Bearer " ++ d.net.sessionToken)).method =
      HTTPMethod.HTTP_POST := rfl
  have hrun : runHandler d Handler.staCommand
      (post "/command" (commandBody c) ("Bearer " ++ d.net.sessionToken)) =
      emit (emit d (Event.commandCallback c))
        (Event.send 200 "application/json" "\x7b\"success\":true\x7d") := by
    simp only [runHandler, hv, if_true, handleCommand, hm, hE, hbody, hx, hpos,
      processWebCommand, hcb, bne_self_eq_false, Bool.or_self, Bool.false_eq_true, if_false]
  rw [hrun]
  constructor
  · apply emitted_of_trace
    simp [emit]
  · rfl

/-- The web server a successful `startStationMode` leaves behind. -/
theorem startStationMode_server (d : Device) (h : (startStationMode d).net.isAPMode = false) :
    (startStationMode d).net.server = some
      { routes := [⟨"/", HTTPMethod.HTTP_GET, Handler.staDashboard⟩,
                   ⟨"/login", HTTPMethod.HTTP_POST, Handler.staLogin⟩,
                   ⟨"/command", HTTPMethod.HTTP_POST, Handler.staCommand⟩,
                   ⟨"/status", HTTPMethod.HTTP_GET, Handler.staStatus⟩]
        notFound := true
        begun := true } := by
  unfold startStationMode at h ⊢
  by_cases hw : (wifiConnected (waitForConnection 30 d)).1 = true
  · simp only [hw, if_true, setupRoutes, Bool.false_eq_true, if_false, Option.map_some',
      List.nil_append]
  · simp only [hw, if_false, startAPMode] at h
    cases h

/-- C13. In Station mode, on the web server that a successful `startStationMode` has set up
with `setupRoutes`, with `systemEmergency` false and a `commandCallback` registered, for
every non-empty command text `c` without a double quote: `server->handleClient()` serving a
POST of `/command` with body `{"command":"c"}` and header `Bearer ` followed by the current
session token returns, having called `commandCallback` exactly once, with exactly `c`, and
then answered 200 `{"success":true}`; the network object is left as it was. -/
theorem command_request_forwarded (d d0 : Device) (c : String) (fuel : Nat)
    (hsta : (startStationMode d0).net.isAPMode = false)
    (hsrv : d.net.server = (startStationMode d0).net.server)
    (hap : d.net.isAPMode = false) (hE : d.net.systemEmergency = false)
    (hcb : d.net.commandCallback = true) (hne : c ≠ "") (hq : '"' ∉ c.data) :
    handleClient fuel d
        (post "/command" (commandBody c) ("Bearer " ++ d.net.sessionToken)) =
      some (emit (emit d (Event.commandCallback c))
        (Event.send 200 "application/json" "\x7b\"success\":true\x7d")) ∧
    Option.map (emitted d) (handleClient fuel d
        (post "/command" (commandBody c) ("Bearer " ++ d.net.sessionToken))) =
      some [Event.commandCallback c,
        Event.send 200 "application/json" "\x7b\"success\":true\x7d"] ∧
    Option.map (fun r => r.net) (handleClient fuel d
        (post "/command" (commandBody c) ("Bearer " ++ d.net.sessionToken))) = some d.net := by
  obtain ⟨h1, h2⟩ := command_lambda_forwards d c hap hE hcb hne hq
  have hs := hsrv.trans (startStationMode_server d0 hsta)
  have hserve : handleClient fuel d
      (post "/command" (commandBody c) ("Bearer " ++ d.net.sessionToken)) =
      some (runHandler d Handler.staCommand
        (post "/command" (commandBody c) ("Bearer " ++ d.net.sessionToken))) := by
    unfold handleClient
    rw [hs]
    simp [matchesRoute, post, List.find?]
  have hrun : runHandler d Handler.staCommand
      (post "/command" (commandBody c) ("Bearer " ++ d.net.sessionToken)) =
      emit (emit d (Event.commandCallback c))
        (Event.send 200 "application/json" "\x7b\"success\":true\x7d") := by
    have hv : validateToken d
        (post "/command" (commandBody c) ("Bearer " ++ d.net.sessionToken)) = (true, d) := by
      have g1 := (validateToken_contract d
        (post "/command" (commandBody c) ("Bearer " ++ d.net.sessionToken))).2 hap
      have ht := g1.1.mpr rfl
      exact Prod.ext ht (g1.2.1 ht)
    have hx := extractField_commandBody c hne hq
    have hpos : c.data.length > 0 := by
      cases c with
      | mk l =>
        cases l with
        | nil => exact absurd rfl hne
        | cons a l => simp
    have hbody : (post "/command" (commandBody c) ("Bearer " ++ d.net.sessionToken)).arg "plain"
        = commandBody c := by
      simp [post, Request.arg, List.lookup]
    have hm : (post "/command" (commandBody c) ("Bearer " ++ d.net.sessionToken)).method =
        HTTPMethod.HTTP_POST := rfl
    simp only [runHandler, hv, if_true, handleCommand, hm, hE, hbody, hx, hpos,
      processWebCommand, hcb, bne_self_eq_false, Bool.or_self, Bool.false_eq_true, if_false]
  refine ⟨hserve.trans (congrArg some hrun), ?_, ?_⟩
  · rw [hserve, Option.map_some', h1]
  · rw [hserve, Option.map_some', h2]

/-- C13 at the logged-in device, whose web server `startStationMode` set up at power-on,
with the text `move forward`. -/
theorem command_request_forwarded_witness :
    loggedInDevice.net.server = (startStationMode powerOn).net.server ∧
    Option.map (emitted loggedInDevice) (handleClient 0 loggedInDevice
        (post "/command" "\x7b\"command\":\"move forward\"\x7d"
          ("Bearer " ++ loggedInDevice.net.sessionToken))) =
      some [Event.commandCallback "move forward",
        Event.send 200 "application/json" "\x7b\"success\":true\x7d"] :=
  ⟨by decide,
    (command_request_forwarded loggedInDevice powerOn "move forward" 0 (by decide) (by decide)
      (by decide) (by decide) (by decide) (by decide) (by decide)).2.1⟩

/-! ### The serial line reader -/

/-- Once the line buffer holds 63 characters the reader loop is left at once, whatever is
waiting on the serial link. -/
theorem processSerialInputLoop_full (pending : List Char) (d : Device)
    (h : d.serialBuffer.length ≥ 63) : processSerialInputLoop pending d = d := by
  cases pending with
  | nil => rfl
  | cons c rest =>
    have h' : ¬ d.serialBuffer.length < 63 := by omega
    simp [processSerialInputLoop, h']

/-- C19. The failing input: 63 characters without a line terminator. They fill the buffer
(`bufferIndex == 63`) without any call being made; from then on `processSerialInput` reads
nothing, whatever arrives: the line `STOP` with its line feed stays unread on the link and
reaches no callback, while the same line on the device before the long line is processed. -/
theorem oversized_line_jams_reader :
    jammedDevice.serialBuffer.length = 63 ∧
    emitted stationDevice jammedDevice = [] ∧
    (∀ bytes : List Char,
      processSerialInput (serialReceive jammedDevice bytes) = serialReceive jammedDevice bytes) ∧
    (processSerialInput (serialReceive jammedDevice "STOP\n".data)).serialIn = "STOP\n".data ∧
    emitted jammedDevice (processSerialInput (serialReceive jammedDevice "STOP\n".data)) = [] ∧
    emitted stationDevice (processSerialInput (serialReceive stationDevice "STOP\n".data)) =
      [Event.emergencyStateCallback true, Event.broadcastTXT "SERIAL: STOP"] := by
  have hfull : jammedDevice.serialBuffer.length = 63 := by decide
  have hstuck : ∀ bytes : List Char,
      processSerialInput (serialReceive jammedDevice bytes) = serialReceive jammedDevice bytes := by
    intro bytes
    unfold processSerialInput
    apply processSerialInputLoop_full
    show jammedDevice.serialBuffer.length ≥ 63
    omega
  refine ⟨hfull, by decide, hstuck, ?_, ?_, by decide⟩
  · rw [hstuck]
    decide
  · rw [hstuck]
    decide

theorem commandCalls_append (a b : List Event) :
    commandCalls (a ++ b) = commandCalls a ++ commandCalls b := by
  induction a with
  | nil => rfl
  | cons e a ih =>
    cases e <;> simp [commandCalls, ih]

/-- Method `sendStatus` changes neither the network object nor the line buffer and calls no
`commandCallback`. -/
theorem sendStatus_frame (d : Device) (st : String) :
    (sendStatus d (some st)).net = d.net ∧
    (sendStatus d (some st)).serialBuffer = d.serialBuffer ∧
    ∃ extra, (sendStatus d (some st)).trace = d.trace ++ extra ∧ commandCalls extra = [] := by
  obtain ⟨net, trace, mc, takes, ws, rng, prefs, scan, millis, serialIn, serialBuffer⟩ := d
  unfold sendStatus
  simp only []
  by_cases h0 : (strlen st == 0 || net.isAPMode) = true
  · simp only [h0, if_true]
    exact ⟨trivial, trivial, [], by simp, rfl⟩
  · simp only [h0, Bool.false_eq_true, if_false]
    rcases takes with _ | ⟨b, rest⟩
    · cases hw : net.webSocket <;> cases hs : net.statusCallback <;>
        simp [xSemaphoreTake, emit, hw, hs, commandCalls]
    · cases b <;> cases hw : net.webSocket <;> cases hs : net.statusCallback <;>
        simp [xSemaphoreTake, emit, hw, hs, commandCalls]

/-- Reading the characters of a line that fits: they are stored one by one. -/
theorem processSerialInputLoop_chars (l : List Char) (c : Char) (rest : List Char) (d : Device)
    (hn : ∀ x ∈ c :: l, x ≠ '\n' ∧ x ≠ '\r')
    (hlen : d.serialBuffer.length + (l.length + 1) ≤ 63) :
    processSerialInputLoop (c :: l ++ rest) d =
      processSerialInputLoop rest
        { d with serialIn := rest, serialBuffer := d.serialBuffer ++ c :: l,
                 millis := d.millis + (l.length + 1) } := by
  induction l generalizing c d with
  | nil =>
    obtain ⟨h1, h2⟩ := hn c (List.mem_cons_self _ _)
    have hlt : d.serialBuffer.length < 63 := by simp at hlen; omega
    simp [processSerialInputLoop, hlt, h1, h2, delay]
  | cons c2 l ih =>
    obtain ⟨h1, h2⟩ := hn c (List.mem_cons_self _ _)
    have hlt : d.serialBuffer.length < 63 := by simp at hlen; omega
    have hn' : ∀ x ∈ c2 :: l, x ≠ '\n' ∧ x ≠ '\r' :=
      fun x hx => hn x (List.mem_cons_of_mem _ hx)
    have step : processSerialInputLoop (c :: (c2 :: l) ++ rest) d =
        processSerialInputLoop (c2 :: l ++ rest)
          (delay { d with serialIn := c2 :: l ++ rest, serialBuffer := d.serialBuffer ++ [c] } 1) := by
      simp [processSerialInputLoop, hlt, h1, h2]
    rw [step, ih c2 _ hn' (by simp [delay] at hlen ⊢; omega)]
    congr 1
    simp [delay, Nat.add_assoc, Nat.add_comm]

/-- At the line feed behind a buffered forwardable line the line is passed to
`commandCallback` once, no other command call is made, and the buffer is emptied. -/
theorem serialLineEnd_forwards (d : Device)
    (hpos : d.serialBuffer.length > 0)
    (hblank : (trim (cstr d.serialBuffer)).data.length > 0)
    (hstop : isStopKeyword (cstr d.serialBuffer) = false)
    (hclear : isClearKeyword (cstr d.serialBuffer) = false)
    (hE : d.net.systemEmergency = false) (hcb : d.net.commandCallback = true) :
    (serialLineEnd d).net = d.net ∧ (serialLineEnd d).serialBuffer = [] ∧
      ∃ extra, (serialLineEnd d).trace =
          d.trace ++ Event.commandCallback (cstr d.serialBuffer) :: extra ∧
        commandCalls extra = [] := by
  simp only [isStopKeyword] at hstop
  simp only [isClearKeyword] at hclear
  obtain ⟨hsn, hsb, extra, hst, hse⟩ := sendStatus_frame
    (emit d (Event.commandCallback (cstr d.serialBuffer)))
    ("SERIAL: " ++ trim (cstr d.serialBuffer))
  have hpc : processSerialCommand d (cstr d.serialBuffer) =
      emit d (Event.commandCallback (cstr d.serialBuffer)) := by
    simp only [processSerialCommand, hstop, hclear, hE, hcb, Bool.false_eq_true, if_false,
      if_true]
  unfold serialLineEnd
  simp only [gt_iff_lt, hpos, if_true, hblank, hpc]
  by_cases hmode : d.net.isAPMode = true
  · refine ⟨by simp [emit, hmode], by simp, [], by simp [emit, hmode], rfl⟩
  · simp only [Bool.not_eq_true] at hmode
    have hm2 : (!(emit d (Event.commandCallback (cstr d.serialBuffer))).net.isAPMode &&
        !(emit d (Event.commandCallback (cstr d.serialBuffer))).net.systemEmergency) = true := by
      simp [emit, hmode, hE]
    simp only [hm2, if_true]
    refine ⟨hsn, by simp, extra, ?_, hse⟩
    rw [show d.trace ++ Event.commandCallback (cstr d.serialBuffer) :: extra =
      (d.trace ++ [Event.commandCallback (cstr d.serialBuffer)]) ++ extra by simp]
    exact hst

/-- Reading one forwardable line with its line feed from an empty buffer: the line is passed
to `commandCallback` once, no other command call is made, and the reader is back at an empty
buffer with the network object unchanged. -/
theorem processSerialInputLoop_line (l rest : List Char) (d : Device)
    (hl : ForwardableLine l) (hbuf : d.serialBuffer = [])
    (hE : d.net.systemEmergency = false) (hcb : d.net.commandCallback = true) :
    ∃ d', processSerialInputLoop (l ++ '\n' :: rest) d = processSerialInputLoop rest d' ∧
      d'.net = d.net ∧ d'.serialBuffer = [] ∧
      ∃ extra, d'.trace = d.trace ++ Event.commandCallback (cstr l) :: extra ∧
        commandCalls extra = [] := by
  obtain ⟨h1, h62, hnl, hcr, hblank, hstop, hclear⟩ := hl
  cases l with
  | nil => simp at h1
  | cons c l =>
    have hn : ∀ x ∈ c :: l, x ≠ '\n' ∧ x ≠ '\r' := by
      intro x hx
      exact ⟨fun h => hnl (h ▸ hx), fun h => hcr (h ▸ hx)⟩
    have hlen : d.serialBuffer.length + (l.length + 1) ≤ 63 := by
      rw [hbuf]
      simp at h62 ⊢
      omega
    have e1 : (c :: l) ++ '\n' :: rest = c :: l ++ ('\n' :: rest) := rfl
    rw [e1, processSerialInputLoop_chars l c ('\n' :: rest) d hn hlen, hbuf]
    simp only [List.nil_append]
    have hlt : (c :: l).length < 63 := by simp at h62 ⊢; omega
    generalize hD :
      ({ d with serialIn := '\n' :: rest, serialBuffer := c :: l,
                millis := d.millis + (l.length + 1) } : Device) = D
    have hDb : D.serialBuffer = c :: l := by rw [← hD]
    have hDn : D.net = d.net := by rw [← hD]
    have hDt : D.trace = d.trace := by rw [← hD]
    obtain ⟨en, eb, extra, et, ee⟩ := serialLineEnd_forwards { D with serialIn := rest }
      (by simp [hDb]) (by simpa [hDb] using hblank) (by simpa [hDb] using hstop)
      (by simpa [hDb] using hclear) (by simpa [hDn] using hE) (by simpa [hDn] using hcb)
    refine ⟨delay (serialLineEnd { D with serialIn := rest }) 1, ?_, ?_, ?_, extra, ?_, ee⟩
    · have hlt' : D.serialBuffer.length < 63 := by rw [hDb]; exact hlt
      simp only [processSerialInputLoop, hlt', if_true, beq_self_eq_true, Bool.true_or]
    · exact en.trans hDn
    · exact eb
    · simp only [delay]
      rw [et]
      simp [hDt, hDb]

theorem processSerialInputLoop_lines (lines : List (List Char)) (d : Device)
    (hlines : ∀ l ∈ lines, ForwardableLine l) (hbuf : d.serialBuffer = [])
    (hE : d.net.systemEmergency = false) (hcb : d.net.commandCallback = true) :
    ∃ evs, (processSerialInputLoop (serialLines lines) d).trace = d.trace ++ evs ∧
      commandCalls evs = lines.map cstr := by
  induction lines generalizing d with
  | nil => exact ⟨[], by simp [serialLines, processSerialInputLoop], rfl⟩
  | cons l ls ih =>
    have hl := hlines l (List.mem_cons_self _ _)
    have hls : ∀ x ∈ ls, ForwardableLine x := fun x hx => hlines x (List.mem_cons_of_mem _ hx)
    obtain ⟨d', hrun, hnet, hb', extra, htr, hex⟩ :=
      processSerialInputLoop_line l (serialLines ls) d hl hbuf hE hcb
    obtain ⟨evs, hevs, hcalls⟩ := ih d' hls hb' (by rw [hnet]; exact hE) (by rw [hnet]; exact hcb)
    have hser : serialLines (l :: ls) = l ++ '\n' :: serialLines ls := by
      simp [serialLines, List.flatMap_cons]
    refine ⟨Event.commandCallback (cstr l) :: extra ++ evs, ?_, ?_⟩
    · rw [hser, hrun, hevs, htr]
      simp
    · rw [List.cons_append]
      simp only [commandCalls, commandCalls_append, hex, hcalls, List.nil_append, List.map_cons]

/-- C20. With `systemEmergency` false, a `commandCallback` registered and the reader at the
start of a line, for every list of serial lines, each of 1 to 62 characters, non-blank, free
of CR and LF and not a stop/clear keyword, `processSerialInput` run on the lines, each
followed by a line feed, calls `commandCallback` exactly once per line, with the text of the
line, in the order the lines were received. -/
theorem serial_lines_forwarded_in_order (d : Device) (lines : List (List Char))
    (hE : d.net.systemEmergency = false) (hcb : d.net.commandCallback = true)
    (hbuf : d.serialBuffer = []) (hin : d.serialIn = [])
    (hlines : ∀ l ∈ lines, ForwardableLine l) :
    commandCalls (emitted d (processSerialInput (serialReceive d (serialLines lines)))) =
      lines.map cstr := by
  obtain ⟨evs, htr, hcalls⟩ :=
    processSerialInputLoop_lines lines (serialReceive d (serialLines lines)) hlines hbuf hE hcb
  have hs : (serialReceive d (serialLines lines)).serialIn = serialLines lines := by
    simp [serialReceive, hin]
  unfold processSerialInput
  rw [hs]
  have htr' : (processSerialInputLoop (serialLines lines)
      (serialReceive d (serialLines lines))).trace = d.trace ++ evs := htr
  rw [emitted_of_trace _ _ _ htr', hcalls]

/-- C20 at the station device with three lines, one of them 62 characters long. -/
theorem serial_lines_forwarded_in_order_witness :
    commandCalls (emitted stationDevice (processSerialInput (serialReceive stationDevice
      (serialLines ["move forward".data, List.replicate 62 'x', " turn left ".data])))) =
      ["move forward", ⟨List.replicate 62 'x'⟩, " turn left "] :=
  (serial_lines_forwarded_in_order stationDevice
    ["move forward".data, List.replicate 62 'x', " turn left ".data]
    (by decide) (by decide) (by decide) (by decide) (by decide)).trans (by decide)

/-! ### Choice of the network mode -/

theorem wifiConnected_frame (d : Device) :
    (wifiConnected d).2.net = d.net ∧ (wifiConnected d).2.millis = d.millis ∧
    (wifiConnected d).2.wifiStatus = d.wifiStatus.drop 1 := by
  unfold wifiConnected
  split
  · rename_i h
    exact ⟨rfl, rfl, by rw [h]; rfl⟩
  · rename_i b rest h
    exact ⟨rfl, rfl, by rw [h]; rfl⟩

/-- The wait leaves the network object alone, makes at most `left` waits of 500 ms and tests
the status at most `left + 1` times. -/
theorem waitForConnection_bound (left : Nat) (d : Device) :
    (waitForConnection left d).net = d.net ∧
    (∃ attempts, attempts ≤ left ∧
      (waitForConnection left d).millis = d.millis + 500 * attempts ∧
      (waitForConnection left d).wifiStatus = d.wifiStatus.drop (attempts + 1)) := by
  induction left generalizing d with
  | zero =>
    obtain ⟨h1, h2, h3⟩ := wifiConnected_frame d
    exact ⟨h1, 0, Nat.le_refl _, by simpa [waitForConnection] using h2,
      by simpa [waitForConnection] using h3⟩
  | succ n ih =>
    obtain ⟨h1, h2, h3⟩ := wifiConnected_frame d
    by_cases hw : (wifiConnected d).1 = true
    · simp only [waitForConnection, hw, if_true]
      exact ⟨h1, 0, Nat.zero_le _, by simpa using h2, by simpa using h3⟩
    · simp only [waitForConnection, hw, Bool.false_eq_true, if_false]
      obtain ⟨g1, a, ha, g2, g3⟩ := ih (delay (wifiConnected d).2 500)
      refine ⟨g1.trans h1, a + 1, Nat.succ_le_succ ha, ?_, ?_⟩
      · rw [g2]
        simp only [delay, h2]
        omega
      · rw [g3]
        simp only [delay, h3, List.drop_drop]
        congr 1
        omega

/-- When every status test fails the wait uses up its whole window. -/
theorem waitForConnection_fail (left : Nat) (d : Device) (h : ∀ b ∈ d.wifiStatus, b = false) :
    (waitForConnection left d).millis = d.millis + 500 * left ∧
    (∀ b ∈ (waitForConnection left d).wifiStatus, b = false) := by
  induction left generalizing d with
  | zero =>
    obtain ⟨_, h2, h3⟩ := wifiConnected_frame d
    refine ⟨by simpa [waitForConnection] using h2, ?_⟩
    intro b hb
    simp only [waitForConnection, h3] at hb
    exact h b (List.mem_of_mem_drop hb)
  | succ n ih =>
    obtain ⟨_, h2, h3⟩ := wifiConnected_frame d
    have hw : (wifiConnected d).1 = false := by
      unfold wifiConnected
      split
      · rfl
      · rename_i b rest hb
        exact h b (by rw [hb]; exact List.mem_cons_self _ _)
    simp only [waitForConnection, hw, Bool.false_eq_true, if_false]
    have h' : ∀ b ∈ (delay (wifiConnected d).2 500).wifiStatus, b = false := by
      intro b hb
      simp only [delay, h3] at hb
      exact h b (List.mem_of_mem_drop hb)
    obtain ⟨g1, g2⟩ := ih (delay (wifiConnected d).2 500) h'
    refine ⟨?_, g2⟩
    rw [g1]
    simp only [delay, h2]
    omega

/-- When the radio reports the connection at the status test number `k` (counted from 0,
`k` at most `left`) the wait ends there, after `k` waits. -/
theorem waitForConnection_join (k left : Nat) (d : Device) (rest : List Bool) (hk : k ≤ left)
    (h : d.wifiStatus = List.replicate k false ++ true :: rest) :
    (waitForConnection left d).millis = d.millis + 500 * k ∧
    (waitForConnection left d).wifiStatus = rest := by
  induction k generalizing left d with
  | zero =>
    simp only [List.replicate_zero, List.nil_append] at h
    have hw : wifiConnected d = (true, { d with wifiStatus := rest }) := by
      simp [wifiConnected, h]
    cases left with
    | zero => simp [waitForConnection, hw]
    | succ n => simp [waitForConnection, hw]
  | succ k ih =>
    cases left with
    | zero => omega
    | succ n =>
      have h' : d.wifiStatus = false :: (List.replicate k false ++ true :: rest) := by
        rw [h, List.replicate_succ]
        rfl
      have hw : wifiConnected d =
          (false, { d with wifiStatus := List.replicate k false ++ true :: rest }) := by
        simp [wifiConnected, h']
      simp only [waitForConnection, hw, Bool.false_eq_true, if_false]
      obtain ⟨g1, g2⟩ := ih n (delay { d with wifiStatus := List.replicate k false ++ true :: rest }
        500) (Nat.le_of_succ_le_succ hk) rfl
      refine ⟨?_, g2⟩
      rw [g1]
      simp only [delay]
      omega

/-- The first reading of the radio status is what `wifiConnected` returns. -/
theorem wifiConnected_reading (d : Device) :
    (wifiConnected d).1 = statusReading d 0 ∧
    (∀ i, statusReading (wifiConnected d).2 i = statusReading d (i + 1)) := by
  unfold wifiConnected statusReading
  cases h : d.wifiStatus with
  | nil => simp [h]
  | cons b rest => simp [h]

/-- The wait ends at the first reading that reports the connection, or with the reading
made after the last wait: `k` waits were made, every reading before number `k` failed, and
when the window was not used up reading number `k` reported the connection. -/
theorem waitForConnection_readings (left : Nat) (d : Device) :
    ∃ k, k ≤ left ∧ (∀ i, i < k → statusReading d i = false) ∧
      (k < left → statusReading d k = true) ∧
      (waitForConnection left d).millis = d.millis + 500 * k ∧
      (waitForConnection left d).wifiStatus = d.wifiStatus.drop (k + 1) ∧
      (∀ i, statusReading (waitForConnection left d) i = statusReading d (k + 1 + i)) := by
  induction left generalizing d with
  | zero =>
    obtain ⟨_, h2, h3⟩ := wifiConnected_frame d
    obtain ⟨_, r2⟩ := wifiConnected_reading d
    refine ⟨0, Nat.le_refl _, ?_, ?_, by simpa [waitForConnection] using h2,
      by simpa [waitForConnection] using h3, ?_⟩
    · intro i hi
      omega
    · intro hlt
      omega
    · intro i
      simp only [waitForConnection, r2]
      congr 1
      omega
  | succ n ih =>
    obtain ⟨_, h2, h3⟩ := wifiConnected_frame d
    obtain ⟨r1, r2⟩ := wifiConnected_reading d
    by_cases hw : (wifiConnected d).1 = true
    · simp only [waitForConnection, hw, if_true]
      refine ⟨0, Nat.zero_le _, ?_, ?_, by simpa using h2, by simpa using h3, ?_⟩
      · intro i hi
        omega
      · intro _
        rw [← r1]
        exact hw
      · intro i
        rw [r2]
        congr 1
        omega
    · simp only [waitForConnection, hw, Bool.false_eq_true, if_false]
      have hread : ∀ i, statusReading (delay (wifiConnected d).2 500) i =
          statusReading d (i + 1) := by
        intro i
        exact r2 i
      obtain ⟨k, hk, g1, g2, g3, g4, g5⟩ := ih (delay (wifiConnected d).2 500)
      refine ⟨k + 1, Nat.succ_le_succ hk, ?_, ?_, ?_, ?_, ?_⟩
      · intro i hi
        cases i with
        | zero =>
          rw [← r1]
          simpa using hw
        | succ i =>
          rw [← hread i]
          exact g1 i (by omega)
      · intro hlt
        rw [← hread k]
        exact g2 (by omega)
      · rw [g3]
        simp only [delay, h2]
        omega
      · rw [g4]
        simp only [delay, h3, List.drop_drop]
        congr 1
        omega
      · intro i
        rw [g5, hread]
        congr 1
        omega

/-- C15, refuted at two devices with a stored network name. At the first the radio reports
the connection at the third status test, inside the window (after 2 waits), but no longer at
the deciding test: the device ends in AP mode although the join succeeded within the window.
At the second all 31 tests of the window fail, so every one of the 30 attempts failed, and
the deciding test, the 32nd reading of the status, reports the connection: the device ends
with `isAPMode == false`. -/
theorem setupWiFi_mode_ignores_window :
    loadedJoinLost.net.stored_ssid ≠ "" ∧
    loadedJoinLost.wifiStatus = [false, false, true, false] ∧
    (waitForConnection 30 loadedJoinLost).millis = loadedJoinLost.millis + 500 * 2 ∧
    (setupWiFi loadedJoinLost).net.isAPMode = true ∧
    loadedLateJoin.net.stored_ssid ≠ "" ∧
    loadedLateJoin.wifiStatus = List.replicate 31 false ++ [true] ∧
    (waitForConnection 30 loadedLateJoin).millis = loadedLateJoin.millis + 500 * 30 ∧
    (waitForConnection 30 loadedLateJoin).wifiStatus = [true] ∧
    (setupWiFi loadedLateJoin).net.isAPMode = false ∧
    (setupWiFi loadedLateJoin).wifiStatus = [] := by
  decide

/-- C15 as amended. Method `setupWiFi` is a total function and leaves the mode decided by
the last reading of the radio status. With an empty `stored_ssid` it is `startAPMode` and
reads the status not once. With a non-empty `stored_ssid` it makes `k` waits of 500 ms, at
most 30, reading the status before each wait and once more after the 30th; the wait ends at
the first reading that reports the connection. Then the status is read once more, `k + 2`
readings in all and at most 32, and the device ends with `isAPMode == false` exactly when
this last reading reports the connection; otherwise it ends with `isAPMode == true`,
through `startAPMode`. -/
theorem setupWiFi_mode_is_last_reading (d : Device) :
    (d.net.stored_ssid = "" →
      setupWiFi d = startAPMode d ∧ (setupWiFi d).net.isAPMode = true ∧
      (setupWiFi d).wifiStatus = d.wifiStatus) ∧
    (d.net.stored_ssid ≠ "" →
      ∃ k, k ≤ 30 ∧ (∀ i, i < k → statusReading d i = false) ∧
        (k < 30 → statusReading d k = true) ∧
        (waitForConnection 30 d).millis = d.millis + 500 * k ∧
        (setupWiFi d).wifiStatus = d.wifiStatus.drop (k + 2) ∧
        (setupWiFi d).net.isAPMode = !statusReading d (k + 1) ∧
        (statusReading d (k + 1) = true → (setupWiFi d).millis = d.millis + 500 * k) ∧
        (statusReading d (k + 1) = false →
          setupWiFi d = startAPMode (wifiConnected (waitForConnection 30 d)).2 ∧
          (setupWiFi d).millis = d.millis + 500 * k + 100)) := by
  constructor
  · intro he
    have h0 : ¬ (d.net.stored_ssid.data.length > 0) := by rw [he]; decide
    have hset : setupWiFi d = startAPMode d := by
      simp only [setupWiFi, h0, if_false]
    rw [hset]
    exact ⟨rfl, rfl, rfl⟩
  · intro hne
    have hpos : d.net.stored_ssid.data.length > 0 := by
      cases hs : d.net.stored_ssid with
      | mk l =>
        cases l with
        | nil => exact absurd hs hne
        | cons a l => simp
    have hset : setupWiFi d = startStationMode d := by
      simp only [setupWiFi, hpos, if_true]
    rw [hset]
    obtain ⟨k, hk, g1, g2, g3, g4, g5⟩ := waitForConnection_readings 30 d
    obtain ⟨_, w2, w3⟩ := wifiConnected_frame (waitForConnection 30 d)
    obtain ⟨r1, _⟩ := wifiConnected_reading (waitForConnection 30 d)
    have hlast : (wifiConnected (waitForConnection 30 d)).1 = statusReading d (k + 1) := by
      rw [r1, g5]
    refine ⟨k, hk, g1, g2, g3, ?_, ?_, ?_, ?_⟩
    · unfold startStationMode
      by_cases hw : (wifiConnected (waitForConnection 30 d)).1 = true
      · simp only [hw, if_true, setupRoutes, Bool.false_eq_true, if_false]
        rw [w3, g4, List.drop_drop]
      · simp only [hw, Bool.false_eq_true, if_false, startAPMode, delay]
        rw [w3, g4, List.drop_drop]
    · rw [← hlast]
      unfold startStationMode
      by_cases hw : (wifiConnected (waitForConnection 30 d)).1 = true
      · simp only [hw, if_true, setupRoutes, Bool.false_eq_true, if_false, Bool.not_true]
      · simp only [Bool.not_eq_true] at hw
        simp only [hw, Bool.false_eq_true, if_false, startAPMode, delay, Bool.not_false]
    · intro ht
      rw [← hlast] at ht
      unfold startStationMode
      simp only [ht, if_true, setupRoutes, Bool.false_eq_true, if_false]
      rw [w2, g3]
    · intro hf
      rw [← hlast] at hf
      have hrun : startStationMode d =
          startAPMode (wifiConnected (waitForConnection 30 d)).2 := by
        unfold startStationMode
        simp only [hf, Bool.false_eq_true, if_false]
      rw [hrun]
      refine ⟨rfl, ?_⟩
      simp only [startAPMode, delay]
      rw [w2, g3]

/-- C15 as amended, at the device without a stored network and at the device whose radio
loses the connection before the deciding test. -/
theorem setupWiFi_mode_is_last_reading_witness :
    ((setupWiFi powerOnBlank).net.isAPMode = true ∧
      (setupWiFi powerOnBlank).wifiStatus = powerOnBlank.wifiStatus) ∧
    ∃ k, k ≤ 30 ∧
      (setupWiFi loadedJoinLost).wifiStatus = loadedJoinLost.wifiStatus.drop (k + 2) ∧
      (setupWiFi loadedJoinLost).net.isAPMode = !statusReading loadedJoinLost (k + 1) :=
  have h1 := (setupWiFi_mode_is_last_reading powerOnBlank).1 (by decide)
  have h2 := (setupWiFi_mode_is_last_reading loadedJoinLost).2 (by decide)
  ⟨⟨h1.2.1, h1.2.2⟩, h2.elim fun k hk => ⟨k, hk.1, hk.2.2.2.2.1, hk.2.2.2.2.2.1⟩⟩

/-! ### Routes -/

end AGVCoreNetworkLib

namespace AGVCommunicationHub

/-! ### Routes of the hub -/

theorem hub_xSemaphoreTake_free (d : Device) (h : LockFree d) :
    (xSemaphoreTake d).1 = true ∧ (xSemaphoreTake d).2.hub = d.hub ∧
    (xSemaphoreTake d).2.wifiStatus = d.wifiStatus ∧
    LockFree (xSemaphoreGive (xSemaphoreTake d).2) := by
  obtain ⟨hh, ht⟩ := h
  unfold xSemaphoreTake
  simp only [hh, Bool.false_eq_true, if_false]
  split
  · rename_i hnil
    exact ⟨rfl, rfl, rfl, rfl, by simp [xSemaphoreGive, hnil]⟩
  · rename_i b rest hb
    have hbt : b = true := ht b (by rw [hb]; exact List.mem_cons_self _ _)
    refine ⟨hbt, rfl, rfl, rfl, ?_⟩
    intro c hc
    exact ht c (by rw [hb]; exact List.mem_cons_of_mem _ hc)

/-- With the lock free the hub's `startAPMode` builds a new server that carries the
provisioning routes only. -/
theorem hub_startAPMode_routes (d : Device) (h : LockFree d) :
    (startAPMode d).hub.isAPMode = true ∧
    registeredUris (startAPMode d) = ["/", "/setup", "/scan", "/savewifi"] := by
  obtain ⟨h1, _, _, _⟩ := hub_xSemaphoreTake_free d h
  unfold startAPMode
  simp only [h1, Bool.not_true, Bool.false_eq_true, if_false]
  exact ⟨rfl, rfl⟩

theorem hub_wifiConnected_frame (d : Device) :
    (wifiConnected d).2.hub = d.hub ∧ (wifiConnected d).2.mutexHeld = d.mutexHeld ∧
    (wifiConnected d).2.mutexTakes = d.mutexTakes := by
  unfold wifiConnected
  split <;> exact ⟨rfl, rfl, rfl⟩

theorem hub_waitForConnection_frame (left : Nat) (d : Device) :
    (waitForConnection left d).hub = d.hub ∧
    (waitForConnection left d).mutexHeld = d.mutexHeld ∧
    (waitForConnection left d).mutexTakes = d.mutexTakes := by
  induction left generalizing d with
  | zero => exact hub_wifiConnected_frame d
  | succ n ih =>
    obtain ⟨h1, h2, h3⟩ := hub_wifiConnected_frame d
    by_cases hw : (wifiConnected d).1 = true
    · simp only [waitForConnection, hw, if_true]
      exact ⟨h1, h2, h3⟩
    · simp only [waitForConnection, hw, Bool.false_eq_true, if_false]
      obtain ⟨g1, g2, g3⟩ := ih (delay (wifiConnected d).2 500)
      exact ⟨g1.trans h1, g2.trans h2, g3.trans h3⟩

/-- With the lock free the hub's `startStationMode` ends either in Station mode on a new
server with the operational routes only, or, after a failed join, in AP mode on a new server
with the provisioning routes only. -/
theorem hub_startStationMode_routes (d : Device) (h : LockFree d) :
    ((startStationMode d).hub.isAPMode = false ∧
      registeredUris (startStationMode d) = ["/", "/login", "/dashboard"]) ∨
    ((startStationMode d).hub.isAPMode = true ∧
      registeredUris (startStationMode d) = ["/", "/setup", "/scan", "/savewifi"]) := by
  obtain ⟨h1, _, _, hfree⟩ := hub_xSemaphoreTake_free d h
  unfold startStationMode
  simp only [h1, Bool.not_true, Bool.false_eq_true, if_false]
  generalize hD : cleanupDNSServer (cleanupWebSocket (cleanupServer (xSemaphoreTake d).2)) = D
  have hDt : D.mutexTakes = (xSemaphoreTake d).2.mutexTakes := by rw [← hD]; rfl
  by_cases hw : (wifiConnected (waitForConnection 20 D)).1 = true
  · left
    simp only [hw, if_true]
    exact ⟨rfl, rfl⟩
  · right
    simp only [hw, Bool.false_eq_true, if_false]
    apply hub_startAPMode_routes
    obtain ⟨_, _, w3⟩ := hub_wifiConnected_frame (waitForConnection 20 D)
    obtain ⟨_, _, g3⟩ := hub_waitForConnection_frame 20 D
    refine ⟨rfl, ?_⟩
    intro b hb
    have hb' : b ∈ (xSemaphoreTake d).2.mutexTakes := by
      have : (xSemaphoreGive (wifiConnected (waitForConnection 20 D)).2).mutexTakes =
          (xSemaphoreTake d).2.mutexTakes := by
        show (wifiConnected (waitForConnection 20 D)).2.mutexTakes = _
        rw [w3, g3, hDt]
      rw [this] at hb
      exact hb
    exact hfree.2 b hb'

end AGVCommunicationHub

namespace AGVCoreNetworkLib

/-- C16. Route sets are exclusive per mode. In `AGVCoreNetwork`, after `startAPMode` (called
directly or as the fallback of a failed join) the server carries `/setup`, `/scan` and
`/savewifi` and none of `/login`, `/dashboard`, `/command`, `/status`; after a successful
`startStationMode` it carries no provisioning path. The same holds for
`AGV_CommunicationHub`, whose two functions do their work when they obtain the lock. -/
theorem route_sets_exclusive (d : Device) (h : AGVCommunicationHub.Device)
    (hfree : AGVCommunicationHub.LockFree h) :
    ProvisioningRoutes (registeredUris (startAPMode d)) ∧
    ((startStationMode d).net.isAPMode = true →
      ProvisioningRoutes (registeredUris (startStationMode d))) ∧
    ((startStationMode d).net.isAPMode = false →
      OperationalRoutes (registeredUris (startStationMode d))) ∧
    ProvisioningRoutes (AGVCommunicationHub.registeredUris (AGVCommunicationHub.startAPMode h)) ∧
    ((AGVCommunicationHub.startStationMode h).hub.isAPMode = true →
      ProvisioningRoutes
        (AGVCommunicationHub.registeredUris (AGVCommunicationHub.startStationMode h))) ∧
    ((AGVCommunicationHub.startStationMode h).hub.isAPMode = false →
      OperationalRoutes
        (AGVCommunicationHub.registeredUris (AGVCommunicationHub.startStationMode h))) := by
  have hap : ∀ x : Device, ProvisioningRoutes (registeredUris (startAPMode x)) := by
    intro x
    have : registeredUris (startAPMode x) =
        ["/", "/setup", "/scan", "/savewifi", "/generate_204", "/fwlink",
          "/hotspot-detect.html"] := rfl
    rw [this]
    decide
  have hsta : (startStationMode d).net.isAPMode = false ∧
        registeredUris (startStationMode d) = ["/", "/login", "/command", "/status"] ∨
      (startStationMode d).net.isAPMode = true ∧
        ProvisioningRoutes (registeredUris (startStationMode d)) := by
    unfold startStationMode
    by_cases hw : (wifiConnected (waitForConnection 30 d)).1 = true
    · left
      simp only [hw, if_true]
      exact ⟨rfl, rfl⟩
    · right
      simp only [hw, Bool.false_eq_true, if_false]
      exact ⟨rfl, hap _⟩
  have hhub := AGVCommunicationHub.hub_startStationMode_routes h hfree
  refine ⟨hap d, ?_, ?_, ?_, ?_, ?_⟩
  · intro hm
    rcases hsta with ⟨h1, _⟩ | ⟨_, h2⟩
    · rw [h1] at hm; cases hm
    · exact h2
  · intro hm
    rcases hsta with ⟨_, h2⟩ | ⟨h1, _⟩
    · rw [h2]; decide
    · rw [h1] at hm; cases hm
  · rw [(AGVCommunicationHub.hub_startAPMode_routes h hfree).2]
    decide
  · intro hm
    rcases hhub with ⟨h1, _⟩ | ⟨_, h2⟩
    · rw [h1] at hm; cases hm
    · rw [h2]; decide
  · intro hm
    rcases hhub with ⟨_, h2⟩ | ⟨h1, _⟩
    · rw [h2]; decide
    · rw [h1] at hm; cases hm

/-- C16 at devices at power-on: a core network whose join fails and one whose join succeeds,
and a hub in each of the two cases. -/
theorem route_sets_exclusive_witness :
    ProvisioningRoutes (registeredUris (startStationMode loadedNoJoin)) ∧
    OperationalRoutes (registeredUris (startStationMode loadedSlowJoin)) ∧
    ProvisioningRoutes
      (AGVCommunicationHub.registeredUris (AGVCommunicationHub.startStationMode {})) ∧
    OperationalRoutes
      (AGVCommunicationHub.registeredUris
        (AGVCommunicationHub.startStationMode { wifiStatus := [true, true] })) :=
  have h1 := route_sets_exclusive loadedNoJoin {} (by decide)
  have h2 := route_sets_exclusive loadedSlowJoin { wifiStatus := [true, true] } (by decide)
  ⟨h1.2.1 (by decide), h2.2.2.1 (by decide), h1.2.2.2.2.1 (by decide),
    h2.2.2.2.2.2 (by decide)⟩

end AGVCoreNetworkLib

namespace AGVCommLib

/-! ### Oversized serial lines -/

/-- Reading characters that fit into the line buffer of `processSerial`: they are stored one
by one. -/
theorem processSerialLoop_chars (l : List Char) (c : Char) (rest : List Char) (d : Device)
    (hn : ∀ x ∈ c :: l, x ≠ '\n' ∧ x ≠ '\r')
    (hlen : d.serialBuffer.length + (l.length + 1) ≤ 255) :
    processSerialLoop (c :: l ++ rest) d =
      processSerialLoop rest
        { d with serialIn := rest, serialBuffer := d.serialBuffer ++ c :: l } := by
  induction l generalizing c d with
  | nil =>
    obtain ⟨h1, h2⟩ := hn c (List.mem_cons_self _ _)
    have hlt : d.serialBuffer.length < MAX_COMMAND_LENGTH - 1 := by
      simp [MAX_COMMAND_LENGTH] at hlen ⊢; omega
    simp [processSerialLoop, hlt, h1, h2]
  | cons c2 l ih =>
    obtain ⟨h1, h2⟩ := hn c (List.mem_cons_self _ _)
    have hlt : d.serialBuffer.length < MAX_COMMAND_LENGTH - 1 := by
      simp [MAX_COMMAND_LENGTH] at hlen ⊢; omega
    have hn' : ∀ x ∈ c2 :: l, x ≠ '\n' ∧ x ≠ '\r' :=
      fun x hx => hn x (List.mem_cons_of_mem _ hx)
    have step : processSerialLoop (c :: (c2 :: l) ++ rest) d =
        processSerialLoop (c2 :: l ++ rest)
          { d with serialIn := c2 :: l ++ rest, serialBuffer := d.serialBuffer ++ [c] } := by
      simp [processSerialLoop, hlt, h1, h2]
    rw [step, ih c2 _ hn' (by simp at hlen ⊢; omega)]
    simp

/-- The overflow of `processSerial`: when 255 characters are buffered, the next character
resets the buffer and is lost, and what follows it up to the line terminator is buffered and
forwarded as a line of its own. -/
theorem processSerialLoop_overflow (p : List Char) (x y : Char) (d : Device)
    (hp : p.length = 255) (hn : ∀ c ∈ p, c ≠ '\n' ∧ c ≠ '\r')
    (hx : x ≠ '\n' ∧ x ≠ '\r') (hy : y ≠ '\n' ∧ y ≠ '\r') (hbuf : d.serialBuffer = []) :
    processSerialLoop (p ++ [x, y, '\n']) d =
      serialLineEnd { d with serialIn := [], serialBuffer := [y] } := by
  cases p with
  | nil => simp at hp
  | cons c l =>
    have hl : l.length = 254 := by simpa using hp
    rw [processSerialLoop_chars l c [x, y, '\n'] d hn (by rw [hbuf, hl]; decide), hbuf]
    have hfull : ¬ (c :: l).length < MAX_COMMAND_LENGTH - 1 := by
      rw [List.length_cons, hl]
      decide
    have h0 : ([] : List Char).length < MAX_COMMAND_LENGTH - 1 := by decide
    have hx1 : (x == '\n') = false := by simpa using hx.1
    have hx2 : (x == '\r') = false := by simpa using hx.2
    have hy1 : (y == '\n') = false := by simpa using hy.1
    have hy2 : (y == '\r') = false := by simpa using hy.2
    simp only [List.nil_append, processSerialLoop, hfull, if_false, h0, if_true, hx1, hx2,
      hy1, hy2, Bool.or_self, Bool.false_eq_true, beq_self_eq_true, Bool.true_or]

/-- In `AGVComm::processSerial` a line of 257 characters (256 times `a`, then `b`) leaves its
tail `b` to be forwarded: to the queue, to the callback and to the socket clients. -/
theorem processSerial_longLine257 :
    processSerial { stationComm with serialIn := longLine257 } =
      serialLineEnd { stationComm with serialIn := [], serialBuffer := ['b'] } := by
  have hn : ∀ c ∈ List.replicate 255 'a', c ≠ '\n' ∧ c ≠ '\r' := by
    intro c hc
    have hc' : c = 'a' := (List.mem_replicate.mp hc).2
    subst hc'
    decide
  exact processSerialLoop_overflow (List.replicate 255 'a') 'a' 'b'
    { stationComm with serialIn := longLine257 } (List.length_replicate _ _) hn
    (by decide) (by decide) rfl

set_option maxRecDepth 20000 in
/-- In `AGV_CommunicationHub::processSerialInput`, run with the lock free, a line of 64
characters (63 times `a`, then `b`) is cut to its first 63 characters, which are passed to
the command callback and broadcast. -/
theorem hub_processSerialInput_longLine64 :
    AGVCommunicationHub.emitted AGVCommunicationHub.stationHub
        (AGVCommunicationHub.processSerialInput
          { AGVCommunicationHub.stationHub with serialIn := longLine64 }) =
      [AGVCommunicationHub.Event.commandCallback ⟨List.replicate 63 'a'⟩ 1 0,
        AGVCommunicationHub.Event.broadcastTXT ("SERIAL: " ++ ⟨List.replicate 63 'a'⟩)] := by
  decide

/-- C18. The failing inputs. In `AGVComm::processSerial` a line of 257 characters (256 times
`a`, then `b`) is oversized; at its line feed the leftover tail `b` is put on the command
queue, passed to the command callback and broadcast. In
`AGV_CommunicationHub::processSerialInput` a line of 64 characters (63 times `a`, then `b`)
is oversized; at its line feed, when the reader obtains the lock, the truncated prefix of 63
characters is passed to the command callback and broadcast. -/
theorem oversized_line_is_forwarded :
    emitted stationComm (processSerial { stationComm with serialIn := longLine257 }) =
      [Event.cmd_callback "b" CommandSource.SOURCE_SERIAL, Event.broadcastTXT "b"] ∧
    (processSerial { stationComm with serialIn := longLine257 }).comm.command_queue =
      some [{ command := "b", source := CommandSource.SOURCE_SERIAL, timestamp := 0 }] ∧
    AGVCommunicationHub.emitted AGVCommunicationHub.stationHub
        (AGVCommunicationHub.processSerialInput
          { AGVCommunicationHub.stationHub with serialIn := longLine64 }) =
      [AGVCommunicationHub.Event.commandCallback ⟨List.replicate 63 'a'⟩ 1 0,
        AGVCommunicationHub.Event.broadcastTXT ("SERIAL: " ++ ⟨List.replicate 63 'a'⟩)] := by
  refine ⟨?_, ?_, hub_processSerialInput_longLine64⟩
  · rw [processSerial_longLine257]
    decide
  · rw [processSerial_longLine257]
    decide

end AGVCommLib

namespace AGVCoreNetworkLib

open Arduino

/-! ### Blank input and the text handed to the callback -/

/-- C21. The failing inputs, on the station device (callback registered, no emergency): a
socket text frame of three spaces and an empty socket text frame are passed to
`commandCallback`, and so is the command value of three spaces of a `POST /command`; only
the serial reader drops a blank line, and an empty HTTP command value is answered 400. -/
theorem blank_web_input_reaches_callback :
    trim "   " = "" ∧
    emitted stationDevice (webSocketEvent stationDevice 0 WStype_t.WStype_TEXT "   ".data 3) =
      [Event.commandCallback "   ", Event.sendTXT 0 "ACK:    ",
        Event.broadcastTXT "WS:    "] ∧
    emitted stationDevice (webSocketEvent stationDevice 0 WStype_t.WStype_TEXT [] 0) =
      [Event.commandCallback "", Event.sendTXT 0 "ACK: ", Event.broadcastTXT "WS: "] ∧
    emitted stationDevice (handleCommand stationDevice (post "/command" (commandBody "   ") "")) =
      [Event.commandCallback "   ",
        Event.send 200 "application/json" "\x7b\"success\":true\x7d"] ∧
    emitted stationDevice (handleCommand stationDevice (post "/command" (commandBody "") "")) =
      [Event.send 400 "application/json"
        "\x7b\"success\":false,\"error\":\"Invalid command\"\x7d"] ∧
    emitted stationDevice (processSerialInput (serialReceive stationDevice "   \n".data)) = [] := by
  decide

theorem processSerialCommand_cases (d : Device) (cmd : String) :
    processSerialCommand d cmd = d ∨
    processSerialCommand d cmd = emit d (Event.emergencyStateCallback true) ∨
    processSerialCommand d cmd = emit d (Event.emergencyStateCallback false) ∨
    processSerialCommand d cmd = emit d (Event.commandCallback cmd) := by
  by_cases hs : (equalsIgnoreCase (trim cmd) "STOP" || equalsIgnoreCase (trim cmd) "ABORT") = true
  · cases hcb : d.net.emergencyStateCallback
    · left; simp [processSerialCommand, hs, hcb]
    · right; left; simp [processSerialCommand, hs, hcb]
  · by_cases hc : equalsIgnoreCase (trim cmd) "CLEAR_EMERGENCY" = true
    · cases hcb : d.net.emergencyStateCallback
      · left; simp [processSerialCommand, hs, hc, hcb]
      · right; right; left; simp [processSerialCommand, hs, hc, hcb]
    · by_cases hE : d.net.systemEmergency = true
      · left; simp [processSerialCommand, hs, hc, hE]
      · cases hcb : d.net.commandCallback
        · left; simp [processSerialCommand, hs, hc, hE, hcb]
        · right; right; right; simp [processSerialCommand, hs, hc, hE, hcb]

/-- What `processSerialCommand` records: nothing but calls, and a command call only with the
text it was given. -/
theorem processSerialCommand_frame (d : Device) (cmd : String) :
    (processSerialCommand d cmd).net = d.net ∧
    (processSerialCommand d cmd).serialBuffer = d.serialBuffer ∧
    ∃ evs, (processSerialCommand d cmd).trace = d.trace ++ evs ∧
      ∀ c ∈ commandCalls evs, c = cmd := by
  rcases processSerialCommand_cases d cmd with h | h | h | h <;> rw [h]
  · exact ⟨rfl, rfl, [], by simp, by simp [commandCalls]⟩
  · exact ⟨rfl, rfl, [Event.emergencyStateCallback true], rfl, by simp [commandCalls]⟩
  · exact ⟨rfl, rfl, [Event.emergencyStateCallback false], rfl, by simp [commandCalls]⟩
  · exact ⟨rfl, rfl, [Event.commandCallback cmd], rfl, by simp [commandCalls]⟩

/-- What the reader records at a line terminator: a command call only with the buffered
line as it stands. -/
theorem serialLineEnd_frame (d : Device) :
    (serialLineEnd d).net = d.net ∧
    (serialLineEnd d).serialBuffer.length ≤ d.serialBuffer.length ∧
    ∃ evs, (serialLineEnd d).trace = d.trace ++ evs ∧
      ∀ c ∈ commandCalls evs, c = cstr d.serialBuffer := by
  obtain ⟨pn, pb, pevs, ptr, pcalls⟩ := processSerialCommand_frame d (cstr d.serialBuffer)
  obtain ⟨sn, sb, sextra, str, scalls⟩ := sendStatus_frame
    (processSerialCommand d (cstr d.serialBuffer)) ("SERIAL: " ++ trim (cstr d.serialBuffer))
  unfold serialLineEnd
  by_cases hpos : d.serialBuffer.length > 0
  · simp only [hpos, if_true]
    by_cases hb : (trim (cstr d.serialBuffer)).data.length > 0
    · simp only [hb, if_true]
      by_cases hm : (!(processSerialCommand d (cstr d.serialBuffer)).net.isAPMode &&
          !(processSerialCommand d (cstr d.serialBuffer)).net.systemEmergency) = true
      · simp only [hm, if_true]
        refine ⟨sn.trans pn, Nat.zero_le _, pevs ++ sextra, ?_, ?_⟩
        · show (sendStatus _ _).trace = _
          rw [str, ptr, List.append_assoc]
        · intro c hc
          rw [commandCalls_append, scalls, List.append_nil] at hc
          exact pcalls c hc
      · simp only [hm, Bool.false_eq_true, if_false]
        exact ⟨pn, Nat.zero_le _, pevs, ptr, pcalls⟩
    · simp only [hb, if_false]
      exact ⟨by trivial, Nat.zero_le _, [], by simp, by simp [commandCalls]⟩
  · simp only [hpos, if_false]
    exact ⟨by trivial, Nat.le_refl _, [], by simp, by simp [commandCalls]⟩

/-- C22, refuted at the station device: the serial line and the socket frame ` move ` (with
a leading and a trailing space) are forwarded, and the callback receives the text with its
spaces, not the trimmed `move`. -/
theorem callback_text_not_trimmed :
    trim " move " = "move" ∧
    commandCalls (emitted stationDevice
      (processSerialInput (serialReceive stationDevice " move \n".data))) = [" move "] ∧
    commandCalls (emitted stationDevice
      (webSocketEvent stationDevice 0 WStype_t.WStype_TEXT " move ".data 6)) = [" move "] ∧
    (" move " : String) ≠ trim " move " := by
  decide

/-- C22 as amended. The text delivered to `commandCallback` is the received text as it
stands: `processSerialCommand` passes on the very text it was given, the serial reader
passes on the buffered line (as the C string in the buffer), and `webSocketEvent` passes on
the copy of the frame (at most 64 characters of the payload). Trimming is applied only to
the copies used for the blank test, the keyword tests and the echo. -/
theorem callback_text_is_received_text (d : Device) (cmd : String) (num : Nat)
    (payload : List Char) (length : Nat) :
    (∀ c ∈ commandCalls (emitted d (processSerialCommand d cmd)), c = cmd) ∧
    (∀ c ∈ commandCalls (emitted d (serialLineEnd d)), c = cstr d.serialBuffer) ∧
    (∀ c ∈ commandCalls (emitted d (webSocketEvent d num WStype_t.WStype_TEXT payload length)),
      c = cmdCopy payload length) := by
  refine ⟨?_, ?_, ?_⟩
  · obtain ⟨_, _, evs, htr, hc⟩ := processSerialCommand_frame d cmd
    rw [emitted_of_trace _ _ _ htr]
    exact hc
  · obtain ⟨_, _, evs, htr, hc⟩ := serialLineEnd_frame d
    rw [emitted_of_trace _ _ _ htr]
    exact hc
  · intro c hc
    by_cases hE : d.net.systemEmergency = true
    · simp [webSocketEvent, processWebCommand, hE, emitted, emit, commandCalls] at hc
    · by_cases hcb : d.net.commandCallback = true
      · simp [webSocketEvent, processWebCommand, hE, hcb, emitted, emit, commandCalls] at hc
        exact hc
      · simp [webSocketEvent, processWebCommand, hE, hcb, emitted, emit, commandCalls] at hc

/-- C22 as amended, at the station device with the buffered line and the frame ` move `. -/
theorem callback_text_is_received_text_witness :
    (" move " : String) ∈ commandCalls (emitted stationDevice
      (processSerialCommand stationDevice " move ")) ∧
    (∀ c ∈ commandCalls (emitted stationDevice (processSerialCommand stationDevice " move ")),
      c = " move ") ∧
    (∀ c ∈ commandCalls (emitted stationDevice
        (webSocketEvent stationDevice 0 WStype_t.WStype_TEXT " move ".data 6)),
      c = cmdCopy " move ".data 6) :=
  have h := callback_text_is_received_text stationDevice " move " 0 " move ".data 6
  ⟨by decide, h.1, h.2.2⟩

/-- C24. In `processSerialCommand` the keyword tests come before the emergency test: for
every input that after trimming equals `STOP` or `ABORT` ignoring letter case a registered
`emergencyStateCallback` is called exactly once, with `true`, and for `CLEAR_EMERGENCY`
exactly once, with `false`; these are the only calls made, whatever the value of
`systemEmergency`, so `commandCallback` is not called. -/
theorem serial_keywords_bypass_gate (d : Device) (cmd : String)
    (hcb : d.net.emergencyStateCallback = true) :
    (isStopKeyword cmd = true →
      emitted d (processSerialCommand d cmd) = [Event.emergencyStateCallback true] ∧
      (emitted d (processSerialCommand d cmd)).count (Event.emergencyStateCallback true) = 1 ∧
      commandCalls (emitted d (processSerialCommand d cmd)) = []) ∧
    (isClearKeyword cmd = true →
      emitted d (processSerialCommand d cmd) = [Event.emergencyStateCallback false] ∧
      (emitted d (processSerialCommand d cmd)).count (Event.emergencyStateCallback false) = 1 ∧
      commandCalls (emitted d (processSerialCommand d cmd)) = []) := by
  constructor
  · intro hs
    have he : emitted d (processSerialCommand d cmd) = [Event.emergencyStateCallback true] := by
      simp only [isStopKeyword] at hs
      simp [processSerialCommand, hs, hcb, emitted_emit]
    rw [he]
    exact ⟨rfl, by decide, rfl⟩
  · intro hc
    have hs := isClear_not_isStop cmd hc
    have he : emitted d (processSerialCommand d cmd) = [Event.emergencyStateCallback false] := by
      simp only [isStopKeyword] at hs
      simp only [isClearKeyword] at hc
      simp [processSerialCommand, hs, hc, hcb, emitted_emit]
    rw [he]
    exact ⟨rfl, by decide, rfl⟩

/-- C24 at the device in emergency (` abort ` with spaces, lower case) and at the station
device (`Clear_Emergency`). -/
theorem serial_keywords_bypass_gate_witness :
    emergencyDevice.net.systemEmergency = true ∧
    emitted emergencyDevice (processSerialCommand emergencyDevice " abort ") =
      [Event.emergencyStateCallback true] ∧
    stationDevice.net.systemEmergency = false ∧
    emitted stationDevice (processSerialCommand stationDevice "Clear_Emergency") =
      [Event.emergencyStateCallback false] :=
  ⟨by decide,
    ((serial_keywords_bypass_gate emergencyDevice " abort " (by decide)).1 (by decide)).1,
    by decide,
    ((serial_keywords_bypass_gate stationDevice "Clear_Emergency" (by decide)).2 (by decide)).1⟩

/-- C27. The failing input: the device is in emergency and another task holds the lock past
the timeout of the first `xSemaphoreTake` of `clearEmergencyState`. The assignment is
skipped, yet the clear is announced: `SYSTEM_NORMAL: Emergency cleared` is broadcast and
`emergencyStateCallback(false)` is called while `systemEmergency` is still true, and the
gate goes on blocking commands. -/
theorem clear_announced_while_flag_set :
    contendedEmergencyDevice.net.systemEmergency = true ∧
    (xSemaphoreTake contendedEmergencyDevice).1 = false ∧
    emitted contendedEmergencyDevice (clearEmergencyState contendedEmergencyDevice) =
      [Event.broadcastTXT "SYSTEM_NORMAL: Emergency cleared",
        Event.emergencyStateCallback false] ∧
    (clearEmergencyState contendedEmergencyDevice).net.systemEmergency = true ∧
    emitted (clearEmergencyState contendedEmergencyDevice)
      (processWebCommand (clearEmergencyState contendedEmergencyDevice) "move forward") = [] ∧
    (clearEmergencyState emergencyDevice).net.systemEmergency = false := by
  decide

end AGVCoreNetworkLib

namespace AGVCommunicationHub

/-! ### The write index of the line buffers -/

theorem hub_serialLineEnd_buffer (d : Device) :
    (serialLineEnd d).serialBuffer.length ≤ d.serialBuffer.length := by
  unfold serialLineEnd
  split
  · exact Nat.zero_le _
  · exact Nat.le_refl _

theorem hub_processSerialInputLoop_bound (pending : List Char) (d : Device)
    (h : d.serialBuffer.length ≤ 63) :
    (processSerialInputLoop pending d).serialBuffer.length ≤ 63 := by
  induction pending generalizing d with
  | nil => exact h
  | cons c rest ih =>
    simp only [processSerialInputLoop]
    apply ih
    simp only [delay]
    split
    · exact Nat.le_trans (hub_serialLineEnd_buffer _) h
    · split
      · rename_i hlt
        simp only [List.length_append, List.length_singleton]
        omega
      · exact h

end AGVCommunicationHub

namespace AGVCommLib

theorem comm_serialLineEnd_buffer (d : Device) :
    (serialLineEnd d).serialBuffer.length ≤ d.serialBuffer.length := by
  unfold serialLineEnd
  split
  · exact Nat.zero_le _
  · exact Nat.le_refl _

theorem comm_processSerialLoop_bound (pending : List Char) (d : Device)
    (h : d.serialBuffer.length ≤ 255) :
    (processSerialLoop pending d).serialBuffer.length ≤ 255 := by
  induction pending generalizing d with
  | nil => exact h
  | cons c rest ih =>
    simp only [processSerialLoop]
    apply ih
    split
    · exact Nat.le_trans (comm_serialLineEnd_buffer _) h
    · split
      · rename_i hlt
        simp only [MAX_COMMAND_LENGTH] at hlt
        simp only [List.length_append, List.length_singleton]
        omega
      · exact Nat.zero_le _

end AGVCommLib

namespace AGVCoreNetworkLib

open Arduino

theorem processSerialInputLoop_bound (pending : List Char) (d : Device)
    (h : d.serialBuffer.length ≤ 63) :
    (processSerialInputLoop pending d).serialBuffer.length ≤ 63 := by
  induction pending generalizing d with
  | nil => exact h
  | cons c rest ih =>
    simp only [processSerialInputLoop]
    split
    · rename_i hlt
      apply ih
      simp only [delay]
      split
      · exact Nat.le_trans (serialLineEnd_frame _).2.1 h
      · simp only [List.length_append, List.length_singleton]
        omega
    · exact h

/-- C29. The write index of each serial line reader stays inside its buffer for every
sequence of input bytes and across any number of calls: when the number of buffered
characters (`bufferIndex`) is at most 63 in `AGVCoreNetwork::processSerialInput` and in
`AGV_CommunicationHub::processSerialInput`, and at most 255 in `AGVComm::processSerial`, it
is so again after any run of calls on any chunks of bytes; so a character is stored at an
index of at most 62 (254) and the terminating NUL at an index of at most 63 (255), inside
the 64 (256) bytes of the buffer. The bound holds at the start, where the index is 0. -/
theorem buffer_index_in_bounds (d : Device) (h : AGVCommunicationHub.Device)
    (c : AGVCommLib.Device) (chunks : List (List Char))
    (hd : d.serialBuffer.length ≤ 63) (hh : h.serialBuffer.length ≤ 63)
    (hc : c.serialBuffer.length ≤ 255) :
    (serialFeed d chunks).serialBuffer.length ≤ 63 ∧
    (AGVCommunicationHub.serialFeed h chunks).serialBuffer.length ≤ 63 ∧
    (AGVCommLib.serialFeed c chunks).serialBuffer.length ≤ 255 := by
  refine ⟨?_, ?_, ?_⟩
  · induction chunks generalizing d with
    | nil => exact hd
    | cons b bs ih =>
      simp only [serialFeed, List.foldl_cons] at ih ⊢
      apply ih
      exact processSerialInputLoop_bound _ _ hd
  · induction chunks generalizing h with
    | nil => exact hh
    | cons b bs ih =>
      simp only [AGVCommunicationHub.serialFeed, List.foldl_cons] at ih ⊢
      apply ih
      exact AGVCommunicationHub.hub_processSerialInputLoop_bound _ _ hh
  · induction chunks generalizing c with
    | nil => exact hc
    | cons b bs ih =>
      simp only [AGVCommLib.serialFeed, List.foldl_cons] at ih ⊢
      apply ih
      exact AGVCommLib.comm_processSerialLoop_bound _ _ hc

/-- C29 at the three devices with an empty buffer, fed an over-long line in two chunks. -/
theorem buffer_index_in_bounds_witness :
    (serialFeed stationDevice [List.replicate 300 'x', "STOP\n".data]).serialBuffer.length ≤ 63 ∧
    (AGVCommunicationHub.serialFeed AGVCommunicationHub.stationHub
      [List.replicate 300 'x', "STOP\n".data]).serialBuffer.length ≤ 63 ∧
    (AGVCommLib.serialFeed AGVCommLib.stationComm
      [List.replicate 300 'x', "STOP\n".data]).serialBuffer.length ≤ 255 :=
  buffer_index_in_bounds stationDevice AGVCommunicationHub.stationHub AGVCommLib.stationComm
    [List.replicate 300 'x', "STOP\n".data] (by decide) (by decide) (by decide)

/-! ### Session tokens are 32 hex digits -/

theorem hexDigit_table (x : Nat) (hx : x < 16) :
    hexDigit x = ("0123456789abcdef" : String).data.getD x '0' := by
  have : ∀ y : Fin 16, hexDigit y.1 = ("0123456789abcdef" : String).data.getD y.1 '0' := by
    decide
  exact this ⟨x, hx⟩

theorem hexDigit_inj (x y : Nat) (hx : x < 16) (hy : y < 16) (h : hexDigit x = hexDigit y) :
    x = y := by
  have : ∀ a b : Fin 16, hexDigit a.1 = hexDigit b.1 → a = b := by decide
  exact congrArg Fin.val (this ⟨x, hx⟩ ⟨y, hy⟩ h)

theorem map_hexDigit_inj (l1 l2 : List Nat) (h1 : ∀ x ∈ l1, x < 16) (h2 : ∀ x ∈ l2, x < 16)
    (h : l1.map hexDigit = l2.map hexDigit) : l1 = l2 := by
  induction l1 generalizing l2 with
  | nil =>
    cases l2 with
    | nil => rfl
    | cons b l2 => simp at h
  | cons a l1 ih =>
    cases l2 with
    | nil => simp at h
    | cons b l2 =>
      simp only [List.map_cons, List.cons.injEq] at h
      have hab := hexDigit_inj a b (h1 a (List.mem_cons_self _ _)) (h2 b (List.mem_cons_self _ _)) h.1
      have := ih l2 (fun x hx => h1 x (List.mem_cons_of_mem _ hx))
        (fun x hx => h2 x (List.mem_cons_of_mem _ hx)) h.2
      rw [hab, this]

/-- The token loop appends the hex digit of each draw, in order. -/
theorem getSessionTokenLoop_draws (ds rest : List Nat) (d : Device) (token : String)
    (hr : ∀ x ∈ ds, x < 16) (hrng : d.rng = ds ++ rest) :
    (getSessionTokenLoop ds.length d token).1.data = token.data ++ ds.map hexDigit := by
  induction ds generalizing d token with
  | nil => simp [getSessionTokenLoop]
  | cons x ds ih =>
    have hx : x < 16 := hr x (List.mem_cons_self _ _)
    have hrand : random d 0 16 = (x, { d with rng := ds ++ rest }) := by
      simp [random, hrng, Nat.mod_eq_of_lt hx]
    simp only [List.length_cons, getSessionTokenLoop, hrand]
    rw [ih _ _ (fun y hy => hr y (List.mem_cons_of_mem _ hy)) rfl]
    simp [String.push]

theorem generateSessionTokenLoop_draws (ds rest : List Nat) (token : String)
    (hr : ∀ x ∈ ds, x < 16) :
    (AGVCommLib.generateSessionTokenLoop ds.length (ds ++ rest) token).1.data =
      token.data ++ ds.map hexDigit := by
  induction ds generalizing token with
  | nil => simp [AGVCommLib.generateSessionTokenLoop]
  | cons x ds ih =>
    have hx : x < 16 := hr x (List.mem_cons_self _ _)
    simp only [List.length_cons, List.cons_append, AGVCommLib.generateSessionTokenLoop,
      Nat.mod_eq_of_lt hx]
    change (AGVCommLib.generateSessionTokenLoop ds.length (ds ++ rest) _).1.data = _
    rw [ih _ (fun y hy => hr y (List.mem_cons_of_mem _ hy))]
    simp [String.push]

/-- C25. For every sequence of 32 random draws, each in the range 0..15, `getSessionToken`
and `AGVComm::generateSessionToken` return the string of exactly 32 characters whose
character number `i` is the lowercase hexadecimal digit of draw number `i`; two different
draw sequences give two different tokens, so the token carries the 128 bits of the draws. -/
theorem session_token_is_hex_of_draws (ds rest : List Nat) (d : Device)
    (hlen : ds.length = 32) (hr : ∀ x ∈ ds, x < 16) (hrng : d.rng = ds ++ rest) :
    (getSessionToken d).1.data = ds.map (fun x => ("0123456789abcdef" : String).data.getD x '0') ∧
    (AGVCommLib.generateSessionToken (ds ++ rest)).1 = (getSessionToken d).1 ∧
    (getSessionToken d).1.data.length = 32 ∧
    (∀ (ds' rest' : List Nat) (d' : Device), ds'.length = 32 → (∀ x ∈ ds', x < 16) →
      d'.rng = ds' ++ rest' → (getSessionToken d').1 = (getSessionToken d).1 → ds' = ds) := by
  have key : ∀ (es more : List Nat) (e : Device), es.length = 32 → (∀ x ∈ es, x < 16) →
      e.rng = es ++ more → (getSessionToken e).1.data = es.map hexDigit := by
    intro es more e hl hb hg
    have := getSessionTokenLoop_draws es more e "" hb hg
    rw [hl] at this
    simpa [getSessionToken] using this
  have htok := key ds rest d hlen hr hrng
  have hmap : ds.map hexDigit =
      ds.map (fun x => ("0123456789abcdef" : String).data.getD x '0') := by
    apply List.map_congr_left
    intro x hx
    exact hexDigit_table x (hr x hx)
  refine ⟨htok.trans hmap, ?_, ?_, ?_⟩
  · apply String.ext
    have := generateSessionTokenLoop_draws ds rest "" hr
    rw [hlen] at this
    rw [htok]
    simpa [AGVCommLib.generateSessionToken] using this
  · rw [htok, List.length_map, hlen]
  · intro ds' rest' d' hl' hr' hg' heq
    have h' := key ds' rest' d' hl' hr' hg'
    have : ds'.map hexDigit = ds.map hexDigit := by
      rw [← h', ← htok, heq]
    exact map_hexDigit_inj ds' ds hr' hr this

/-- C25 at the station device, whose first 32 raw numbers are `7 * i + 3` modulo 16. -/
theorem session_token_is_hex_of_draws_witness :
    (getSessionToken { stationDevice with rng := (List.range 32).map (fun i => (7 * i + 3) % 16) }).1
      = "3a18f6d4b2907e5c3a18f6d4b2907e5c" :=
  String.ext ((session_token_is_hex_of_draws ((List.range 32).map (fun i => (7 * i + 3) % 16)) []
    { stationDevice with rng := (List.range 32).map (fun i => (7 * i + 3) % 16) }
    (by decide) (by decide) (by decide)).1.trans (by decide))

end AGVCoreNetworkLib

namespace AGVCommLib

/-! ### A line ended by CR LF -/

theorem emitted_of_trace_comm (d d' : Device) (l : List Event) (h : d'.trace = d.trace ++ l) :
    emitted d d' = l := by
  simp [emitted, h]

theorem cstr_take (l : List Char) (h : l.length ≤ 255) :
    (⟨(AGVCoreNetworkLib.cstr l).data.take (MAX_COMMAND_LENGTH - 1)⟩ : String) =
      AGVCoreNetworkLib.cstr l := by
  apply String.ext
  apply List.take_of_length_le
  have : (AGVCoreNetworkLib.cstr l).data.length ≤ l.length := by
    simp only [AGVCoreNetworkLib.cstr]
    exact (List.takeWhile_sublist _).length_le
  simp only [MAX_COMMAND_LENGTH]
  omega

theorem serialLineEnd_empty (d : Device) (h : d.serialBuffer = []) : serialLineEnd d = d := by
  unfold serialLineEnd
  simp [h]

theorem serialLineEnd_serialIn (d : Device) (x : List Char) :
    serialLineEnd { d with serialIn := x } = { serialLineEnd d with serialIn := x } := by
  cases hq : d.comm.command_queue <;> cases hcb : d.comm.cmd_callback <;>
    cases hw : d.comm.webSocket <;> cases ha : d.comm.is_ap_mode <;>
    simp [serialLineEnd, xQueueSend, sendToClients, emit, hq, hcb, hw, ha] <;>
    split_ifs <;> simp_all

/-- What `processSerial` does at the terminator behind a buffered line when the queue has
room and a callback is registered. -/
theorem serialLineEnd_forwards_once (d : Device) (q : List AGVCommand)
    (hpos : d.serialBuffer.length > 0) (hlen : d.serialBuffer.length ≤ 255)
    (hq : d.comm.command_queue = some q) (hroom : q.length < COMMAND_QUEUE_SIZE)
    (hcb : d.comm.cmd_callback = true) :
    (serialLineEnd d).comm.command_queue =
      some (q ++ [{ command := AGVCoreNetworkLib.cstr d.serialBuffer,
                    source := CommandSource.SOURCE_SERIAL, timestamp := d.millis }]) ∧
    (serialLineEnd d).serialBuffer = [] ∧
    (serialLineEnd d).trace = d.trace ++
      (Event.cmd_callback (AGVCoreNetworkLib.cstr d.serialBuffer) CommandSource.SOURCE_SERIAL ::
        (if d.comm.webSocket && !d.comm.is_ap_mode
          then [Event.broadcastTXT (AGVCoreNetworkLib.cstr d.serialBuffer)] else [])) := by
  unfold serialLineEnd
  simp only [gt_iff_lt, hpos, if_true, cstr_take d.serialBuffer hlen, xQueueSend, hq, hroom, hcb]
  by_cases hw : (d.comm.webSocket && !d.comm.is_ap_mode) = true
  · simp [sendToClients, emit, hw]
  · simp [sendToClients, emit, hw]

/-- C30. In `AGVComm::processSerial`, with the queue created and not full, a callback
registered and the reader at the start of a line, a line of 1 to 255 characters free of CR
and LF that is followed by CR LF produces exactly one command: at the CR the line is put on
the queue and passed to the callback, both with source `SOURCE_SERIAL`, and the buffer is
reset; the LF then finds the buffer empty and changes nothing but the bytes read. -/
theorem crlf_line_gives_one_command (l : List Char) (d : Device) (q : List AGVCommand)
    (h1 : 1 ≤ l.length) (h255 : l.length ≤ 255) (hnl : '\n' ∉ l) (hcr : '\r' ∉ l)
    (hbuf : d.serialBuffer = []) (hq : d.comm.command_queue = some q)
    (hroom : q.length < COMMAND_QUEUE_SIZE) (hcb : d.comm.cmd_callback = true) :
    (processSerial { d with serialIn := l ++ ['\r'] }).comm.command_queue =
      some (q ++ [{ command := AGVCoreNetworkLib.cstr l,
                    source := CommandSource.SOURCE_SERIAL, timestamp := d.millis }]) ∧
    (processSerial { d with serialIn := l ++ ['\r'] }).serialBuffer = [] ∧
    emitted d (processSerial { d with serialIn := l ++ ['\r'] }) =
      Event.cmd_callback (AGVCoreNetworkLib.cstr l) CommandSource.SOURCE_SERIAL ::
        (if d.comm.webSocket && !d.comm.is_ap_mode
          then [Event.broadcastTXT (AGVCoreNetworkLib.cstr l)] else []) ∧
    processSerial { d with serialIn := l ++ ['\r', '\n'] } =
      processSerial { d with serialIn := l ++ ['\r'] } := by
  cases l with
  | nil => simp at h1
  | cons c l =>
    have hn : ∀ x ∈ c :: l, x ≠ '\n' ∧ x ≠ '\r' := by
      intro x hx
      exact ⟨fun h => hnl (h ▸ hx), fun h => hcr (h ▸ hx)⟩
    have hlen : d.serialBuffer.length + (l.length + 1) ≤ 255 := by
      rw [hbuf]
      simp only [List.length_cons, List.length_nil] at h255 ⊢
      omega
    generalize hD : ({ d with serialIn := [], serialBuffer := c :: l } : Device) = D
    have hDb : D.serialBuffer = c :: l := by rw [← hD]
    have hDq : D.comm.command_queue = some q := by rw [← hD]; exact hq
    have hDc : D.comm.cmd_callback = true := by rw [← hD]; exact hcb
    have hDt : D.trace = d.trace := by rw [← hD]
    have hDm : D.millis = d.millis := by rw [← hD]
    have hDcomm : D.comm = d.comm := by rw [← hD]
    obtain ⟨e1, e2, e3⟩ := serialLineEnd_forwards_once D q (by rw [hDb]; simp)
      (by rw [hDb]; exact h255) hDq hroom hDc
    have run1 : processSerial { d with serialIn := (c :: l) ++ ['\r'] } = serialLineEnd D := by
      unfold processSerial
      have hl := processSerialLoop_chars l c ['\r'] { d with serialIn := (c :: l) ++ ['\r'] }
        hn hlen
      simp only [List.cons_append] at hl ⊢
      rw [hl, hbuf]
      simp only [processSerialLoop, beq_self_eq_true, Bool.or_true, if_true, List.nil_append]
      rw [← hD]
    have run2 : processSerial { d with serialIn := (c :: l) ++ ['\r', '\n'] } =
        serialLineEnd D := by
      unfold processSerial
      have hl := processSerialLoop_chars l c ['\r', '\n']
        { d with serialIn := (c :: l) ++ ['\r', '\n'] } hn hlen
      simp only [List.cons_append] at hl ⊢
      rw [hl, hbuf]
      simp only [processSerialLoop, beq_self_eq_true, Bool.or_true, Bool.true_or, if_true,
        List.nil_append]
      have hA : ({ d with serialIn := ['\n'], serialBuffer := c :: l } : Device) =
          { D with serialIn := ['\n'] } := by rw [← hD]
      rw [hA, serialLineEnd_serialIn D ['\n']]
      have hempty : ({ serialLineEnd D with serialIn := ([] : List Char) } : Device).serialBuffer
          = [] := e2
      have hsl : serialLineEnd { serialLineEnd D with serialIn := ([] : List Char) } =
          { serialLineEnd D with serialIn := ([] : List Char) } :=
        serialLineEnd_empty _ hempty
      simp only [hsl]
      rw [← serialLineEnd_serialIn D []]
      congr 1
      rw [← hD]
    rw [run2, run1]
    refine ⟨?_, e2, ?_, rfl⟩
    · rw [e1, hDb, hDm]
    · apply emitted_of_trace_comm
      rw [e3, hDt, hDb, hDcomm]

end AGVCommLib

namespace AGVCommunicationHub

open Arduino

open AGVCoreNetworkLib (WStype_t)

/-! ### Priorities of the hub -/

/-- C23, refuted on the hub in Station mode with the lock free: the text `EMERGENCY` gets
priority 1 as a serial line and priority 0 as a socket frame, the text `START` the other way
round, and the socket priority of `PATH:A1` changes from 1 to 0 when the text is put in
lower case. -/
theorem priority_differs_by_source :
    commandCalls (emitted stationHub
      (processSerialInput { stationHub with serialIn := "EMERGENCY\n".data })) =
      [("EMERGENCY", 1, 1)] ∧
    commandCalls (emitted stationHub
      (handleWebSocketEvent stationHub 0 WStype_t.WStype_TEXT "EMERGENCY".data 9)) =
      [("EMERGENCY", 0, 0)] ∧
    commandCalls (emitted stationHub
      (processSerialInput { stationHub with serialIn := "START\n".data })) =
      [("START", 1, 0)] ∧
    commandCalls (emitted stationHub
      (handleWebSocketEvent stationHub 0 WStype_t.WStype_TEXT "START".data 5)) =
      [("START", 0, 1)] ∧
    socketPriority "PATH:A1" = 1 ∧ socketPriority "path:a1" = 0 ∧
    ("PATH:A1" : String).data.map Char.toLower = ("path:a1" : String).data := by
  decide

theorem equalsIgnoreCase_congr (s t k : String)
    (h : s.data.map Char.toLower = t.data.map Char.toLower) :
    equalsIgnoreCase s k = equalsIgnoreCase t k := by
  have hl : s.data.length = t.data.length := by
    have := congrArg List.length h
    simpa using this
  simp only [equalsIgnoreCase, hl, h]

/-- What `handleWebSocketEvent` passes to the callback for a text frame when it obtains the
lock. -/
theorem handleWebSocketEvent_call (d : Device) (num : Nat) (payload : List Char) (length : Nat)
    (hfree : LockFree d) (hcb : d.hub.commandCallback = true) :
    commandCalls (emitted d (handleWebSocketEvent d num WStype_t.WStype_TEXT payload length)) =
      [(AGVCoreNetworkLib.cmdCopy payload length, 0,
        socketPriority (AGVCoreNetworkLib.cmdCopy payload length))] := by
  obtain ⟨hub, trace, held, takes, ws, prefs, millis, serialIn, serialBuffer⟩ := d
  obtain ⟨hh, ht⟩ := hfree
  simp only at hh hcb ht
  subst hh
  rcases takes with _ | ⟨b, rest⟩
  · cases hw : hub.webSocket <;>
      simp [handleWebSocketEvent, xSemaphoreTake, xSemaphoreGive, emit, emitted, hcb, hw,
        commandCalls]
  · have hb : b = true := ht b (List.mem_cons_self _ _)
    subst hb
    cases hw : hub.webSocket <;>
      simp [handleWebSocketEvent, xSemaphoreTake, xSemaphoreGive, emit, emitted, hcb, hw,
        commandCalls]

/-- What the serial reader passes to the callback at the end of a non-blank line when it
obtains the lock. -/
theorem hub_serialLineEnd_call (d : Device) (hfree : LockFree d)
    (hcb : d.hub.commandCallback = true) (hpos : d.serialBuffer.length > 0)
    (hblank : (trim (AGVCoreNetworkLib.cstr d.serialBuffer)).data.length > 0) :
    commandCalls (emitted d (serialLineEnd d)) =
      [(AGVCoreNetworkLib.cstr d.serialBuffer, 1,
        serialPriority (trim (AGVCoreNetworkLib.cstr d.serialBuffer)))] := by
  obtain ⟨hub, trace, held, takes, ws, prefs, millis, serialIn, serialBuffer⟩ := d
  obtain ⟨hh, ht⟩ := hfree
  simp only at hh hcb ht hpos hblank
  subst hh
  have hblank2 : 0 < (trim (AGVCoreNetworkLib.cstr serialBuffer)).length := hblank
  rcases takes with _ | ⟨b, _ | ⟨b2, rest⟩⟩
  · cases hw : hub.webSocket <;> cases ha : hub.isAPMode <;>
      simp [serialLineEnd, xSemaphoreTake, xSemaphoreGive, emit, emitted, hcb, hw, ha,
        commandCalls, hpos, hblank2]
  · have hb : b = true := ht b (List.mem_cons_self _ _)
    subst hb
    cases hw : hub.webSocket <;> cases ha : hub.isAPMode <;>
      simp [serialLineEnd, xSemaphoreTake, xSemaphoreGive, emit, emitted, hcb, hw, ha,
        commandCalls, hpos, hblank2]
  · have hb : b = true := ht b (List.mem_cons_self _ _)
    subst hb
    cases b2 <;> cases hw : hub.webSocket <;> cases ha : hub.isAPMode <;>
      simp [serialLineEnd, xSemaphoreTake, xSemaphoreGive, emit, emitted, hcb, hw, ha,
        commandCalls, hpos, hblank2]

/-- C23 as amended. In `AGV_CommunicationHub` the priority passed to `commandCallback` is
decided per source by a fixed keyword test. For a serial line it is 1 exactly when the
trimmed line equals `STOP`, `ABORT` or `EMERGENCY` ignoring letter case, and it does not
change when the letter case of the text is changed. For a socket frame it is 1 exactly when
the text equals `STOP`, `ABORT` or `START` ignoring letter case or begins with `PATH:`
written in exactly this case. For `STOP` and `ABORT` in any letter case both give 1. -/
theorem priority_per_source (cmd : String) (d : Device) (num : Nat) (payload : List Char)
    (length : Nat) (hfree : LockFree d) (hcb : d.hub.commandCallback = true) :
    (serialPriority cmd = 1 ↔
      (equalsIgnoreCase cmd "STOP" = true ∨ equalsIgnoreCase cmd "ABORT" = true ∨
        equalsIgnoreCase cmd "EMERGENCY" = true)) ∧
    (socketPriority cmd = 1 ↔
      (equalsIgnoreCase cmd "STOP" = true ∨ equalsIgnoreCase cmd "ABORT" = true ∨
        startsWith cmd "PATH:" = true ∨ equalsIgnoreCase cmd "START" = true)) ∧
    (∀ other : String, other.data.map Char.toLower = cmd.data.map Char.toLower →
      serialPriority other = serialPriority cmd) ∧
    ((equalsIgnoreCase cmd "STOP" = true ∨ equalsIgnoreCase cmd "ABORT" = true) →
      serialPriority cmd = 1 ∧ socketPriority cmd = 1) ∧
    commandCalls (emitted d (handleWebSocketEvent d num WStype_t.WStype_TEXT payload length)) =
      [(AGVCoreNetworkLib.cmdCopy payload length, 0,
        socketPriority (AGVCoreNetworkLib.cmdCopy payload length))] ∧
    (d.serialBuffer.length > 0 →
      (trim (AGVCoreNetworkLib.cstr d.serialBuffer)).data.length > 0 →
      commandCalls (emitted d (serialLineEnd d)) =
        [(AGVCoreNetworkLib.cstr d.serialBuffer, 1,
          serialPriority (trim (AGVCoreNetworkLib.cstr d.serialBuffer)))]) := by
  have hser : serialPriority cmd = 1 ↔
      (equalsIgnoreCase cmd "STOP" = true ∨ equalsIgnoreCase cmd "ABORT" = true ∨
        equalsIgnoreCase cmd "EMERGENCY" = true) := by
    unfold serialPriority
    split
    · rename_i h
      simp only [Bool.or_eq_true] at h
      simp only [true_iff]
      tauto
    · rename_i h
      simp only [Bool.or_eq_true] at h
      simp only [Nat.zero_ne_one, false_iff]
      tauto
  have hsock : socketPriority cmd = 1 ↔
      (equalsIgnoreCase cmd "STOP" = true ∨ equalsIgnoreCase cmd "ABORT" = true ∨
        startsWith cmd "PATH:" = true ∨ equalsIgnoreCase cmd "START" = true) := by
    unfold socketPriority
    split
    · rename_i h
      simp only [Bool.or_eq_true] at h
      simp only [true_iff]
      tauto
    · rename_i h
      simp only [Bool.or_eq_true] at h
      simp only [Nat.zero_ne_one, false_iff]
      tauto
  refine ⟨hser, hsock, ?_, ?_, handleWebSocketEvent_call d num payload length hfree hcb, ?_⟩
  · intro other h
    simp only [serialPriority, equalsIgnoreCase_congr other cmd _ h]
  · intro h
    exact ⟨hser.mpr (by tauto), hsock.mpr (by tauto)⟩
  · intro hpos hblank
    exact hub_serialLineEnd_call d hfree hcb hpos hblank

/-- C23 as amended, at the hub in Station mode: `stop` in lower case gets priority 1 from
both sources. -/
theorem priority_per_source_witness :
    serialPriority "stop" = 1 ∧ socketPriority "stop" = 1 ∧
    commandCalls (emitted stationHub
      (handleWebSocketEvent stationHub 0 WStype_t.WStype_TEXT "stop".data 4)) =
      [("stop", 0, 1)] :=
  have h := priority_per_source "stop" stationHub 0 "stop".data 4 (by decide) (by decide)
  ⟨(h.2.2.2.1 (Or.inl (by decide))).1, (h.2.2.2.1 (Or.inl (by decide))).2,
    h.2.2.2.2.1.trans (by decide)⟩

/-! ### The service loop of the hub -/

theorem handleWebSocketEvent_held (d : Device) (num : Nat) (type : WStype_t)
    (payload : List Char) (length : Nat) (h : d.mutexHeld = true) :
    handleWebSocketEvent d num type payload length = d := by
  simp [handleWebSocketEvent, xSemaphoreTake, h]

theorem webSocketLoop_held (frames : List Frame) (d : Device) (h : d.mutexHeld = true) :
    webSocketLoop d frames = d := by
  induction frames with
  | nil => rfl
  | cons f fs ih =>
    simp only [webSocketLoop, List.foldl_cons] at ih ⊢
    rw [handleWebSocketEvent_held d _ _ _ _ h]
    exact ih

theorem serialLineEnd_held (d : Device) (h : d.mutexHeld = true) :
    (serialLineEnd d).trace = d.trace ∧ (serialLineEnd d).mutexHeld = true := by
  unfold serialLineEnd
  by_cases hpos : d.serialBuffer.length > 0
  · by_cases hb : 0 < (trim (AGVCoreNetworkLib.cstr d.serialBuffer)).length
    · simp [hpos, hb, xSemaphoreTake, h]
    · simp [hpos, hb, h]
  · simp [hpos, h]

theorem processSerialInputLoop_held (pending : List Char) (d : Device)
    (h : d.mutexHeld = true) :
    (processSerialInputLoop pending d).trace = d.trace := by
  induction pending generalizing d with
  | nil => rfl
  | cons c rest ih =>
    simp only [processSerialInputLoop]
    by_cases hterm : (c == '\n' || c == '\r') = true
    · simp only [hterm, if_true]
      obtain ⟨h1, h2⟩ := serialLineEnd_held { d with serialIn := rest } h
      rw [ih _ (by simpa [delay] using h2)]
      simpa [delay] using h1
    · simp only [hterm, Bool.false_eq_true, if_false]
      split
      · rw [ih _ (by simpa [delay] using h)]
        rfl
      · rw [ih _ (by simpa [delay] using h)]
        rfl

/-- One pass of the service loop records no call at all, whatever is waiting. -/
theorem core0TaskIteration_silent (d : Device) (frames : List Frame) :
    (core0TaskIteration d frames).trace = d.trace := by
  unfold core0TaskIteration
  by_cases hheld : d.mutexHeld = true
  · simp [xSemaphoreTake, hheld, delay]
  · simp only [Bool.not_eq_true] at hheld
    have htake : (xSemaphoreTake d).2.trace = d.trace ∧
        ((xSemaphoreTake d).1 = true → (xSemaphoreTake d).2.mutexHeld = true) := by
      unfold xSemaphoreTake
      simp only [hheld, Bool.false_eq_true, if_false]
      split
      · exact ⟨rfl, fun _ => rfl⟩
      · exact ⟨rfl, fun hb => hb⟩
    obtain ⟨ht, hh⟩ := htake
    by_cases hok : (xSemaphoreTake d).1 = true
    · have hheld2 := hh hok
      simp only [hok, if_true, delay, xSemaphoreGive]
      by_cases hap : (xSemaphoreTake d).2.hub.isAPMode = true
      · simp [hap, ht]
      · simp only [Bool.not_eq_true] at hap
        simp only [hap, Bool.not_false, if_true]
        by_cases hws : (xSemaphoreTake d).2.hub.webSocket = true
        · simp only [hws, if_true, webSocketLoop_held frames _ hheld2]
          rw [processSerialInput, processSerialInputLoop_held _ _ hheld2, ht]
        · simp only [hws, Bool.false_eq_true, if_false]
          rw [processSerialInput, processSerialInputLoop_held _ _ hheld2, ht]
    · simp [hok, delay, ht]

/-- C28. With the non-recursive mutex, one pass of `core0Task` forwards nothing: the loop
holds the mutex while it calls `webSocket->loop()` and `processSerialInput()`, and both
`handleWebSocketEvent` and the serial reader try to take the same mutex again and give up.
The failing input: the hub in Station mode with a callback registered, the line
`move forward` waiting on the serial link and the text frame `STOP` waiting on the socket;
the line is read and dropped, the frame is dropped, no call is recorded. Outside the loop,
with the mutex free, the same line and frame reach the callback. -/
theorem core0Task_forwards_nothing :
    (∀ (d : Device) (frames : List Frame), (core0TaskIteration d frames).trace = d.trace) ∧
    stationHub.hub.isAPMode = false ∧ stationHub.hub.commandCallback = true ∧
    stationHub.mutexHeld = false ∧
    emitted stationHub
      (core0TaskIteration { stationHub with serialIn := "move forward\n".data }
        [⟨0, WStype_t.WStype_TEXT, "STOP".data, 4⟩]) = [] ∧
    (core0TaskIteration { stationHub with serialIn := "move forward\n".data }
        [⟨0, WStype_t.WStype_TEXT, "STOP".data, 4⟩]).serialIn = [] ∧
    (core0TaskIteration { stationHub with serialIn := "move forward\n".data }
        [⟨0, WStype_t.WStype_TEXT, "STOP".data, 4⟩]).serialBuffer = [] ∧
    commandCalls (emitted stationHub
      (processSerialInput { stationHub with serialIn := "move forward\n".data })) =
      [("move forward", 1, 0)] ∧
    commandCalls (emitted stationHub
      (handleWebSocketEvent stationHub 0 WStype_t.WStype_TEXT "STOP".data 4)) =
      [("STOP", 0, 1)] := by
  refine ⟨core0TaskIteration_silent, ?_⟩
  decide

end AGVCommunicationHub

namespace AGVCoreNetworkLib

open Arduino

/-! ### Credential round trip -/

theorem strstr_skip (k pre rest : List Char) (hq : '"' ∉ pre) :
    strstr ('"' :: k) (pre ++ '"' :: rest) =
      (strstr ('"' :: k) ('"' :: rest)).map (· + pre.length) := by
  induction pre with
  | nil => simp
  | cons a pre ih =>
    have ha : ('"' == a) = false := by
      simp only [beq_eq_false_iff_ne, ne_eq]
      intro h
      exact hq (h ▸ List.mem_cons_self _ _)
    have hc : '"' ∉ pre := fun h => hq (List.mem_cons_of_mem _ h)
    have step : strstr ('"' :: k) (a :: (pre ++ '"' :: rest)) =
        (strstr ('"' :: k) (pre ++ '"' :: rest)).map (· + 1) := by
      simp [strstr, startsWithChars, ha]
    show strstr ('"' :: k) (a :: (pre ++ '"' :: rest)) = _
    rw [step, ih hc, Option.map_map]
    congr 1

theorem startsWithChars_no_match (w t X rest : List Char) (hw : '"' ∉ w) (hX : '"' ∉ X) :
    startsWithChars (w ++ '"' :: ':' :: t) (X ++ '"' :: ',' :: rest) = false := by
  induction w generalizing X with
  | nil =>
    cases X with
    | nil => simp [startsWithChars]
    | cons a X =>
      have ha : ('"' == a) = false := by
        simp only [beq_eq_false_iff_ne, ne_eq]
        intro h
        exact hX (h ▸ List.mem_cons_self _ _)
      simp [startsWithChars, ha]
  | cons b w ih =>
    have hb : b ≠ '"' := fun h => hw (h ▸ List.mem_cons_self _ _)
    have hw2 : '"' ∉ w := fun h => hw (List.mem_cons_of_mem _ h)
    cases X with
    | nil => simp [startsWithChars, hb]
    | cons a X =>
      have hX2 : '"' ∉ X := fun h => hX (List.mem_cons_of_mem _ h)
      show (b == a && startsWithChars (w ++ '"' :: ':' :: t) (X ++ '"' :: ',' :: rest)) = false
      rw [ih X hw2 hX2, Bool.and_false]

theorem wifiBody_data (X Y : String) :
    (wifiBody X Y).data =
      ['\x7b', '"', 's', 's', 'i', 'd', '"', ':', '"'] ++ (X.data ++ ('"' :: ',' ::
        (['"', 'p', 'a', 's', 's', 'w', 'o', 'r', 'd', '"', ':', '"'] ++
          (Y.data ++ ['"', '\x7d'])))) := by
  simp only [wifiBody, String.data_append]
  have e1 : ("\x7b\"ssid\":\"" : String).data = ['\x7b', '"', 's', 's', 'i', 'd', '"', ':', '"'] :=
    rfl
  have e2 : ("\",\"password\":\"" : String).data =
      ['"', ',', '"', 'p', 'a', 's', 's', 'w', 'o', 'r', 'd', '"', ':', '"'] := rfl
  have e3 : ("\"\x7d" : String).data = ['"', '\x7d'] := rfl
  simp only [e1, e2, e3, List.append_assoc, List.cons_append, List.nil_append]

theorem strstr_wifiBody_ssid (X Y : String) :
    strstr ("\"ssid\":\"" : String).data (wifiBody X Y).data = some 1 := by
  rw [wifiBody_data]
  have hk : ("\"ssid\":\"" : String).data = ['"', 's', 's', 'i', 'd', '"', ':', '"'] := rfl
  rw [hk]
  simp [strstr, startsWithChars]

theorem strstr_wifiBody_password (X Y : String) (hX : '"' ∉ X.data) :
    strstr ("\"password\":\"" : String).data (wifiBody X Y).data = some (11 + X.data.length) := by
  rw [wifiBody_data]
  have hk : ("\"password\":\"" : String).data =
      ['"', 'p', 'a', 's', 's', 'w', 'o', 'r', 'd', '"', ':', '"'] := rfl
  rw [hk]
  have hno := startsWithChars_no_match ['p', 'a', 's', 's', 'w', 'o', 'r', 'd'] ['"'] X.data
    (['"', 'p', 'a', 's', 's', 'w', 'o', 'r', 'd', '"', ':', '"'] ++ (Y.data ++ ['"', '\x7d']))
    (by decide) hX
  have hskip := strstr_skip ['p', 'a', 's', 's', 'w', 'o', 'r', 'd', '"', ':', '"'] X.data
    (',' :: (['"', 'p', 'a', 's', 's', 'w', 'o', 'r', 'd', '"', ':', '"'] ++
      (Y.data ++ ['"', '\x7d']))) hX
  simp only [List.cons_append, List.nil_append] at hno hskip ⊢
  simp only [strstr, startsWithChars, hno, hskip]
  simp
  omega

theorem extractField_wifiBody_ssid (X Y : String) (hX : '"' ∉ X.data) :
    extractField (wifiBody X Y) "\"ssid\":\"" 8 = X := by
  have hlen : (wifiBody X Y).data.length = X.data.length + Y.data.length + 25 := by
    rw [wifiBody_data]
    simp
    omega
  have hidx : indexOf (wifiBody X Y) "\"ssid\":\"" 0 = 1 := by
    unfold indexOf
    have h0 : ¬ ((0 : Int).toNat ≥ (wifiBody X Y).data.length) := by
      rw [hlen]; simp
    simp only [lt_self_iff_false, if_false, h0, Int.toNat_zero, List.drop_zero,
      strstr_wifiBody_ssid]
    rfl
  have hdrop : (wifiBody X Y).data.drop 9 = X.data ++ ('"' :: ',' ::
        (['"', 'p', 'a', 's', 's', 'w', 'o', 'r', 'd', '"', ':', '"'] ++
          (Y.data ++ ['"', '\x7d']))) := by
    rw [wifiBody_data]
    rfl
  have hend : indexOf (wifiBody X Y) "\"" 9 = ((9 + X.data.length : Nat) : Int) := by
    unfold indexOf
    have h0 : ¬ ((9 : Int) < 0) := by omega
    have h2 : (9 : Int).toNat = 9 := rfl
    have h1 : ¬ (9 ≥ (wifiBody X Y).data.length) := by
      rw [hlen]
      omega
    have hq1 : ("\"" : String).data = ['"'] := rfl
    simp only [h0, if_false, h2, h1, hdrop, hq1, strstr_quote X.data _ hX]
  unfold extractField
  simp only [hidx]
  have e1 : ((1 : Int) + 8) = 9 := rfl
  rw [e1, hend]
  by_cases hpos : 0 < X.data.length
  · have hc1 : ((9 : Int) > 8 && ((9 + X.data.length : Nat) : Int) > 9) = true := by
      simp only [Bool.and_eq_true, decide_eq_true_eq]
      constructor
      · omega
      · push_cast
        omega
    simp only [hc1, if_true]
    have t1 : (9 : Int).toNat = 9 := rfl
    have t2 : (((9 + X.data.length : Nat) : Int)).toNat = 9 + X.data.length :=
      Int.toNat_ofNat _
    rw [t1, t2]
    unfold substring
    have g1 : ¬ (9 > 9 + X.data.length) := by omega
    have g2 : ¬ (9 ≥ (wifiBody X Y).data.length) := by rw [hlen]; omega
    have g3 : ¬ (9 + X.data.length > (wifiBody X Y).data.length) := by rw [hlen]; omega
    simp only [g1, if_false, g2, g3, hdrop]
    apply String.ext
    simp
  · have hz : X.data.length = 0 := by omega
    have hc1 : ((9 : Int) > 8 && ((9 + X.data.length : Nat) : Int) > 9) = false := by
      rw [hz]
      decide
    simp only [hc1, Bool.false_eq_true, if_false]
    apply String.ext
    exact (List.length_eq_zero.mp hz).symm

theorem extractField_wifiBody_password (X Y : String) (hX : '"' ∉ X.data) (hY : '"' ∉ Y.data) :
    extractField (wifiBody X Y) "\"password\":\"" 12 = Y := by
  have hlen : (wifiBody X Y).data.length = X.data.length + Y.data.length + 25 := by
    rw [wifiBody_data]
    simp
    omega
  have hidx : indexOf (wifiBody X Y) "\"password\":\"" 0 = ((11 + X.data.length : Nat) : Int) := by
    unfold indexOf
    have h0 : ¬ ((0 : Int).toNat ≥ (wifiBody X Y).data.length) := by
      rw [hlen]; simp
    have h1 : ¬ (0 ≥ (wifiBody X Y).data.length) := by
      rw [hlen]; simp
    simp only [lt_self_iff_false, if_false, h0, h1, Int.toNat_zero, List.drop_zero,
      strstr_wifiBody_password X Y hX, Nat.zero_add]
  have hdrop : (wifiBody X Y).data.drop (23 + X.data.length) = Y.data ++ ['"', '\x7d'] := by
    rw [wifiBody_data]
    have e : 23 + X.data.length =
        (['\x7b', '"', 's', 's', 'i', 'd', '"', ':', '"'] : List Char).length +
          (X.data.length + 14) := by
      simp
      omega
    rw [e, List.drop_append, List.drop_append]
    rfl
  have hstart : ((11 + X.data.length : Nat) : Int) + 12 = ((23 + X.data.length : Nat) : Int) := by
    push_cast
    omega
  have hend : indexOf (wifiBody X Y) "\"" ((23 + X.data.length : Nat) : Int) =
      ((23 + X.data.length + Y.data.length : Nat) : Int) := by
    unfold indexOf
    have h0 : ¬ (((23 + X.data.length : Nat) : Int) < 0) := by omega
    have h2 : (((23 + X.data.length : Nat) : Int)).toNat = 23 + X.data.length :=
      Int.toNat_ofNat _
    have h1 : ¬ (23 + X.data.length ≥ (wifiBody X Y).data.length) := by
      rw [hlen]
      omega
    have hq1 : ("\"" : String).data = ['"'] := rfl
    simp only [h0, if_false, h2, h1, hdrop, hq1, strstr_quote Y.data _ hY]
  unfold extractField
  simp only [hidx]
  rw [hstart, hend]
  by_cases hpos : 0 < Y.data.length
  · have hc1 : (((23 + X.data.length : Nat) : Int) > 12 &&
        ((23 + X.data.length + Y.data.length : Nat) : Int) >
          ((23 + X.data.length : Nat) : Int)) = true := by
      simp only [Bool.and_eq_true, decide_eq_true_eq]
      constructor
      · push_cast
        omega
      · push_cast
        omega
    simp only [hc1, if_true]
    have t1 : (((23 + X.data.length : Nat) : Int)).toNat = 23 + X.data.length :=
      Int.toNat_ofNat _
    have t2 : (((23 + X.data.length + Y.data.length : Nat) : Int)).toNat =
        23 + X.data.length + Y.data.length := Int.toNat_ofNat _
    rw [t1, t2]
    unfold substring
    have g1 : ¬ (23 + X.data.length > 23 + X.data.length + Y.data.length) := by omega
    have g2 : ¬ (23 + X.data.length ≥ (wifiBody X Y).data.length) := by rw [hlen]; omega
    have g3 : ¬ (23 + X.data.length + Y.data.length > (wifiBody X Y).data.length) := by
      rw [hlen]; omega
    simp only [g1, if_false, g2, g3, hdrop]
    apply String.ext
    simp
  · have hz : Y.data.length = 0 := by omega
    have hc1 : (((23 + X.data.length : Nat) : Int) > 12 &&
        ((23 + X.data.length + Y.data.length : Nat) : Int) >
          ((23 + X.data.length : Nat) : Int)) = false := by
      rw [hz]
      simp
    simp only [hc1, Bool.false_eq_true, if_false]
    apply String.ext
    exact (List.length_eq_zero.mp hz).symm

theorem cleanupResources_frame (d : Device) :
    (cleanupResources d).prefs = d.prefs ∧ (cleanupResources d).trace = d.trace ∧
    (cleanupResources d).mutexCreate = d.mutexCreate := by
  unfold cleanupResources xSemaphoreTake
  split <;> simp
  split <;> simp

theorem setupWiFi_stored (d : Device) :
    (setupWiFi d).net.stored_ssid = d.net.stored_ssid ∧
    (setupWiFi d).net.stored_password = d.net.stored_password := by
  have hAP : ∀ e : Device, (startAPMode e).net.stored_ssid = e.net.stored_ssid ∧
      (startAPMode e).net.stored_password = e.net.stored_password := by
    intro e
    simp [startAPMode, delay]
  unfold setupWiFi
  split
  · unfold startStationMode
    have hw := (waitForConnection_bound 30 d).1
    have hc := (wifiConnected_frame (waitForConnection 30 d)).1
    simp only
    split
    · simp only [setupRoutes, hc, hw]
      constructor <;> simp
    · obtain ⟨a, b⟩ := hAP (wifiConnected (waitForConnection 30 d)).2
      rw [a, b, hc, hw]
      exact ⟨rfl, rfl⟩
  · exact hAP d

/-- C26. Credential round trip: for every network name `X` and secret `Y` without a double
quote, `handleSaveWiFi` in AP mode on a POST with the body `{"ssid":"X","password":"Y"}`
writes `X` under `ssid` and `Y` under `password`, answers 200 and restarts; and `begin` on
the restarted device, once its mutex is created, loads `stored_ssid == X` and
`stored_password == Y`. -/
theorem credentials_round_trip (d : Device) (X Y deviceName adminUser adminPass : String)
    (hap : d.net.isAPMode = true) (hX : '"' ∉ X.data) (hY : '"' ∉ Y.data)
    (hm : d.mutexCreate = true) :
    emitted d (handleSaveWiFi d (post "/savewifi" (wifiBody X Y) "")) =
      [Event.putString "ssid" X, Event.putString "password" Y,
       Event.send 200 "application/json" "\x7b\"success\":true\x7d", Event.restart] ∧
    getString (handleSaveWiFi d (post "/savewifi" (wifiBody X Y) "")).prefs "ssid" "" = X ∧
    getString (handleSaveWiFi d (post "/savewifi" (wifiBody X Y) "")).prefs "password" "" = Y ∧
    (begin (reboot (handleSaveWiFi d (post "/savewifi" (wifiBody X Y) "")))
      deviceName adminUser adminPass).net.stored_ssid = X ∧
    (begin (reboot (handleSaveWiFi d (post "/savewifi" (wifiBody X Y) "")))
      deviceName adminUser adminPass).net.stored_password = Y := by
  have hs := extractField_wifiBody_ssid X Y hX
  have hp := extractField_wifiBody_password X Y hX hY
  have harg : (post "/savewifi" (wifiBody X Y) "").arg "plain" = wifiBody X Y := by
    simp [post, Request.arg, List.lookup]
  have hmeth : (post "/savewifi" (wifiBody X Y) "").method = HTTPMethod.HTTP_POST := rfl
  generalize hS : handleSaveWiFi d (post "/savewifi" (wifiBody X Y) "") = S
  have hSdef : S = restartSystem (delay (emit (putString (putString d "ssid" X) "password" Y)
      (Event.send 200 "application/json" "\x7b\"success\":true\x7d")) 1000) := by
    rw [← hS]
    unfold handleSaveWiFi
    simp only [hmeth, hap, harg, hs, hp]
    simp
  generalize hD : delay (emit (putString (putString d "ssid" X) "password" Y)
      (Event.send 200 "application/json" "\x7b\"success\":true\x7d")) 1000 = D at hSdef
  have hDp : D.prefs = ("password", Y) ::
      (("ssid", X) :: d.prefs.filter (fun kv => kv.1 != "ssid")).filter
        (fun kv => kv.1 != "password") := by
    rw [← hD]
    simp [delay, emit, putString]
  have hDt : D.trace = d.trace ++ [Event.putString "ssid" X, Event.putString "password" Y,
       Event.send 200 "application/json" "\x7b\"success\":true\x7d"] := by
    rw [← hD]
    simp [delay, emit, putString]
  have hDm : D.mutexCreate = true := by
    rw [← hD]
    simpa [delay, emit, putString] using hm
  obtain ⟨c1, c2, c3⟩ := cleanupResources_frame D
  have hprefs : S.prefs = ("password", Y) ::
      (("ssid", X) :: d.prefs.filter (fun kv => kv.1 != "ssid")).filter
        (fun kv => kv.1 != "password") := by
    rw [hSdef, ← hDp, ← c1]
    rfl
  have htrace : S.trace = d.trace ++ [Event.putString "ssid" X, Event.putString "password" Y,
       Event.send 200 "application/json" "\x7b\"success\":true\x7d", Event.restart] := by
    rw [hSdef]
    show (cleanupResources D).trace ++ [Event.restart] = _
    rw [c2, hDt]
    simp
  have hmc : S.mutexCreate = true := by
    rw [hSdef, ← hDm, ← c3]
    rfl
  have hgs : getString S.prefs "ssid" "" = X := by
    rw [hprefs]
    have hne : (("password" : String) != "ssid") = true := by decide
    have hne2 : (("ssid" : String) == "password") = false := by decide
    simp [getString, List.lookup, List.filter, hne, hne2]
  have hgp : getString S.prefs "password" "" = Y := by
    rw [hprefs]
    simp [getString, List.lookup]
  refine ⟨?_, hgs, hgp, ?_, ?_⟩
  · simp [emitted, htrace]
  · unfold begin
    have hr : (reboot S).mutexCreate = true := hmc
    simp only [hr, Bool.not_true, Bool.false_eq_true, if_false]
    rw [(setupWiFi_stored _).1]
    exact hgs
  · unfold begin
    have hr : (reboot S).mutexCreate = true := hmc
    simp only [hr, Bool.not_true, Bool.false_eq_true, if_false]
    rw [(setupWiFi_stored _).2]
    exact hgp

/-- C26 on the device in AP mode, with the network name `home net` and the secret `pw 1`. -/
theorem credentials_round_trip_witness :
    (begin (reboot (handleSaveWiFi apDevice (post "/savewifi" (wifiBody "home net" "pw 1") "")))
      "agvcontrol" "admin" "admin123").net.stored_ssid = "home net" ∧
    (begin (reboot (handleSaveWiFi apDevice (post "/savewifi" (wifiBody "home net" "pw 1") "")))
      "agvcontrol" "admin" "admin123").net.stored_password = "pw 1" :=
  (credentials_round_trip apDevice "home net" "pw 1" "agvcontrol" "admin" "admin123"
    (by decide) (by decide) (by decide) (by decide)).2.2.2

end AGVCoreNetworkLib

namespace AGVCommLib

open Arduino

/-- C30 on the library in Station mode: the bytes `move` followed by CR LF put one command
on the queue. -/
theorem crlf_line_gives_one_command_witness :
    (processSerial { stationComm with serialIn := "move".data ++ ['\r'] }).comm.command_queue =
      some [{ command := "move", source := CommandSource.SOURCE_SERIAL, timestamp := 0 }] ∧
    processSerial { stationComm with serialIn := "move".data ++ ['\r', '\n'] } =
      processSerial { stationComm with serialIn := "move".data ++ ['\r'] } :=
  have h := crlf_line_gives_one_command "move".data stationComm [] (by decide) (by decide)
    (by decide) (by decide) (by decide) (by decide) (by decide) (by decide)
  ⟨h.1.trans (by decide), h.2.2.2⟩

end AGVCommLib
